import Mathlib

/-! # Verification development for the synx core, the VFE CAMIF (ver3) driver and
the GPU clock controller

Part I embeds `drivers/media/platform/msm/synx/synx_private.h` (the data model of
the synchronization-object manager).  The header only declares the data; the
operations on it (create, get, release, bind, signal, dispatch, poll) live in
files of the repository that are not part of the sources at hand, so they are
modelled from the specification and marked as such.

Part II embeds `cam_vfe_camif_ver3.c`.

Part III embeds the tables and the probe function of `gpucc-lito.c`.
-/

namespace Synx

/-! ## Constants of `synx_private.h` (lines 16-23) -/

def SYNX_OBJ_NAME_LEN : Nat := 64
def SYNX_MAX_OBJS : Nat := 1024
def SYNX_MAX_REF_COUNTS : Nat := 2048
def SYNX_PAYLOAD_WORDS : Nat := 4
def SYNX_MAX_NUM_BINDINGS : Nat := 8

/-! ## Data model of `synx_private.h` -/

/-- Modelled from the spec: the terminal status a callback is informed of
(`Success`, `Error`, or `Released`, section 4.4).  The header stores it in an
`int status` field; the numeric encoding is declared outside the sources. -/
inductive Status where
  | Success
  | Error
  | Released
  deriving DecidableEq

/-- Modelled from the spec: the lifecycle state carried by the fence of a live row
(`ACTIVE`, then `SIGNALED` with the recorded status).  `RELEASED` is the absence of
the fence (`fence = NULL`).  `struct dma_fence` itself is a kernel type declared
outside the sources; the core treats it as an opaque signalable object. -/
inductive fence_state where
  | ACTIVE
  | SIGNALED (status : Status)
  deriving DecidableEq

/-- Modelled from the spec: the fence collaborator (section 2), "an opaque signalable
object"; only its state is visible to the core.  `struct dma_fence` is declared
outside the sources. -/
structure dma_fence where
  state : fence_state
  deriving DecidableEq

/-- Header lines 32-35, `struct synx_external_data`: data passed over to external
sync objects to pass on callback. -/
structure synx_external_data where
  /-- `s32 synx_obj` : synx obj id -/
  synx_obj : Int
  /-- `u32 secure_key` : secure key for authentication -/
  secure_key : Nat
  deriving DecidableEq

/-- Modelled from the spec: `struct synx_external_desc`, used by `synx_bind_desc`
(header line 44), is declared in a header outside the sources; the spec's bind
descriptor names its two members `{external_type, external_handle}` (section 3). -/
structure synx_external_desc where
  /-- external type tag (index into `bind_vtbl`) -/
  type : Nat
  /-- handle of the external sync object -/
  id : Int
  deriving DecidableEq

/-- Header lines 43-46, `struct synx_bind_desc`. -/
structure synx_bind_desc where
  external_desc : synx_external_desc
  external_data : synx_external_data
  deriving DecidableEq

/-- Header lines 59-66, `struct synx_callback_info` (the work item and list node
are represented by the containers holding the value). -/
structure synx_callback_info where
  /-- `synx_callback callback_func` : a function reference -/
  callback_func : Nat
  /-- `void *cb_data` -/
  cb_data : Nat
  /-- `int status` -/
  status : Status
  /-- `s32 synx_obj` -/
  synx_obj : Int
  deriving DecidableEq

/-- Header lines 78-82, `struct synx_user_payload`. -/
structure synx_user_payload where
  synx_obj : Int
  status : Status
  /-- `u64 payload_data[SYNX_PAYLOAD_WORDS]` -/
  payload_data : List Nat
  deriving DecidableEq

/-- Header lines 92-96, `struct synx_cb_data`; the client pointer is the position
of the client in `client_list`. -/
structure synx_cb_data where
  client : Nat
  data : synx_user_payload
  deriving DecidableEq

/-- Header lines 113-124, `struct synx_table_row`. -/
structure synx_table_row where
  /-- `char name[SYNX_OBJ_NAME_LEN]` -/
  name : List Nat
  /-- `struct dma_fence *fence` (`none` is `NULL`) -/
  fence : Option dma_fence
  /-- `s32 synx_obj` -/
  synx_obj : Int
  /-- `s32 index` -/
  index : Int
  /-- `u32 num_bound_synxs` -/
  num_bound_synxs : Nat
  /-- `s32 signaling_id` -/
  signaling_id : Int
  /-- `u32 secure_key` -/
  secure_key : Nat
  /-- `struct synx_bind_desc bound_synxs[SYNX_MAX_NUM_BINDINGS]`: the entries in
  use, in bind order -/
  bound_synxs : List synx_bind_desc
  /-- `struct list_head callback_list` -/
  callback_list : List synx_callback_info
  /-- `struct list_head user_payload_list` -/
  user_payload_list : List synx_cb_data
  deriving DecidableEq

/-- Header lines 136-143, `struct bind_operations`.  The members are function
pointers into external drivers; the core only tests them for `NULL`, so each is
represented by whether it is installed. -/
structure bind_operations where
  register_callback : Bool
  deregister_callback : Bool
  /-- optional -/
  enable_signaling : Bool
  signal : Bool
  deriving DecidableEq

/-- Header lines 189-196, `struct synx_client`.  The pointer `device` is the device
the client is listed in, `list` is the membership in `client_list`, and the lock
and the wait queue carry no data in a sequential model. -/
structure synx_client where
  /-- `int pid` -/
  pid : Int
  /-- `struct list_head eventq` : all the user callback payloads -/
  eventq : List synx_cb_data
  deriving DecidableEq

/-- Modelled from the spec: one unit of asynchronous dispatch work, "one dispatch per
registration" (section 4.4): the `cb_dispatch_work` of a kernel callback, or the
delivery of one user payload.  The work-queue code is missing from the sources. -/
inductive synx_work where
  | kernel_cb (info : synx_callback_info)
  | user_cb (node : synx_cb_data)
  deriving DecidableEq

/-- Modelled from the spec: a call made by the core into an external driver through
`bind_vtbl` (the external binding collaborator interface of section 6). -/
inductive ext_call where
  | register_callback (type : Nat) (userdata : synx_external_data) (sync_obj : Int)
  | deregister_callback (type : Nat) (userdata : synx_external_data) (sync_obj : Int)
  | enable_signaling (type : Nat) (sync_obj : Int)
  deriving DecidableEq

/-- Header lines 162-176, `struct synx_device`.  The character-device members
(`cdev`, `dev`, `class`), the locks and `dma_context` carry nothing the claims
depend on.  `work_queue` is the content of the work queue.  The last two members
are observation logs of the effects the core has on its collaborators. -/
structure synx_device where
  /-- `struct synx_table_row synx_table[SYNX_MAX_OBJS]` -/
  synx_table : List synx_table_row
  /-- `spinlock_t row_spinlocks[SYNX_MAX_OBJS]`: one lock per row; the value is
  whether the lock is held -/
  row_spinlocks : List Bool
  /-- `int open_cnt` -/
  open_cnt : Int
  /-- `struct workqueue_struct *work_queue` -/
  work_queue : List synx_work
  /-- `DECLARE_BITMAP(bitmap, SYNX_MAX_OBJS)` -/
  bitmap : List Bool
  /-- `struct bind_operations bind_vtbl[SYNX_MAX_BIND_TYPES]` -/
  bind_vtbl : List bind_operations
  /-- `struct list_head client_list` -/
  client_list : List synx_client
  /-- kernel callbacks invoked so far by the dispatch worker, oldest first -/
  dispatched : List synx_callback_info
  /-- calls made into external drivers so far, oldest first -/
  ext_calls : List ext_call
  deriving DecidableEq

/-- Error taxonomy of the spec (section 7). -/
inductive synx_error where
  | InvalidHandle
  | TableFull
  | BindLimitExceeded
  | UnknownType
  | AuthenticationFailure
  | Timeout
  deriving DecidableEq

/-- A row of a table that has just been zero-initialised. -/
def synx_table_row.empty : synx_table_row :=
  { name := [], fence := none, synx_obj := 0, index := 0, num_bound_synxs := 0,
    signaling_id := 0, secure_key := 0, bound_synxs := [], callback_list := [],
    user_payload_list := [] }

/-- Modelled from the spec: the device right after it has been set up (the
initialisation code is missing from the sources): every row free, every bit clear,
every lock released, no session, no bind type registered in a vtable of `ntypes`
entries (`SYNX_MAX_BIND_TYPES` is defined outside the sources). -/
def synx_device.init (ntypes : Nat) : synx_device :=
  { synx_table := List.replicate SYNX_MAX_OBJS synx_table_row.empty,
    row_spinlocks := List.replicate SYNX_MAX_OBJS false,
    open_cnt := 0,
    work_queue := [],
    bitmap := List.replicate SYNX_MAX_OBJS false,
    bind_vtbl := List.replicate ntypes ⟨false, false, false, false⟩,
    client_list := [],
    dispatched := [],
    ext_calls := [] }

/-- The structural invariant of the device: the three per-row arrays have the
declared capacity and a bitmap bit is set exactly for the rows holding a fence. -/
def synx_device.wf (d : synx_device) : Prop :=
  d.synx_table.length = SYNX_MAX_OBJS ∧
  d.row_spinlocks.length = SYNX_MAX_OBJS ∧
  d.bitmap.length = SYNX_MAX_OBJS ∧
  d.bitmap = d.synx_table.map (fun r => r.fence.isSome)

/-! ## Operations of the core

The functions below are declared in no file of the sources at hand; each is
modelled from the specification (sections 4.1-4.5). -/

/-- Modelled from the spec: the ID allocator "draws from a bitmap of free slots
sized to table capacity" (section 4.2).  The function with this name is a kernel
bitmap helper declared outside the sources: index of the first clear bit, or the
size of the bitmap when every bit is set. -/
def find_first_zero_bit (bitmap : List Bool) : Nat :=
  bitmap.findIdx (fun b => !b)

/-- Modelled from the spec: resolution of a handle to its live row (section 4.1,
`get`); the handle maps to a row index and "a row's id is valid only while
`fence != null`" (section 3).  The driver function `synx_from_handle` is missing
from the sources. -/
def synx_from_handle (d : synx_device) (h : Int) : Option synx_table_row :=
  if 0 ≤ h ∧ h < SYNX_MAX_OBJS then
    match d.synx_table[h.toNat]? with
    | some row => if row.fence.isSome then some row else none
    | none => none
  else none

/-- Modelled from the spec: `get(handle) -> RowRef`, "fails with `InvalidHandle`
if the handle does not map to a live row" (section 4.1).  The driver function is
missing from the sources. -/
def synx_get (d : synx_device) (h : Int) : Except synx_error synx_table_row :=
  match synx_from_handle d h with
  | some row => .ok row
  | none => .error .InvalidHandle

/-- Store `row` in slot `idx` of the table (a helper of the model). -/
def synx_device.set_row (d : synx_device) (idx : Nat) (row : synx_table_row) :
    synx_device :=
  { d with synx_table := d.synx_table.set idx row }

/-- Modelled from the spec: the row written by `create` into slot `idx` (section 3,
lifecycle): the fence attached, the id equal to the slot index, the generated key
stored in the `u32` member, no binding and no registration yet. -/
def synx_new_row (idx : Nat) (name : List Nat) (fence : dma_fence) (key : Nat) :
    synx_table_row :=
  { name := name.take SYNX_OBJ_NAME_LEN, fence := some fence, synx_obj := idx,
    index := idx, num_bound_synxs := 0, signaling_id := 0,
    secure_key := key % 2 ^ 32, bound_synxs := [], callback_list := [],
    user_payload_list := [] }

/-- Modelled from the spec: `create(name?, fence) -> SynxHandle` "allocates a free
row, binds the fence, returns a fresh id; fails with `TableFull` when no free row
exists" (section 4.1); the id is drawn from the bitmap (section 4.2) and the
secure key is "generated at creation" (section 3).  The key generator is missing
from the sources and the spec does not describe it, so the generated key is the
argument `key`, stored in the `u32` member.  The driver function is missing from
the sources. -/
def synx_create (d : synx_device) (name : List Nat) (fence : dma_fence) (key : Nat) :
    Except synx_error Int × synx_device :=
  let idx := find_first_zero_bit d.bitmap
  if idx < SYNX_MAX_OBJS then
    (.ok idx, { d with synx_table := d.synx_table.set idx (synx_new_row idx name fence key),
                       bitmap := d.bitmap.set idx true })
  else (.error .TableFull, d)

/-- Modelled from the spec: the pending kernel callbacks of a row as dispatch work;
"each dispatched callback receives the id, the caller-supplied opaque context, and
the terminal status" `st` (section 4.4). -/
def synx_kernel_work (row : synx_table_row) (st : Status) : List synx_work :=
  row.callback_list.map (fun c => synx_work.kernel_cb { c with status := st })

/-- Modelled from the spec: the pending user payloads of a row as dispatch work
carrying the terminal status `st` (section 4.4). -/
def synx_user_work (row : synx_table_row) (st : Status) : List synx_work :=
  row.user_payload_list.map
    (fun n => synx_work.user_cb { n with data := { n.data with status := st } })

/-- Modelled from the spec: `release(handle)` "deregisters all bindings,
wakes/discards pending callbacks with a `Released` status, frees the fence
reference, and returns the row to the free set; fails with `InvalidHandle` if
already released" (section 4.1); `free(id)` clears the bit (section 4.2).  The
driver function is missing from the sources. -/
def synx_release (d : synx_device) (h : Int) : Except synx_error Unit × synx_device :=
  match synx_from_handle d h with
  | none => (.error .InvalidHandle, d)
  | some row =>
    (.ok (),
     { d with
       synx_table := d.synx_table.set h.toNat synx_table_row.empty,
       bitmap := d.bitmap.set h.toNat false,
       work_queue := d.work_queue ++ synx_kernel_work row .Released
                       ++ synx_user_work row .Released,
       ext_calls := d.ext_calls ++ row.bound_synxs.map
         (fun b => ext_call.deregister_callback b.external_desc.type
                     b.external_data b.external_desc.id) })

/-- Modelled from the spec: `register_type(tag, ops)` "installs the vtable for one
external fence family (compile-time-bounded small set)" (section 4.3).  The driver
function is missing from the sources. -/
def synx_register_type (d : synx_device) (tag : Nat) (ops : bind_operations) :
    Except synx_error Unit × synx_device :=
  if tag < d.bind_vtbl.length then
    (.ok (), { d with bind_vtbl := d.bind_vtbl.set tag ops })
  else (.error .UnknownType, d)

/-- Modelled from the spec: `bind(handle, external_type, external_handle) ->
BindDescriptor` "validates the type tag, calls the type's `register_callback` with
the row's secure key as context, appends a `BindDescriptor` to the row, and, if the
external type requires explicit arming, calls `enable_signaling`.  Fails with
`UnknownType` for an unregistered tag, `BindLimitExceeded` once a row's bind list
is at capacity, `InvalidHandle` if the row is not ACTIVE" (section 4.3).  The
handle is resolved first, as for every operation on a handle.  The driver function
is missing from the sources. -/
def synx_bind (d : synx_device) (h : Int) (external_type : Nat) (external_handle : Int) :
    Except synx_error synx_bind_desc × synx_device :=
  match synx_from_handle d h with
  | none => (.error .InvalidHandle, d)
  | some row =>
    match d.bind_vtbl[external_type]? with
    | none => (.error .UnknownType, d)
    | some ops =>
      if ops.register_callback = false then (.error .UnknownType, d)
      else if row.fence ≠ some ⟨.ACTIVE⟩ then (.error .InvalidHandle, d)
      else if SYNX_MAX_NUM_BINDINGS ≤ row.num_bound_synxs then
        (.error .BindLimitExceeded, d)
      else
        let data : synx_external_data := { synx_obj := h, secure_key := row.secure_key }
        let desc : synx_bind_desc :=
          { external_desc := { type := external_type, id := external_handle },
            external_data := data }
        let row1 : synx_table_row :=
          { row with bound_synxs := row.bound_synxs ++ [desc],
                     num_bound_synxs := row.num_bound_synxs + 1 }
        (.ok desc,
         { d with
           synx_table := d.synx_table.set h.toNat row1,
           ext_calls := d.ext_calls
             ++ [ext_call.register_callback external_type data external_handle]
             ++ (if ops.enable_signaling then
                   [ext_call.enable_signaling external_type external_handle]
                 else []) })

/-- Modelled from the spec: `enqueue_kernel_callback(handle, func, ctx, status)`
"appends to the row's callback list while ACTIVE; if the row is already SIGNALED,
dispatches immediately via the same asynchronous path" (section 4.4).  The driver
function is missing from the sources. -/
def synx_enqueue_kernel_callback (d : synx_device) (h : Int) (func ctx : Nat)
    (status : Status) : Except synx_error Unit × synx_device :=
  match synx_from_handle d h with
  | none => (.error .InvalidHandle, d)
  | some row =>
    let info : synx_callback_info :=
      { callback_func := func, cb_data := ctx, status := status, synx_obj := h }
    match row.fence with
    | some ⟨.SIGNALED st⟩ =>
      let info1 : synx_callback_info := { info with status := st }
      (.ok (), { d with work_queue := d.work_queue ++ [synx_work.kernel_cb info1] })
    | _ =>
      let row1 : synx_table_row := { row with callback_list := row.callback_list ++ [info] }
      (.ok (), { d with synx_table := d.synx_table.set h.toNat row1 })

/-- Modelled from the spec: `register_user_payload(session, handle, payload)`,
"fails `InvalidHandle` if the row is gone" (section 4.5); the registration is
queued on the row's `user_payload_list` (section 3) and follows the same dispatch
path as a kernel callback.  The driver function is missing from the sources. -/
def synx_register_user_payload (d : synx_device) (session : Nat) (h : Int)
    (payload : List Nat) : Except synx_error Unit × synx_device :=
  match synx_from_handle d h with
  | none => (.error .InvalidHandle, d)
  | some row =>
    let node : synx_cb_data :=
      { client := session,
        data := { synx_obj := h, status := .Success,
                  payload_data := payload.take SYNX_PAYLOAD_WORDS } }
    match row.fence with
    | some ⟨.SIGNALED st⟩ =>
      let node1 : synx_cb_data := { node with data := { node.data with status := st } }
      (.ok (), { d with work_queue := d.work_queue ++ [synx_work.user_cb node1] })
    | _ =>
      let row1 : synx_table_row :=
        { row with user_payload_list := row.user_payload_list ++ [node] }
      (.ok (), { d with synx_table := d.synx_table.set h.toNat row1 })

/-- Modelled from the spec: `on_fence_signaled(handle, status)` "transitions the row
to SIGNALED, moves every pending callback registration onto a work queue, and
returns immediately"; "a row transitions to SIGNALED exactly once and callback
lists are drained exactly once per signal" (section 4.4).  The driver function is
missing from the sources. -/
def synx_on_fence_signaled (d : synx_device) (h : Int) (status : Status) :
    Except synx_error Unit × synx_device :=
  match synx_from_handle d h with
  | none => (.error .InvalidHandle, d)
  | some row =>
    if row.fence = some ⟨.ACTIVE⟩ then
      (.ok (),
       { d with
         synx_table := d.synx_table.set h.toNat
           { row with fence := some ⟨.SIGNALED status⟩, callback_list := [],
                      user_payload_list := [] },
         work_queue := d.work_queue ++ synx_kernel_work row status
                         ++ synx_user_work row status })
    else (.ok (), d)

/-- Modelled from the spec: `signal_external(external_type, external_handle,
status)` "is the entry point external drivers call when their primitive fires; the
registry locates the owning row via secure-key-validated lookup and forwards to the
Callback Dispatcher with the given status; stale signals addressed to an
already-released row (key mismatch) are silently dropped" (section 4.3), the
rejection being `AuthenticationFailure` (section 7).  `data` is the
`synx_external_data` the external driver was given at bind time and passes back
(header lines 25-35).  The driver function is missing from the sources. -/
def synx_signal_external (d : synx_device) (_external_type : Nat) (external_handle : Int)
    (status : Status) (data : synx_external_data) :
    Except synx_error Unit × synx_device :=
  if 0 ≤ data.synx_obj ∧ data.synx_obj < SYNX_MAX_OBJS then
    match d.synx_table[data.synx_obj.toNat]? with
    | none => (.error .InvalidHandle, d)
    | some row =>
      if row.secure_key ≠ data.secure_key then (.error .AuthenticationFailure, d)
      else if row.fence.isSome = false then (.error .InvalidHandle, d)
      else
        synx_on_fence_signaled
          (d.set_row data.synx_obj.toNat { row with signaling_id := external_handle })
          data.synx_obj status
  else (.error .InvalidHandle, d)

/-- Modelled from the spec: delivery of one payload into a session's event queue,
"bounded by a fixed max; overflow past the bound evicts the oldest entry"
(section 4.5).  The bound is named in no source file and has no value in the spec:
it is the parameter `qmax`.  The overflow flag of the same sentence is not
modelled: `struct synx_client` has no member that holds it.  The driver function
is missing from the sources. -/
def synx_deliver (qmax : Nat) (c : synx_client) (node : synx_cb_data) : synx_client :=
  if c.eventq.length < qmax then { c with eventq := c.eventq ++ [node] }
  else { c with eventq := c.eventq.tail ++ [node] }

/-- Modelled from the spec: one step of the dispatch worker, "one dispatch per
registration, preserving FIFO order": the oldest work item is taken; a kernel
callback is invoked (recorded in `dispatched`), a user payload is moved into the
event queue of its session (section 4.4).  The driver function is missing from the
sources. -/
def synx_dispatch_one (qmax : Nat) (d : synx_device) : synx_device :=
  match d.work_queue with
  | [] => d
  | synx_work.kernel_cb info :: rest =>
    { d with work_queue := rest, dispatched := d.dispatched ++ [info] }
  | synx_work.user_cb node :: rest =>
    match d.client_list[node.client]? with
    | none => { d with work_queue := rest }
    | some c =>
      { d with work_queue := rest,
               client_list := d.client_list.set node.client (synx_deliver qmax c node) }

/-- Modelled from the spec: the dispatch worker (section 4.4) run for `n` steps. -/
def synx_worker (qmax : Nat) : Nat → synx_device → synx_device
  | 0, d => d
  | n + 1, d => synx_worker qmax n (synx_dispatch_one qmax d)

/-- Modelled from the spec: `create_session() -> SessionHandle` (section 4.5); the
handle is the position of the new client in `client_list`.  The driver function is
missing from the sources. -/
def synx_create_session (d : synx_device) (pid : Int) : Nat × synx_device :=
  (d.client_list.length,
   { d with client_list := d.client_list ++ [{ pid := pid, eventq := [] }],
            open_cnt := d.open_cnt + 1 })

/-- Modelled from the spec: `poll(session, timeout)` "drains and returns all
currently queued payloads"; with an empty queue it returns an empty result and no
error once the timeout has elapsed (sections 4.5 and 8).  The wait itself is
outside a sequential model.  The driver function is missing from the sources. -/
def synx_poll (d : synx_device) (session : Nat) :
    Except synx_error (List synx_user_payload) × synx_device :=
  match d.client_list[session]? with
  | none => (.error .InvalidHandle, d)
  | some c =>
    (.ok (c.eventq.map (fun n => n.data)),
     { d with client_list := d.client_list.set session { c with eventq := [] } })

/-- The requests the core accepts, as one type. -/
inductive synx_op where
  | register_type (tag : Nat) (ops : bind_operations)
  | create_session (pid : Int)
  | create (name : List Nat) (fence : dma_fence) (key : Nat)
  | release (h : Int)
  | bind (h : Int) (external_type : Nat) (external_handle : Int)
  | enqueue_kernel_callback (h : Int) (func ctx : Nat) (status : Status)
  | register_user_payload (session : Nat) (h : Int) (payload : List Nat)
  | on_fence_signaled (h : Int) (status : Status)
  | signal_external (external_type : Nat) (external_handle : Int) (status : Status)
      (data : synx_external_data)
  | dispatch_one
  | poll (session : Nat)

/-- The device after one request. -/
def synx_step (qmax : Nat) (d : synx_device) : synx_op → synx_device
  | .register_type tag ops => (synx_register_type d tag ops).2
  | .create_session pid => (synx_create_session d pid).2
  | .create name fence key => (synx_create d name fence key).2
  | .release h => (synx_release d h).2
  | .bind h t e => (synx_bind d h t e).2
  | .enqueue_kernel_callback h f c s => (synx_enqueue_kernel_callback d h f c s).2
  | .register_user_payload s h p => (synx_register_user_payload d s h p).2
  | .on_fence_signaled h s => (synx_on_fence_signaled d h s).2
  | .signal_external t e s data => (synx_signal_external d t e s data).2
  | .dispatch_one => synx_dispatch_one qmax d
  | .poll s => (synx_poll d s).2

/-- The device after a sequence of requests. -/
def synx_run (qmax : Nat) (d : synx_device) (ops : List synx_op) : synx_device :=
  ops.foldl (synx_step qmax) d

/-- Row `i` of the table is free: it exists and holds no fence. -/
def synx_row_free (d : synx_device) (i : Nat) : Prop :=
  ∃ row, d.synx_table[i]? = some row ∧ row.fence = none

/-- The states the device can be in: those reached from the initial device by a
sequence of requests. -/
def synx_reachable (qmax ntypes : Nat) (d : synx_device) : Prop :=
  ∃ ops, d = synx_run qmax (synx_device.init ntypes) ops

/-- A vtable entry of an external fence family that needs explicit arming. -/
def sample_ops : bind_operations :=
  { register_callback := true, deregister_callback := true, enable_signaling := true,
    signal := true }

/-- A sample device: two bind types of which type 1 is registered, one client
session, and one ACTIVE object (id 0) created with secure key `0x5EC0DE01`. -/
def sample_device : synx_device :=
  synx_run 4 (synx_device.init 2)
    [.register_type 1 sample_ops, .create_session 100,
     .create [115, 121, 110, 120] ⟨.ACTIVE⟩ 0x5EC0DE01]

/-- The kernel callback carried by a work item, if it is one. -/
def synx_work.kernel_info : synx_work → Option synx_callback_info
  | .kernel_cb info => some info
  | .user_cb _ => none

/-- The requests that neither release nor signal the object `h`: while only such
requests are made, an ACTIVE object `h` stays ACTIVE. -/
def synx_op_keeps_active (h : Int) : synx_op → Bool
  | .release h1 => h1 != h
  | .on_fence_signaled h1 _ => h1 != h
  | .signal_external _ _ _ data => data.synx_obj != h
  | _ => true

/-- The kernel-callback registrations `(func, ctx, status)` made on the object `h`
in a sequence of requests, in order. -/
def synx_registrations (h : Int) (ops : List synx_op) : List (Nat × Nat × Status) :=
  ops.filterMap (fun op =>
    match op with
    | .enqueue_kernel_callback h1 f c s => if h1 = h then some (f, c, s) else none
    | _ => none)

/-- The callback list and the fence of the object `h` are the same in `d1` as in
`d`. -/
def synx_row_kept (d d1 : synx_device) (h : Int) : Prop :=
  ∀ row, synx_from_handle d h = some row →
    ∃ row1, synx_from_handle d1 h = some row1 ∧
      row1.callback_list = row.callback_list ∧ row1.fence = row.fence

/-- Sample requests: three registrations on object 0 interleaved with a bind, a new
session, the creation of object 1 and a registration on object 1. -/
def sample_requests : List synx_op :=
  [.enqueue_kernel_callback 0 7 100 .Success, .bind 0 1 10, .create_session 101,
   .enqueue_kernel_callback 0 8 200 .Success, .create [] ⟨.ACTIVE⟩ 0x1234,
   .enqueue_kernel_callback 1 9 900 .Success,
   .enqueue_kernel_callback 0 7 300 .Released]

/-- Whether the request `op`, made in the state `d`, is a `create` that returns the
id `h`. -/
def synx_op_returns_id (d : synx_device) (h : Int) : synx_op → Bool
  | .create name fence key =>
    match (synx_create d name fence key).1 with
    | .ok i => i == h
    | .error _ => false
  | _ => false

/-- No `create` of the request sequence, run from the state `d`, returns the id `h`:
the id is not handed out during the sequence. -/
def synx_id_not_reused (qmax : Nat) (h : Int) : synx_device → List synx_op → Bool
  | _, [] => true
  | d, op :: ops =>
    !(synx_op_returns_id d h op) && synx_id_not_reused qmax h (synx_step qmax d op) ops

/-- The sample device after the release of object 0. -/
def sample_device_released : synx_device :=
  (synx_release sample_device 0).2

/-- The sample device after the release of object 0 and a `create`, which hands the
id 0 out again (secure key `0x0BADF00D`). -/
def sample_device_recreated : synx_device :=
  (synx_create sample_device_released [] ⟨.ACTIVE⟩ 0x0BADF00D).2

/-- Requests made after the release of object 0 of the sample device, none of which
hands the id 0 out again: a new session, and requests on the stale handle 0. -/
def sample_requests_stale : List synx_op :=
  [.create_session 101, .bind 0 1 10, .enqueue_kernel_callback 0 7 100 .Success,
   .signal_external 1 10 .Success ⟨0, 0x5EC0DE01⟩, .release 0, .dispatch_one, .poll 0]

end Synx

namespace Camif

/-! # Part II: `cam_vfe_camif_ver3.c`

The file includes a dozen headers that are not part of the sources at hand.  The
numeric constants those headers define are collected in `cam_defs` and taken as a
parameter; the structures they declare are represented with the members this file
reads or writes. -/

/-- Source line 20. -/
def CAM_VFE_CAMIF_IRQ_SOF_DEBUG_CNT_MAX : Nat := 2

/-- The constants used by `cam_vfe_camif_ver3.c` whose definitions are in headers
outside the sources (`errno`, `uapi/media/cam_isp.h`, `cam_isp_hw.h`,
`cam_isp_hw_mgr_intf.h`, `cam_vfe_hw_intf.h`, `cam_cpas_api.h`, ...). -/
structure cam_defs where
  EINVAL : Int
  ENODEV : Int
  EPERM : Int
  ENOMEM : Int
  CAM_ISP_PATTERN_BAYER_RGRGRG : Nat
  CAM_ISP_PATTERN_BAYER_GRGRGR : Nat
  CAM_ISP_PATTERN_BAYER_BGBGBG : Nat
  CAM_ISP_PATTERN_BAYER_GBGBGB : Nat
  CAM_ISP_PATTERN_YUV_YCBYCR : Nat
  CAM_ISP_PATTERN_YUV_YCRYCB : Nat
  CAM_ISP_PATTERN_YUV_CBYCRY : Nat
  CAM_ISP_PATTERN_YUV_CRYCBY : Nat
  CAM_ISP_DSP_MODE_ONE_WAY : Nat
  CAM_ISP_DSP_MODE_ROUND : Nat
  CAM_ISP_HW_SYNC_SLAVE : Nat
  CAM_ISP_RESOURCE_STATE_AVAILABLE : Nat
  CAM_ISP_RESOURCE_STATE_RESERVED : Nat
  CAM_ISP_RESOURCE_STATE_STREAMING : Nat
  CAM_CPAS_TITAN_480_V100 : Nat
  CAM_CPAS_TITAN_175_V120 : Nat
  CAMIF_DEBUG_ENABLE_SENSOR_DIAG_STATUS : Nat
  CAM_ISP_HW_EVENT_SOF : Nat
  CAM_ISP_HW_EVENT_EPOCH : Nat
  CAM_ISP_HW_EVENT_EOF : Nat
  CAM_ISP_HW_EVENT_ERROR : Nat
  CAM_VFE_IRQ_STATUS_ERR : Int
  CAM_VFE_IRQ_STATUS_SUCCESS : Int
  CAM_ISP_HW_ERROR_OVERFLOW : Int
  CAM_ISP_HW_ERROR_NONE : Int
  CAM_IFE_IRQ_CAMIF_REG_STATUS0 : Nat
  CAM_IFE_IRQ_CAMIF_REG_STATUS1 : Nat
  CAM_IFE_IRQ_CAMIF_REG_STATUS2 : Nat
  deriving DecidableEq

/-- A sample assignment of the constants, used to instantiate the theorems at
concrete inputs: positive error numbers, distinct `case` labels. -/
def cam_defs.sample : cam_defs :=
  { EINVAL := 22, ENODEV := 19, EPERM := 1, ENOMEM := 12,
    CAM_ISP_PATTERN_BAYER_RGRGRG := 0, CAM_ISP_PATTERN_BAYER_GRGRGR := 1,
    CAM_ISP_PATTERN_BAYER_BGBGBG := 2, CAM_ISP_PATTERN_BAYER_GBGBGB := 3,
    CAM_ISP_PATTERN_YUV_YCBYCR := 4, CAM_ISP_PATTERN_YUV_YCRYCB := 5,
    CAM_ISP_PATTERN_YUV_CBYCRY := 6, CAM_ISP_PATTERN_YUV_CRYCBY := 7,
    CAM_ISP_DSP_MODE_ONE_WAY := 1, CAM_ISP_DSP_MODE_ROUND := 2,
    CAM_ISP_HW_SYNC_SLAVE := 2,
    CAM_ISP_RESOURCE_STATE_AVAILABLE := 1, CAM_ISP_RESOURCE_STATE_RESERVED := 2,
    CAM_ISP_RESOURCE_STATE_STREAMING := 4,
    CAM_CPAS_TITAN_480_V100 := 0x480100, CAM_CPAS_TITAN_175_V120 := 0x175120,
    CAMIF_DEBUG_ENABLE_SENSOR_DIAG_STATUS := 1,
    CAM_ISP_HW_EVENT_SOF := 1, CAM_ISP_HW_EVENT_EPOCH := 3, CAM_ISP_HW_EVENT_EOF := 4,
    CAM_ISP_HW_EVENT_ERROR := 0,
    CAM_VFE_IRQ_STATUS_ERR := -1, CAM_VFE_IRQ_STATUS_SUCCESS := 0,
    CAM_ISP_HW_ERROR_OVERFLOW := 1, CAM_ISP_HW_ERROR_NONE := 0,
    CAM_IFE_IRQ_CAMIF_REG_STATUS0 := 0, CAM_IFE_IRQ_CAMIF_REG_STATUS1 := 1,
    CAM_IFE_IRQ_CAMIF_REG_STATUS2 := 2 }

/-- Reduction of a value to `uint32_t`. -/
def u32 (n : Nat) : Nat := n % 2 ^ 32

/-- Subtraction of two `uint32_t` values. -/
def u32_sub (a b : Nat) : Nat := (a + 2 ^ 32 - b % 2 ^ 32) % 2 ^ 32

/-- Left shift with a `uint32_t` result: the bits shifted past bit 31 are lost.  (A
shift count of 32 or more is undefined in C; here it yields 0.) -/
def u32_shl (a s : Nat) : Nat := (a <<< s) % 2 ^ 32

/-- One access to the hardware: `cam_io_w_mb(val, addr)`, `cam_io_r_mb(addr)` /
`cam_io_r(addr)`, or `cam_soc_util_r(soc_info, base_index, offset)`. -/
inductive reg_access where
  | w (val addr : Nat)
  | r (addr : Nat)
  | soc_r (base_index offset : Nat)
  deriving DecidableEq

/-- Members of `struct cam_vfe_camif_ver3_pp_clc_reg` (register offsets) used in
the file. -/
structure cam_vfe_camif_ver3_pp_clc_reg where
  module_cfg : Nat
  epoch_irq_cfg : Nat
  reg_update_cmd : Nat
  deriving DecidableEq

/-- Members of `struct cam_vfe_top_ver3_reg_offset_common` used in the file. -/
structure cam_vfe_top_ver3_reg_offset_common where
  core_cgc_ovd_0 : Nat
  core_cgc_ovd_1 : Nat
  ahb_cgc_ovd : Nat
  noc_cgc_ovd : Nat
  core_cfg_0 : Nat
  diag_config : Nat
  diag_sensor_status_0 : Nat
  deriving DecidableEq

/-- Members of `struct cam_vfe_camif_ver3_reg_data` used in the file. -/
structure cam_vfe_camif_ver3_reg_data where
  pixel_pattern_shift : Nat
  pp_camif_cfg_en_shift : Nat
  pp_camif_cfg_ife_out_en_shift : Nat
  dsp_mode_mask : Nat
  dsp_mode_shift : Nat
  dsp_en_shift : Nat
  pp_extern_reg_update_shift : Nat
  epoch_line_cfg : Nat
  reg_update_cmd_data : Nat
  enable_diagnostic_hw : Nat
  sof_irq_mask : Nat
  epoch0_irq_mask : Nat
  eof_irq_mask : Nat
  error_irq_mask2 : Nat
  deriving DecidableEq

/-- Member of `struct cam_vfe_soc_private` used in the file. -/
structure cam_vfe_soc_private where
  cpas_version : Nat
  deriving DecidableEq

/-- Member of `struct cam_hw_soc_info` used in the file (`none` is `NULL`). -/
structure cam_hw_soc_info where
  soc_private : Option cam_vfe_soc_private
  deriving DecidableEq

/-- Member of `struct cam_hw_intf` used in the file. -/
structure cam_hw_intf where
  hw_idx : Nat
  deriving DecidableEq

/-- Source lines 22-40, `struct cam_vfe_mux_camif_ver3_data`. -/
structure cam_vfe_mux_camif_ver3_data where
  mem_base : Nat
  hw_intf : cam_hw_intf
  camif_reg : cam_vfe_camif_ver3_pp_clc_reg
  common_reg : cam_vfe_top_ver3_reg_offset_common
  reg_data : cam_vfe_camif_ver3_reg_data
  soc_info : cam_hw_soc_info
  sync_mode : Nat
  dsp_mode : Nat
  pix_pattern : Nat
  first_pixel : Nat
  first_line : Nat
  last_pixel : Nat
  last_line : Nat
  enable_sof_irq_debug : Bool
  irq_debug_cnt : Nat
  camif_debug : Nat
  deriving DecidableEq

/-- Members of `struct cam_isp_resource_node` used in the file; `res_priv` points to
the CAMIF private data. -/
structure cam_isp_resource_node where
  res_state : Nat
  res_priv : cam_vfe_mux_camif_ver3_data
  hw_intf : cam_hw_intf
  deriving DecidableEq

/-- Members of `struct cam_isp_in_port_info` read by `acquire_resource`. -/
structure cam_isp_in_port_info where
  test_pattern : Nat
  dsp_mode : Nat
  left_start : Nat
  left_stop : Nat
  line_start : Nat
  line_stop : Nat
  deriving DecidableEq

/-- Members of `acquire_data->vfe_in` read by `acquire_resource`. -/
structure cam_vfe_hw_vfe_in_acquire_args where
  sync_mode : Nat
  in_port : cam_isp_in_port_info
  deriving DecidableEq

/-- Member of `struct cam_vfe_acquire_args` read by `acquire_resource`. -/
structure cam_vfe_acquire_args where
  vfe_in : cam_vfe_hw_vfe_in_acquire_args
  deriving DecidableEq

/-- Members of `struct cam_vfe_top_irq_evt_payload` read by the bottom half. -/
structure cam_vfe_top_irq_evt_payload where
  evt_id : Nat
  irq_reg_val : List Nat
  deriving DecidableEq

/-- Source lines 42-63. -/
def cam_vfe_camif_ver3_validate_pix_pattern (K : cam_defs) (pattern : Nat) : Int :=
  if pattern = K.CAM_ISP_PATTERN_BAYER_RGRGRG ∨
     pattern = K.CAM_ISP_PATTERN_BAYER_GRGRGR ∨
     pattern = K.CAM_ISP_PATTERN_BAYER_BGBGBG ∨
     pattern = K.CAM_ISP_PATTERN_BAYER_GBGBGB ∨
     pattern = K.CAM_ISP_PATTERN_YUV_YCBYCR ∨
     pattern = K.CAM_ISP_PATTERN_YUV_YCRYCB ∨
     pattern = K.CAM_ISP_PATTERN_YUV_CBYCRY ∨
     pattern = K.CAM_ISP_PATTERN_YUV_CRYCBY then 0
  else -K.EINVAL

/-- Source lines 115-148.  Returns `rc` and the resource node after the call. -/
def cam_vfe_camif_ver3_acquire_resource (K : cam_defs)
    (camif_res : cam_isp_resource_node) (acquire_param : cam_vfe_acquire_args) :
    Int × cam_isp_resource_node :=
  let camif_data := camif_res.res_priv
  let acquire_data := acquire_param
  let rc := cam_vfe_camif_ver3_validate_pix_pattern K
    acquire_data.vfe_in.in_port.test_pattern
  if rc ≠ 0 then (rc, camif_res)
  else
    let camif_data : cam_vfe_mux_camif_ver3_data :=
      { camif_data with
        sync_mode := acquire_data.vfe_in.sync_mode,
        pix_pattern := acquire_data.vfe_in.in_port.test_pattern,
        dsp_mode := acquire_data.vfe_in.in_port.dsp_mode,
        first_pixel := acquire_data.vfe_in.in_port.left_start,
        last_pixel := acquire_data.vfe_in.in_port.left_stop,
        first_line := acquire_data.vfe_in.in_port.line_start,
        last_line := acquire_data.vfe_in.in_port.line_stop }
    (rc, { camif_res with res_priv := camif_data })

/-- Source lines 221-329.  `rd` gives the value a register read returns.  The
result is the return code, the resource node after the call and the hardware
accesses made, in order. -/
def cam_vfe_camif_ver3_resource_start (K : cam_defs) (rd : Nat → Nat)
    (camif_res : Option cam_isp_resource_node) :
    Int × Option cam_isp_resource_node × List reg_access :=
  match camif_res with
  | none => (-K.EINVAL, none, [])
  | some res =>
    if res.res_state ≠ K.CAM_ISP_RESOURCE_STATE_RESERVED then (-K.EINVAL, some res, [])
    else
      let rsrc_data := res.res_priv
      match rsrc_data.soc_info.soc_private with
      | none => (-K.ENODEV, some res, [])
      | some soc_private =>
        /- config vfe core -/
        let val := u32_shl rsrc_data.pix_pattern rsrc_data.reg_data.pixel_pattern_shift
        let val := val ||| u32_shl 1 rsrc_data.reg_data.pp_camif_cfg_en_shift
        let val := val ||| u32_shl 1 rsrc_data.reg_data.pp_camif_cfg_ife_out_en_shift
        let w1 := reg_access.w val (rsrc_data.mem_base + rsrc_data.camif_reg.module_cfg)
        let val := 0
        let val :=
          if K.CAM_ISP_DSP_MODE_ONE_WAY ≤ rsrc_data.dsp_mode ∧
              rsrc_data.dsp_mode ≤ K.CAM_ISP_DSP_MODE_ROUND then
            (val ||| u32_shl (u32_sub rsrc_data.dsp_mode 1 &&&
                rsrc_data.reg_data.dsp_mode_mask) rsrc_data.reg_data.dsp_mode_shift)
              ||| u32_shl 1 rsrc_data.reg_data.dsp_en_shift
          else val
        let val :=
          if rsrc_data.sync_mode = K.CAM_ISP_HW_SYNC_SLAVE then
            val ||| u32_shl 1 rsrc_data.reg_data.pp_extern_reg_update_shift
          else val
        let w2 := reg_access.w val (rsrc_data.mem_base + rsrc_data.common_reg.core_cfg_0)
        /- epoch config -/
        if soc_private.cpas_version = K.CAM_CPAS_TITAN_480_V100 then
          let epoch0_line_cfg :=
            u32 (u32_sub rsrc_data.last_line rsrc_data.first_line / 4 + rsrc_data.first_line)
          let epoch1_line_cfg := rsrc_data.reg_data.epoch_line_cfg &&& 0xFFFF
          let computed_epoch_line_cfg := u32_shl epoch1_line_cfg 16 ||| epoch0_line_cfg
          let w3 := reg_access.w computed_epoch_line_cfg
            (rsrc_data.mem_base + rsrc_data.camif_reg.epoch_irq_cfg)
          /- Reg Update -/
          let w4 := reg_access.w rsrc_data.reg_data.reg_update_cmd_data
            (rsrc_data.mem_base + rsrc_data.camif_reg.reg_update_cmd)
          /- disable sof irq debug flag -/
          let rsrc_data1 : cam_vfe_mux_camif_ver3_data :=
            { rsrc_data with enable_sof_irq_debug := false, irq_debug_cnt := 0 }
          let res1 : cam_isp_resource_node :=
            { res with res_state := K.CAM_ISP_RESOURCE_STATE_STREAMING,
                       res_priv := rsrc_data1 }
          let diag :=
            if rsrc_data.camif_debug &&& K.CAMIF_DEBUG_ENABLE_SENSOR_DIAG_STATUS ≠ 0 then
              let addr := rsrc_data.mem_base + rsrc_data.common_reg.diag_config
              let val := rd addr
              let val := val ||| rsrc_data.reg_data.enable_diagnostic_hw
              [reg_access.r addr, reg_access.w val addr]
            else []
          (0, some res1, [w1, w2, w3, w4] ++ diag)
        else (-K.EINVAL, some res, [w1, w2])

/-- The values `i` of a loop `for (i = lo; i <= hi; i += step)`. -/
def for_le (lo hi step : Nat) : List Nat :=
  if lo ≤ hi then (List.range ((hi - lo) / step + 1)).map (fun k => lo + step * k)
  else []

/-- Source lines 331-373: the register reads made by the dump, in the order the
arguments are listed; the values only go to the log. -/
def cam_vfe_camif_ver3_reg_dump (camif_priv : cam_vfe_mux_camif_ver3_data) :
    Int × List reg_access :=
  let t1 := (for_le 0xA3C 0xA90 8).flatMap (fun i =>
    [reg_access.r (camif_priv.mem_base + i), reg_access.r (camif_priv.mem_base + i + 4)])
  let t2 := (for_le 0xE0C 0xE3C 4).map (fun i => reg_access.r (camif_priv.mem_base + i))
  let t3 := (for_le 0 25 1).flatMap (fun wm_idx =>
    let offset := 0xAC00 + 0x100 * wm_idx
    [reg_access.r (camif_priv.mem_base + offset),
     reg_access.r (camif_priv.mem_base + offset + 4),
     reg_access.r (camif_priv.mem_base + offset + 8),
     reg_access.r (camif_priv.mem_base + offset + 12)])
  let t4 := [reg_access.soc_r 1 0x420, reg_access.soc_r 1 0x820]
  (0, t1 ++ t2 ++ t3 ++ t4)

/-- Source lines 545-630.  Both pointer arguments may be `NULL` (`none`).  The
local `irq_status2` is declared at line 554 and read at line 608, and no statement
of the function assigns it: its value is whatever the stack slot holds, so it is
the separate argument `irq_status2`, not a member of the payload.  The result is
the return value, the CAMIF private data after the call and the hardware accesses
made. -/
def cam_vfe_camif_ver3_handle_irq_bottom_half (K : cam_defs)
    (handler_priv : Option cam_isp_resource_node)
    (evt_payload_priv : Option cam_vfe_top_irq_evt_payload) (irq_status2 : Nat) :
    Int × Option cam_isp_resource_node × List reg_access :=
  let ret := K.CAM_VFE_IRQ_STATUS_ERR
  match handler_priv, evt_payload_priv with
  | none, _ => (ret, handler_priv, [])
  | some _, none => (ret, handler_priv, [])
  | some camif_node, some payload =>
    let camif_priv := camif_node.res_priv
    let _irq_status0 := payload.irq_reg_val.getD K.CAM_IFE_IRQ_CAMIF_REG_STATUS0 0
    let irq_status1 := payload.irq_reg_val.getD K.CAM_IFE_IRQ_CAMIF_REG_STATUS1 0
    if payload.evt_id = K.CAM_ISP_HW_EVENT_SOF then
      if irq_status1 &&& camif_priv.reg_data.sof_irq_mask ≠ 0 then
        if camif_priv.enable_sof_irq_debug = true ∧
            camif_priv.irq_debug_cnt ≤ CAM_VFE_CAMIF_IRQ_SOF_DEBUG_CNT_MAX then
          let cnt := u32 (camif_priv.irq_debug_cnt + 1)
          let camif_priv1 : cam_vfe_mux_camif_ver3_data :=
            if cnt = CAM_VFE_CAMIF_IRQ_SOF_DEBUG_CNT_MAX then
              { camif_priv with enable_sof_irq_debug := false, irq_debug_cnt := 0 }
            else { camif_priv with irq_debug_cnt := cnt }
          (K.CAM_VFE_IRQ_STATUS_SUCCESS,
           some { camif_node with res_priv := camif_priv1 }, [])
        else (K.CAM_VFE_IRQ_STATUS_SUCCESS, some camif_node, [])
      else (ret, some camif_node, [])
    else if payload.evt_id = K.CAM_ISP_HW_EVENT_EPOCH then
      if irq_status1 &&& camif_priv.reg_data.epoch0_irq_mask ≠ 0 then
        (K.CAM_VFE_IRQ_STATUS_SUCCESS, some camif_node, [])
      else (ret, some camif_node, [])
    else if payload.evt_id = K.CAM_ISP_HW_EVENT_EOF then
      if irq_status1 &&& camif_priv.reg_data.eof_irq_mask ≠ 0 then
        (K.CAM_VFE_IRQ_STATUS_SUCCESS, some camif_node, [])
      else (ret, some camif_node, [])
    else if payload.evt_id = K.CAM_ISP_HW_EVENT_ERROR then
      let (ret, t1) :=
        if irq_status2 &&& camif_priv.reg_data.error_irq_mask2 ≠ 0 then
          (K.CAM_ISP_HW_ERROR_OVERFLOW, (cam_vfe_camif_ver3_reg_dump camif_node.res_priv).2)
        else (K.CAM_ISP_HW_ERROR_NONE, [])
      let t2 :=
        if camif_priv.camif_debug &&& K.CAMIF_DEBUG_ENABLE_SENSOR_DIAG_STATUS ≠ 0 then
          [reg_access.r (camif_priv.mem_base + camif_priv.common_reg.diag_sensor_status_0)]
        else []
      (ret, some camif_node, t1 ++ t2)
    else (ret, some camif_node, [])

/-- The `case` labels of the `switch` at source lines 46-54, as a predicate. -/
def supported_pix_pattern (K : cam_defs) (pattern : Nat) : Prop :=
  pattern = K.CAM_ISP_PATTERN_BAYER_RGRGRG ∨
  pattern = K.CAM_ISP_PATTERN_BAYER_GRGRGR ∨
  pattern = K.CAM_ISP_PATTERN_BAYER_BGBGBG ∨
  pattern = K.CAM_ISP_PATTERN_BAYER_GBGBGB ∨
  pattern = K.CAM_ISP_PATTERN_YUV_YCBYCR ∨
  pattern = K.CAM_ISP_PATTERN_YUV_YCRYCB ∨
  pattern = K.CAM_ISP_PATTERN_YUV_CBYCRY ∨
  pattern = K.CAM_ISP_PATTERN_YUV_CRYCBY

instance (K : cam_defs) (pattern : Nat) : Decidable (supported_pix_pattern K pattern) := by
  unfold supported_pix_pattern
  infer_instance

/-- The `case` labels of the `switch` at source lines 574-626 are pairwise distinct
(a constraint of the language on every `switch`). -/
def cam_defs.event_labels_distinct (K : cam_defs) : Prop :=
  K.CAM_ISP_HW_EVENT_SOF ≠ K.CAM_ISP_HW_EVENT_EPOCH ∧
  K.CAM_ISP_HW_EVENT_SOF ≠ K.CAM_ISP_HW_EVENT_EOF ∧
  K.CAM_ISP_HW_EVENT_SOF ≠ K.CAM_ISP_HW_EVENT_ERROR ∧
  K.CAM_ISP_HW_EVENT_EPOCH ≠ K.CAM_ISP_HW_EVENT_EOF ∧
  K.CAM_ISP_HW_EVENT_EPOCH ≠ K.CAM_ISP_HW_EVENT_ERROR ∧
  K.CAM_ISP_HW_EVENT_EOF ≠ K.CAM_ISP_HW_EVENT_ERROR

instance (K : cam_defs) : Decidable K.event_labels_distinct := by
  unfold cam_defs.event_labels_distinct
  infer_instance

/-- Sample register data: SOF is bit 0, EPOCH0 bit 2, EOF bit 1 of status 1, the
error mask of status 2 is `0xEFFF7E80`. -/
def sample_reg_data : cam_vfe_camif_ver3_reg_data :=
  { pixel_pattern_shift := 24, pp_camif_cfg_en_shift := 0,
    pp_camif_cfg_ife_out_en_shift := 8, dsp_mode_mask := 1, dsp_mode_shift := 24,
    dsp_en_shift := 23, pp_extern_reg_update_shift := 17, epoch_line_cfg := 0x00000014,
    reg_update_cmd_data := 1, enable_diagnostic_hw := 1, sof_irq_mask := 1,
    epoch0_irq_mask := 4, eof_irq_mask := 2, error_irq_mask2 := 0xEFFF7E80 }

/-- Sample CAMIF private data: a 1920x1080 frame acquired, SOF debug off. -/
def sample_priv : cam_vfe_mux_camif_ver3_data :=
  { mem_base := 0, hw_intf := ⟨0⟩,
    camif_reg := { module_cfg := 0x2660, epoch_irq_cfg := 0x2670, reg_update_cmd := 0x34 },
    common_reg := { core_cgc_ovd_0 := 0x14, core_cgc_ovd_1 := 0x18, ahb_cgc_ovd := 0x20,
                    noc_cgc_ovd := 0x24, core_cfg_0 := 0x28, diag_config := 0x64,
                    diag_sensor_status_0 := 0x68 },
    reg_data := sample_reg_data,
    soc_info := ⟨some ⟨cam_defs.sample.CAM_CPAS_TITAN_480_V100⟩⟩,
    sync_mode := 0, dsp_mode := 0, pix_pattern := 0, first_pixel := 0, first_line := 0,
    last_pixel := 1919, last_line := 1079, enable_sof_irq_debug := false,
    irq_debug_cnt := 0, camif_debug := 0 }

/-- Sample resource node in the RESERVED state. -/
def sample_node : cam_isp_resource_node :=
  { res_state := cam_defs.sample.CAM_ISP_RESOURCE_STATE_RESERVED, res_priv := sample_priv,
    hw_intf := ⟨0⟩ }

/-- Sample acquire arguments: a `BAYER_GRGRGR` 4000x3000 input. -/
def sample_acquire : cam_vfe_acquire_args :=
  { vfe_in := { sync_mode := 0,
                in_port := { test_pattern := 1, dsp_mode := 0, left_start := 0,
                             left_stop := 3999, line_start := 0, line_stop := 2999 } } }

/-! ## The command path of the CAMIF (source lines 65-113 and 375-537) -/

/-- The command types handled by `cam_vfe_camif_ver3_process_cmd` and the size of
`struct cam_isp_hw_get_cmd_update`; all are defined in headers outside the
sources. -/
structure cam_cmd_defs where
  CAM_ISP_HW_CMD_GET_REG_UPDATE : Nat
  CAM_ISP_HW_CMD_GET_REG_DUMP : Nat
  CAM_ISP_HW_CMD_SOF_IRQ_DEBUG : Nat
  CAM_ISP_HW_CMD_SET_CAMIF_DEBUG : Nat
  sizeof_cam_isp_hw_get_cmd_update : Nat
  deriving DecidableEq

/-- A sample assignment of the command constants, used to instantiate the theorems at
concrete inputs: four distinct `case` labels. -/
def cam_cmd_defs.sample : cam_cmd_defs :=
  { CAM_ISP_HW_CMD_GET_REG_UPDATE := 3, CAM_ISP_HW_CMD_GET_REG_DUMP := 11,
    CAM_ISP_HW_CMD_SOF_IRQ_DEBUG := 13, CAM_ISP_HW_CMD_SET_CAMIF_DEBUG := 14,
    sizeof_cam_isp_hw_get_cmd_update := 32 }

/-- The `case` labels of the `switch` at source lines 514-534 are pairwise distinct
(a constraint of the language on every `switch`). -/
def cam_cmd_defs.cmd_labels_distinct (C : cam_cmd_defs) : Prop :=
  C.CAM_ISP_HW_CMD_GET_REG_UPDATE ≠ C.CAM_ISP_HW_CMD_GET_REG_DUMP ∧
  C.CAM_ISP_HW_CMD_GET_REG_UPDATE ≠ C.CAM_ISP_HW_CMD_SOF_IRQ_DEBUG ∧
  C.CAM_ISP_HW_CMD_GET_REG_UPDATE ≠ C.CAM_ISP_HW_CMD_SET_CAMIF_DEBUG ∧
  C.CAM_ISP_HW_CMD_GET_REG_DUMP ≠ C.CAM_ISP_HW_CMD_SOF_IRQ_DEBUG ∧
  C.CAM_ISP_HW_CMD_GET_REG_DUMP ≠ C.CAM_ISP_HW_CMD_SET_CAMIF_DEBUG ∧
  C.CAM_ISP_HW_CMD_SOF_IRQ_DEBUG ≠ C.CAM_ISP_HW_CMD_SET_CAMIF_DEBUG

instance (C : cam_cmd_defs) : Decidable C.cmd_labels_distinct := by
  unfold cam_cmd_defs.cmd_labels_distinct
  infer_instance

/-- Member of `struct cam_cdm_utils_ops` the file calls for a value:
`uint32_t (*cdm_required_size_reg_random)(uint32_t numVals)`.  The other member it
calls, `cdm_write_regrandom`, only writes to the command buffer and is recorded as
a call. -/
structure cam_cdm_utils_ops where
  cdm_required_size_reg_random : Nat → Nat

/-- The resource node `cdm_args->res` points to, of which `get_reg_update` reads
the member `cdm_ops` only (`none` is `NULL`). -/
structure cam_isp_cdm_res where
  cdm_ops : Option cam_cdm_utils_ops

/-- The member `cmd` of `struct cam_isp_hw_get_cmd_update`: address and size in
bytes of the command buffer, and the bytes used (`uint32_t` each). -/
structure cam_cmd_buf_desc where
  cmd_buf_addr : Nat
  size : Nat
  used_bytes : Nat
  deriving DecidableEq

/-- Members of `struct cam_isp_hw_get_cmd_update` used in the file. -/
structure cam_isp_hw_get_cmd_update where
  res : Option cam_isp_cdm_res
  cmd : cam_cmd_buf_desc

/-- The object `cmd_args` (a `void *`) points to, under the two types
`process_cmd` reads it with: `uint32_t` and `struct cam_isp_hw_get_cmd_update`. -/
structure cam_cmd_args where
  as_u32 : Nat
  as_get_cmd_update : cam_isp_hw_get_cmd_update

/-- One call out of the command path: a register access, a
`cam_cpas_reg_read(soc_private->cpas_handle[handle_idx], CAM_CPAS_REG_CAMNOC,
offset, true, &val)`, or a `cdm_write_regrandom(cmd_buf_addr, numVals,
reg_val_pair)`. -/
inductive hw_call where
  | reg (a : reg_access)
  | cpas_reg_read (handle_idx offset : Nat)
  | cdm_write_regrandom (cmd_buf_addr numVals : Nat) (reg_val_pair : List Nat)
  deriving DecidableEq

/-- Source lines 65-113.  `size` and `size * 4` are `uint32_t`.  The result is the
return code, the arguments after the call and the calls made. -/
def cam_vfe_camif_ver3_get_reg_update (K : cam_defs) (C : cam_cmd_defs)
    (camif_res : cam_isp_resource_node) (cmd_args : Option cam_isp_hw_get_cmd_update)
    (arg_size : Nat) : Int × Option cam_isp_hw_get_cmd_update × List hw_call :=
  if arg_size ≠ C.sizeof_cam_isp_hw_get_cmd_update then (-K.EINVAL, cmd_args, [])
  else
    match cmd_args with
    | none => (-K.EINVAL, cmd_args, [])
    | some cdm_args =>
      match cdm_args.res with
      | none => (-K.EINVAL, cmd_args, [])
      | some res =>
        match res.cdm_ops with
        | none => (-K.EINVAL, cmd_args, [])
        | some cdm_util_ops =>
          let size := u32 (cdm_util_ops.cdm_required_size_reg_random 1)
          /- since cdm returns dwords, we need to convert it into bytes -/
          if u32 (size * 4) > cdm_args.cmd.size then (-K.EINVAL, cmd_args, [])
          else
            let rsrc_data := camif_res.res_priv
            let reg_val_pair :=
              [rsrc_data.camif_reg.reg_update_cmd, rsrc_data.reg_data.reg_update_cmd_data]
            let cmd1 : cam_cmd_buf_desc := { cdm_args.cmd with used_bytes := u32 (size * 4) }
            (0, some { cdm_args with cmd := cmd1 },
             [hw_call.cdm_write_regrandom cdm_args.cmd.cmd_buf_addr 1 reg_val_pair])

/-- The values `i` of a loop `for (i = lo; i < hi; i += step)`. -/
def for_lt (lo hi step : Nat) : List Nat :=
  if lo < hi then (List.range ((hi - lo - 1) / step + 1)).map (fun k => lo + step * k)
  else []

/-- Source lines 375-438: the register reads made by the dump; the values only go to
the log.  `soc_private` is dereferenced at line 412 without a check: the result is
`none` when it is `NULL`. -/
def cam_vfe_camif_ver3_reg_dump_bh (K : cam_defs)
    (camif_res : Option cam_isp_resource_node) : Option (Int × List hw_call) :=
  match camif_res with
  | none => some (-K.EINVAL, [])
  | some res =>
    if res.res_state = K.CAM_ISP_RESOURCE_STATE_RESERVED ∨
        res.res_state = K.CAM_ISP_RESOURCE_STATE_AVAILABLE then some (0, [])
    else
      let camif_priv := res.res_priv
      let t1 := (for_lt 0x0 0x1000 0x4).map (fun offset =>
        hw_call.reg (reg_access.soc_r 0 offset))
      let t2 := (for_le 0xAA00 0xAADC 0x4).map (fun offset =>
        hw_call.reg (reg_access.soc_r 0 offset))
      let t3 := (for_le 0 25 1).flatMap (fun wm_idx =>
        (for_lt (0xAC00 + 0x100 * wm_idx) (0xAC84 + 0x100 * wm_idx) 0x4).map
          (fun offset => hw_call.reg (reg_access.soc_r 0 offset)))
      match camif_priv.soc_info.soc_private with
      | none => none
      | some soc_private =>
        let t4 :=
          if soc_private.cpas_version = K.CAM_CPAS_TITAN_175_V120 then
            [hw_call.cpas_reg_read 0 0x3A20, hw_call.cpas_reg_read 0 0x5420,
             hw_call.cpas_reg_read 1 0x3620]
          else [hw_call.cpas_reg_read 0 0x420, hw_call.cpas_reg_read 0 0x820]
        some (0, t1 ++ t2 ++ t3 ++ t4)

/-- Source lines 483-498; `enable_sof_irq` is the value `cmd_args` points to. -/
def cam_vfe_camif_ver3_sof_irq_debug (rsrc_node : cam_isp_resource_node)
    (enable_sof_irq : Nat) : Int × cam_isp_resource_node :=
  let camif_priv := rsrc_node.res_priv
  let camif_priv1 : cam_vfe_mux_camif_ver3_data :=
    if enable_sof_irq = 1 then { camif_priv with enable_sof_irq_debug := true }
    else { camif_priv with enable_sof_irq_debug := false }
  (0, { rsrc_node with res_priv := camif_priv1 })

/-- What a call of `process_cmd` leaves behind: the return code, the resource node,
the object `cmd_args` points to, and the calls made. -/
structure process_cmd_result where
  rc : Int
  rsrc_node : Option cam_isp_resource_node
  cmd_args : Option cam_cmd_args
  calls : List hw_call

/-- Source lines 500-537.  `rc` starts as `-EINVAL` and is returned as it stands
after the `switch`.  The result is `none` when the register dump dereferences a
`NULL` `soc_private`. -/
def cam_vfe_camif_ver3_process_cmd (K : cam_defs) (C : cam_cmd_defs)
    (rsrc_node : Option cam_isp_resource_node) (cmd_type : Nat)
    (cmd_args : Option cam_cmd_args) (arg_size : Nat) : Option process_cmd_result :=
  let rc := -K.EINVAL
  match rsrc_node, cmd_args with
  | none, _ => some ⟨-K.EINVAL, rsrc_node, cmd_args, []⟩
  | some _, none => some ⟨-K.EINVAL, rsrc_node, cmd_args, []⟩
  | some node, some args =>
    if cmd_type = C.CAM_ISP_HW_CMD_GET_REG_UPDATE then
      let r := cam_vfe_camif_ver3_get_reg_update K C node (some args.as_get_cmd_update)
        arg_size
      let args1 : cam_cmd_args :=
        match r.2.1 with
        | some u => { args with as_get_cmd_update := u }
        | none => args
      some ⟨r.1, some node, some args1, r.2.2⟩
    else if cmd_type = C.CAM_ISP_HW_CMD_GET_REG_DUMP then
      match cam_vfe_camif_ver3_reg_dump_bh K (some node) with
      | none => none
      | some r => some ⟨r.1, some node, some args, r.2⟩
    else if cmd_type = C.CAM_ISP_HW_CMD_SOF_IRQ_DEBUG then
      let r := cam_vfe_camif_ver3_sof_irq_debug node args.as_u32
      some ⟨r.1, some r.2, some args, []⟩
    else if cmd_type = C.CAM_ISP_HW_CMD_SET_CAMIF_DEBUG then
      let camif_priv := node.res_priv
      let camif_priv1 : cam_vfe_mux_camif_ver3_data :=
        { camif_priv with camif_debug := args.as_u32 }
      some ⟨rc, some { node with res_priv := camif_priv1 }, some args, []⟩
    else some ⟨rc, some node, some args, []⟩

/-- Members of `struct cam_vfe_camif_ver3_hw_info` read by `init`. -/
structure cam_vfe_camif_ver3_hw_info where
  camif_reg : cam_vfe_camif_ver3_pp_clc_reg
  common_reg : cam_vfe_top_ver3_reg_offset_common
  reg_data : cam_vfe_camif_ver3_reg_data
  deriving DecidableEq

/-- Source lines 632-665.  `kzalloc_ok` tells whether the allocation succeeds; the
fresh private data is all zero except for the six members the function sets.
`mem_base` is `soc_info->reg_map[VFE_CORE_BASE_IDX].mem_base`.  The function
pointers stored in the node are the functions of this file. -/
def cam_vfe_camif_ver3_init (K : cam_defs) (kzalloc_ok : Bool) (hw_intf : cam_hw_intf)
    (soc_info : cam_hw_soc_info) (mem_base : Nat)
    (camif_hw_info : cam_vfe_camif_ver3_hw_info) (camif_node : cam_isp_resource_node) :
    Int × cam_isp_resource_node :=
  if kzalloc_ok = false then (-K.ENOMEM, camif_node)
  else
    let camif_priv : cam_vfe_mux_camif_ver3_data :=
      { mem_base := mem_base, hw_intf := hw_intf, camif_reg := camif_hw_info.camif_reg,
        common_reg := camif_hw_info.common_reg, reg_data := camif_hw_info.reg_data,
        soc_info := soc_info, sync_mode := 0, dsp_mode := 0, pix_pattern := 0,
        first_pixel := 0, first_line := 0, last_pixel := 0, last_line := 0,
        enable_sof_irq_debug := false, irq_debug_cnt := 0, camif_debug := 0 }
    (0, { camif_node with res_priv := camif_priv })

/-- One call into the CAMIF resource from its users, with the inputs the call
takes from its environment. -/
inductive camif_call where
  | acquire (acquire_param : cam_vfe_acquire_args)
  | start (rd : Nat → Nat)
  | process_cmd (cmd_type : Nat) (cmd_args : Option cam_cmd_args) (arg_size : Nat)
  | bottom_half (evt_payload_priv : Option cam_vfe_top_irq_evt_payload)
      (irq_status2 : Nat)

/-- The resource node after one call; `none` when the call dereferences `NULL`. -/
def camif_step (K : cam_defs) (C : cam_cmd_defs) (node : cam_isp_resource_node) :
    camif_call → Option cam_isp_resource_node
  | .acquire a => some (cam_vfe_camif_ver3_acquire_resource K node a).2
  | .start rd => (cam_vfe_camif_ver3_resource_start K rd (some node)).2.1
  | .process_cmd t a n =>
    match cam_vfe_camif_ver3_process_cmd K C (some node) t a n with
    | none => none
    | some r => r.rsrc_node
  | .bottom_half p s => (cam_vfe_camif_ver3_handle_irq_bottom_half K (some node) p s).2.1

/-- The resource node after a sequence of calls. -/
def camif_run (K : cam_defs) (C : cam_cmd_defs) :
    cam_isp_resource_node → List camif_call → Option cam_isp_resource_node
  | node, [] => some node
  | node, c :: cs =>
    match camif_step K C node c with
    | none => none
    | some node1 => camif_run K C node1 cs

/-- An SOF interrupt is handled in debug mode when the test at source lines 577-579
holds on entry. -/
def sof_debug_mode (camif_priv : cam_vfe_mux_camif_ver3_data) : Prop :=
  camif_priv.enable_sof_irq_debug = true ∧
  camif_priv.irq_debug_cnt ≤ CAM_VFE_CAMIF_IRQ_SOF_DEBUG_CNT_MAX

instance (camif_priv : cam_vfe_mux_camif_ver3_data) : Decidable (sof_debug_mode camif_priv) := by
  unfold sof_debug_mode
  infer_instance

/-- The private data after an SOF interrupt handled in debug mode (source lines
582-588): the counter is incremented and, when it has reached the maximum, cleared
together with the flag. -/
def sof_debug_advance (camif_priv : cam_vfe_mux_camif_ver3_data) :
    cam_vfe_mux_camif_ver3_data :=
  if u32 (camif_priv.irq_debug_cnt + 1) = CAM_VFE_CAMIF_IRQ_SOF_DEBUG_CNT_MAX then
    { camif_priv with enable_sof_irq_debug := false, irq_debug_cnt := 0 }
  else { camif_priv with irq_debug_cnt := u32 (camif_priv.irq_debug_cnt + 1) }

/-- The sample node with SOF debug enabled and the counter at 0. -/
def sample_node_debug : cam_isp_resource_node :=
  { sample_node with res_priv := { sample_priv with enable_sof_irq_debug := true } }

/-- The sample node after one SOF interrupt in debug mode: counter at 1. -/
def sample_node_debug1 : cam_isp_resource_node :=
  { sample_node with
    res_priv := { sample_priv with enable_sof_irq_debug := true, irq_debug_cnt := 1 } }

/-- The value `computed_epoch_line_cfg` of source lines 283-293, as a function of the
private data. -/
def epoch_irq_cfg_value (rsrc_data : cam_vfe_mux_camif_ver3_data) : Nat :=
  u32_shl (rsrc_data.reg_data.epoch_line_cfg &&& 0xFFFF) 16 |||
    u32 (u32_sub rsrc_data.last_line rsrc_data.first_line / 4 + rsrc_data.first_line)

/-- Sample command-buffer arguments: a CDM whose `cdm_required_size_reg_random(1)` is
3 dwords and a 64-byte command buffer. -/
def sample_cmd_update : cam_isp_hw_get_cmd_update :=
  { res := some ⟨some ⟨fun n => 1 + 2 * n⟩⟩,
    cmd := { cmd_buf_addr := 0x1000, size := 64, used_bytes := 0 } }

/-- Command-buffer arguments with a CDM whose `cdm_required_size_reg_random(1)` is
`0x40000000` dwords, and an 8-byte command buffer. -/
def wrapping_cmd_update : cam_isp_hw_get_cmd_update :=
  { res := some ⟨some ⟨fun _ => 0x40000000⟩⟩,
    cmd := { cmd_buf_addr := 0x1000, size := 8, used_bytes := 0 } }

/-- A sample SOF payload: status 1 has the SOF bit of `sample_reg_data` set. -/
def sample_sof_payload : cam_vfe_top_irq_evt_payload :=
  { evt_id := cam_defs.sample.CAM_ISP_HW_EVENT_SOF, irq_reg_val := [0, 1, 0] }

/-- Sample calls: the `SOF_IRQ_DEBUG` command with argument 1, then one SOF
interrupt. -/
def sample_calls : List camif_call :=
  [.process_cmd cam_cmd_defs.sample.CAM_ISP_HW_CMD_SOF_IRQ_DEBUG
     (some ⟨1, sample_cmd_update⟩) 4,
   .bottom_half (some sample_sof_payload) 0]

end Camif

namespace GpuCC

/-! # Part III: `drivers/clk/qcom/gpucc-lito.c`

The clock framework (`clk-rcg.h`, `clk-branch.h`, `vdd-level.h`, `regmap`) is
outside the sources at hand; the tables of the driver are embedded as they are
written, with the members the claims read. -/

/-- Source line 34. -/
def CX_GMU_CBCR_SLEEP_MASK : Nat := 0xF
/-- Source line 35. -/
def CX_GMU_CBCR_SLEEP_SHIFT : Nat := 4
/-- Source line 36. -/
def CX_GMU_CBCR_WAKE_MASK : Nat := 0xF
/-- Source line 37. -/
def CX_GMU_CBCR_WAKE_SHIFT : Nat := 8

/-! The anonymous `enum` of source lines 39-46. -/

def P_BI_TCXO : Nat := 0
def P_CORE_BI_PLL_TEST_SE : Nat := 1
def P_GPLL0_OUT_MAIN : Nat := 2
def P_GPLL0_OUT_MAIN_DIV : Nat := 3
def P_GPU_CC_PLL0_OUT_MAIN : Nat := 4
def P_GPU_CC_PLL1_OUT_MAIN : Nat := 5

/-- One entry `{ src, cfg }` of a `struct parent_map` array. -/
structure parent_map where
  src : Nat
  cfg : Nat
  deriving DecidableEq

/-- Source lines 48-55. -/
def gpu_cc_parent_map_0 : List parent_map :=
  [⟨P_BI_TCXO, 0⟩, ⟨P_GPU_CC_PLL0_OUT_MAIN, 1⟩, ⟨P_GPU_CC_PLL1_OUT_MAIN, 3⟩,
   ⟨P_GPLL0_OUT_MAIN, 5⟩, ⟨P_GPLL0_OUT_MAIN_DIV, 6⟩, ⟨P_CORE_BI_PLL_TEST_SE, 7⟩]

/-- Source lines 57-64. -/
def gpu_cc_parent_names_0 : List String :=
  [ "bi_tcxo", "gpu_cc_pll0", "gpu_cc_pll1", "gcc_gpu_gpll0_clk_src",
    "gcc_gpu_gpll0_div_clk_src", "core_bi_pll_test_se" ]

/-- Source lines 66-71. -/
def gpu_cc_parent_map_1 : List parent_map :=
  [⟨P_BI_TCXO, 0⟩, ⟨P_GPLL0_OUT_MAIN, 5⟩, ⟨P_GPLL0_OUT_MAIN_DIV, 6⟩,
   ⟨P_CORE_BI_PLL_TEST_SE, 7⟩]

/-- Source lines 73-78. -/
def gpu_cc_parent_names_1 : List String :=
  [ "bi_tcxo", "gcc_gpu_gpll0_clk_src", "gcc_gpu_gpll0_div_clk_src",
    "core_bi_pll_test_se" ]

/-- One row `F(f, s, h, m, n)` of a frequency table, kept as the arguments of the
macro (which is defined in `clk-rcg.h`, outside the sources): frequency in Hz,
source, divider, M and N.  The divider `h` may be a half-integer and is kept
doubled: `h_twice = 3` stands for `1.5`.  The empty terminator `{ }` of the array
is not a row. -/
structure freq_tbl where
  f : Nat
  s : Nat
  h_twice : Nat
  m : Nat
  n : Nat
  deriving DecidableEq

/-- The voltage corners used as designators in the `rate_max` arrays of the file
(`vdd-level.h`, outside the sources, defines their values). -/
inductive vdd_level where
  | VDD_MIN
  | VDD_LOWER
  | VDD_LOW
  | VDD_LOW_L1
  | VDD_NOMINAL
  deriving DecidableEq

/-- Members of `struct clk_init_data` set in the file; `rate_max` lists the
designated entries `[level] = rate` in the order written, every other entry of the
array being 0. -/
structure clk_init_data where
  name : String
  parent_names : List String
  num_parents : Nat
  rate_max : List (vdd_level × Nat)
  deriving DecidableEq

/-- Members of `struct clk_rcg2` set in the file. -/
structure clk_rcg2 where
  cmd_rcgr : Nat
  mnd_width : Nat
  hid_width : Nat
  parent_map : List parent_map
  freq_tbl : List freq_tbl
  init : clk_init_data
  deriving DecidableEq

/-- Source lines 118-123. -/
def ftbl_gpu_cc_gmu_clk_src : List freq_tbl :=
  [⟨19200000, P_BI_TCXO, 2, 0, 0⟩,
   ⟨200000000, P_GPLL0_OUT_MAIN_DIV, 3, 0, 0⟩,
   ⟨500000000, P_GPU_CC_PLL1_OUT_MAIN, 2, 0, 0⟩]

/-- Source lines 125-143. -/
def gpu_cc_gmu_clk_src : clk_rcg2 :=
  { cmd_rcgr := 0x1120, mnd_width := 0, hid_width := 5,
    parent_map := gpu_cc_parent_map_0,
    freq_tbl := ftbl_gpu_cc_gmu_clk_src,
    init := { name := "gpu_cc_gmu_clk_src", parent_names := gpu_cc_parent_names_0,
              num_parents := 6,
              rate_max := [(.VDD_LOWER, 200000000), (.VDD_LOW, 500000000)] } }

/-- Source lines 145-149. -/
def ftbl_gpu_cc_rbcpr_clk_src : List freq_tbl :=
  [⟨19200000, P_BI_TCXO, 2, 0, 0⟩,
   ⟨50000000, P_GPLL0_OUT_MAIN_DIV, 12, 0, 0⟩]

/-- Source lines 151-169. -/
def gpu_cc_rbcpr_clk_src : clk_rcg2 :=
  { cmd_rcgr := 0x10b0, mnd_width := 0, hid_width := 5,
    parent_map := gpu_cc_parent_map_1,
    freq_tbl := ftbl_gpu_cc_rbcpr_clk_src,
    init := { name := "gpu_cc_rbcpr_clk_src", parent_names := gpu_cc_parent_names_1,
              num_parents := 4,
              rate_max := [(.VDD_LOWER, 19200000), (.VDD_NOMINAL, 50000000)] } }

/-- Members of `struct clk_branch` set in the file (`enable_mask` is `BIT(0)`). -/
structure clk_branch where
  halt_reg : Nat
  enable_reg : Nat
  enable_mask : Nat
  name : String
  parent_names : List String
  num_parents : Nat
  deriving DecidableEq

/-- Source lines 210-226. -/
def gpu_cc_cx_gmu_clk : clk_branch :=
  { halt_reg := 0x1098, enable_reg := 0x1098, enable_mask := 1 <<< 0,
    name := "gpu_cc_cx_gmu_clk", parent_names := [ "gpu_cc_gmu_clk_src" ],
    num_parents := 1 }

/-- The frequencies of the table of a root clock generator, in table order. -/
def rcg_freqs (c : clk_rcg2) : List Nat :=
  c.freq_tbl.map (fun e => e.f)

/-- The largest value of a list of rates (0 for the empty list). -/
def highest (rates : List Nat) : Nat :=
  rates.foldl max 0

/-- The well-formedness of the tables of a root clock generator: the frequencies
strictly increase, the source of every row is in the parent map, the parent map
and the parent names have `num_parents` entries, every `rate_max` limit is a
frequency of the table, and the highest limit is the highest frequency. -/
def rcg_well_formed (c : clk_rcg2) : Prop :=
  (rcg_freqs c).Pairwise (fun a b => a < b) ∧
  (∀ e ∈ c.freq_tbl, ∃ p ∈ c.parent_map, p.src = e.s) ∧
  c.parent_map.length = c.init.num_parents ∧
  c.init.parent_names.length = c.init.num_parents ∧
  (∀ r ∈ c.init.rate_max, r.2 ∈ rcg_freqs c) ∧
  highest (c.init.rate_max.map (fun r => r.2)) = highest (rcg_freqs c)

instance (c : clk_rcg2) : Decidable (rcg_well_formed c) := by
  unfold rcg_well_formed
  infer_instance

/-- What `gpu_cc_lito_probe` gets from the functions it calls: the error carried by
the pointer `qcom_cc_map` and each `devm_regulator_get` return (`none` when
`IS_ERR` is false), and the return value of `qcom_cc_really_probe`. -/
structure probe_env where
  qcom_cc_map_err : Option Int
  vdd_cx_err : Option Int
  vdd_mx_err : Option Int
  really_probe_ret : Int
  deriving DecidableEq

/-- A call made by `gpu_cc_lito_probe` that acts on the clock controller. -/
inductive probe_call where
  | clk_lucid_pll_configure (pll_offset : Nat)
  | regmap_update_bits (reg mask val : Nat)
  | qcom_cc_really_probe
  deriving DecidableEq

/-- Source lines 404-447 (`mask` and `value` are `unsigned int`).  The result is the
return value and the calls made on the clock controller, in order. -/
def gpu_cc_lito_probe (env : probe_env) : Int × List probe_call :=
  match env.qcom_cc_map_err with
  | some err => (err, [])
  | none =>
    match env.vdd_cx_err with
    | some err => (err, [])
    | none =>
      match env.vdd_mx_err with
      | some err => (err, [])
      | none =>
        /- Recommended WAKEUP/SLEEP settings for the gpu_cc_cx_gmu_clk -/
        let mask := Camif.u32 (CX_GMU_CBCR_WAKE_MASK <<< CX_GMU_CBCR_WAKE_SHIFT)
        let mask := mask ||| Camif.u32 (CX_GMU_CBCR_SLEEP_MASK <<< CX_GMU_CBCR_SLEEP_SHIFT)
        let value := Camif.u32
          (0xF <<< CX_GMU_CBCR_WAKE_SHIFT ||| 0xF <<< CX_GMU_CBCR_SLEEP_SHIFT)
        let calls :=
          [probe_call.clk_lucid_pll_configure 0x100,
           probe_call.regmap_update_bits gpu_cc_cx_gmu_clk.enable_reg mask value,
           probe_call.qcom_cc_really_probe]
        if env.really_probe_ret ≠ 0 then (env.really_probe_ret, calls)
        else (0, calls)

/-- Modelled from the spec: the "bit-field write" the probe makes through
`regmap_update_bits(map, reg, mask, val)`.  The function belongs to the kernel's
regmap layer, which is missing from the sources: on a 32-bit register
(`val_bits = 32`, source line 385) the new content is the old one with the bits
selected by `mask` replaced by those of `val`. -/
def regmap_update_bits_value (orig mask val : Nat) : Nat :=
  (orig &&& (0xFFFFFFFF ^^^ mask)) ||| (val &&& mask)

/-- A probe environment in which every call succeeds. -/
def sample_probe_env : probe_env :=
  { qcom_cc_map_err := none, vdd_cx_err := none, vdd_mx_err := none,
    really_probe_ret := 0 }

end GpuCC

/-! # Theorems -/

set_option maxRecDepth 100000

namespace Synx

/-! # Part I: the synx core -/

/-! ## Lemmas on handle resolution -/

theorem synx_from_handle_some {d : synx_device} {h : Int} {row : synx_table_row}
    (hr : synx_from_handle d h = some row) :
    0 ≤ h ∧ h < SYNX_MAX_OBJS ∧ d.synx_table[h.toNat]? = some row ∧
      row.fence.isSome = true := by
  unfold synx_from_handle at hr
  split at hr
  · rename_i hb
    split at hr
    · rename_i r hg
      split at hr
      · rename_i hf
        cases hr
        exact ⟨hb.1, hb.2, hg, hf⟩
      · cases hr
    · cases hr
  · cases hr

theorem synx_from_handle_of_get {d : synx_device} {h : Int} {row : synx_table_row}
    (h0 : 0 ≤ h) (h1 : h < SYNX_MAX_OBJS) (hg : d.synx_table[h.toNat]? = some row) :
    synx_from_handle d h = if row.fence.isSome then some row else none := by
  unfold synx_from_handle
  rw [if_pos ⟨h0, h1⟩, hg]

theorem synx_release_ok {d d1 : synx_device} {h : Int}
    (hrel : synx_release d h = (.ok (), d1)) :
    ∃ row, synx_from_handle d h = some row ∧
      d1.synx_table = d.synx_table.set h.toNat synx_table_row.empty ∧
      d1.bitmap = d.bitmap.set h.toNat false := by
  unfold synx_release at hrel
  split at hrel
  · simp at hrel
  · rename_i row hr
    refine ⟨row, hr, ?_, ?_⟩
    · simp only [Prod.mk.injEq] at hrel
      rw [← hrel.2]
    · simp only [Prod.mk.injEq] at hrel
      rw [← hrel.2]

theorem synx_from_handle_released {d d1 : synx_device} {h : Int}
    (hrel : synx_release d h = (.ok (), d1)) : synx_from_handle d1 h = none := by
  obtain ⟨row, hr, ht, _⟩ := synx_release_ok hrel
  obtain ⟨h0, h1, hg, _⟩ := synx_from_handle_some hr
  have hlt : h.toNat < d.synx_table.length := by
    rcases Nat.lt_or_ge h.toNat d.synx_table.length with hl | hl
    · exact hl
    · rw [List.getElem?_eq_none hl] at hg
      cases hg
  have hg1 : d1.synx_table[h.toNat]? = some synx_table_row.empty := by
    rw [ht, List.getElem?_set_self hlt]
  rw [synx_from_handle_of_get h0 h1 hg1]
  rfl

/-- Resolution of a handle after its own slot has been overwritten by a row holding
a fence. -/
theorem synx_from_handle_set {d d1 : synx_device} {h : Int} {row row1 : synx_table_row}
    (hr : synx_from_handle d h = some row)
    (ht : d1.synx_table = d.synx_table.set h.toNat row1)
    (hf : row1.fence.isSome = true) : synx_from_handle d1 h = some row1 := by
  obtain ⟨h0, h1, hg, _⟩ := synx_from_handle_some hr
  have hlt : h.toNat < d.synx_table.length := by
    rcases Nat.lt_or_ge h.toNat d.synx_table.length with hl | hl
    · exact hl
    · rw [List.getElem?_eq_none hl] at hg
      cases hg
  rw [synx_from_handle_of_get h0 h1 (by rw [ht, List.getElem?_set_self hlt]), if_pos hf]

/-! ## The structural invariant holds in every reachable state -/

theorem list_set_eq_self {α : Type} {l : List α} {i : Nat} {a : α}
    (h : l[i]? = some a) : l.set i a = l := by
  apply List.ext_getElem?
  intro j
  rw [List.getElem?_set]
  split
  · rename_i hij
    subst hij
    split
    · exact h.symm
    · rename_i hlt
      exact (List.getElem?_eq_none (Nat.le_of_not_lt hlt)).symm
  · rfl

theorem synx_init_wf (ntypes : Nat) : (synx_device.init ntypes).wf := by
  simp [synx_device.wf, synx_device.init, synx_table_row.empty]

/-- Replacing a row by one that holds a fence exactly when the old one did, with
locks and bitmap untouched, keeps the invariant. -/
theorem wf_set_same {d d1 : synx_device} (hwf : d.wf) {idx : Nat}
    {row row1 : synx_table_row} (ht : d1.synx_table = d.synx_table.set idx row1)
    (hg : d.synx_table[idx]? = some row)
    (hf : row1.fence.isSome = row.fence.isSome)
    (hl : d1.row_spinlocks = d.row_spinlocks) (hb : d1.bitmap = d.bitmap) : d1.wf := by
  obtain ⟨h1, h2, h3, h4⟩ := hwf
  refine ⟨?_, ?_, ?_, ?_⟩
  · rw [ht, List.length_set, h1]
  · rw [hl, h2]
  · rw [hb, h3]
  · rw [hb, ht, List.map_set, hf, h4]
    symm
    apply list_set_eq_self
    rw [List.getElem?_map, hg]
    rfl

/-- Replacing a row and setting its bitmap bit accordingly keeps the invariant. -/
theorem wf_set_bit {d d1 : synx_device} (hwf : d.wf) {idx : Nat} {row1 : synx_table_row}
    (ht : d1.synx_table = d.synx_table.set idx row1)
    (hl : d1.row_spinlocks = d.row_spinlocks)
    (hb : d1.bitmap = d.bitmap.set idx row1.fence.isSome) : d1.wf := by
  obtain ⟨h1, h2, h3, h4⟩ := hwf
  refine ⟨?_, ?_, ?_, ?_⟩
  · rw [ht, List.length_set, h1]
  · rw [hl, h2]
  · rw [hb, List.length_set, h3]
  · rw [hb, ht, List.map_set, h4]

/-- A device with the same table, locks and bitmap satisfies the invariant too. -/
theorem wf_of_same_table {d d1 : synx_device} (hwf : d.wf)
    (ht : d1.synx_table = d.synx_table) (hl : d1.row_spinlocks = d.row_spinlocks)
    (hb : d1.bitmap = d.bitmap) : d1.wf := by
  unfold synx_device.wf at *
  rw [ht, hl, hb]
  exact hwf

theorem synx_create_wf {d : synx_device} (hwf : d.wf) (name : List Nat)
    (fence : dma_fence) (key : Nat) : (synx_create d name fence key).2.wf := by
  unfold synx_create
  dsimp only
  split
  · exact wf_set_bit hwf rfl rfl rfl
  · exact hwf

theorem synx_release_wf {d : synx_device} (hwf : d.wf) (h : Int) :
    (synx_release d h).2.wf := by
  unfold synx_release
  split
  · exact hwf
  · exact wf_set_bit hwf rfl rfl rfl

theorem synx_bind_wf {d : synx_device} (hwf : d.wf) (h : Int) (t : Nat) (e : Int) :
    (synx_bind d h t e).2.wf := by
  unfold synx_bind
  split
  · exact hwf
  · rename_i row hr
    obtain ⟨_, _, hg, _⟩ := synx_from_handle_some hr
    split
    · exact hwf
    · dsimp only
      split
      · exact hwf
      · split
        · exact hwf
        · split
          · exact hwf
          · exact wf_set_same hwf rfl hg rfl rfl rfl

theorem synx_enqueue_kernel_callback_wf {d : synx_device} (hwf : d.wf) (h : Int)
    (f c : Nat) (s : Status) : (synx_enqueue_kernel_callback d h f c s).2.wf := by
  unfold synx_enqueue_kernel_callback
  split
  · exact hwf
  · rename_i row hr
    obtain ⟨_, _, hg, _⟩ := synx_from_handle_some hr
    dsimp only
    split
    · exact wf_of_same_table hwf rfl rfl rfl
    · exact wf_set_same hwf rfl hg rfl rfl rfl

theorem synx_register_user_payload_wf {d : synx_device} (hwf : d.wf) (s : Nat) (h : Int)
    (p : List Nat) : (synx_register_user_payload d s h p).2.wf := by
  unfold synx_register_user_payload
  split
  · exact hwf
  · rename_i row hr
    obtain ⟨_, _, hg, _⟩ := synx_from_handle_some hr
    dsimp only
    split
    · exact wf_of_same_table hwf rfl rfl rfl
    · exact wf_set_same hwf rfl hg rfl rfl rfl

theorem synx_on_fence_signaled_wf {d : synx_device} (hwf : d.wf) (h : Int) (s : Status) :
    (synx_on_fence_signaled d h s).2.wf := by
  unfold synx_on_fence_signaled
  split
  · exact hwf
  · rename_i row hr
    obtain ⟨_, _, hg, hf⟩ := synx_from_handle_some hr
    split
    · exact wf_set_same hwf rfl hg (by rw [hf]; rfl) rfl rfl
    · exact hwf

theorem synx_signal_external_wf {d : synx_device} (hwf : d.wf) (t : Nat) (e : Int)
    (s : Status) (data : synx_external_data) :
    (synx_signal_external d t e s data).2.wf := by
  unfold synx_signal_external
  split
  · split
    · exact hwf
    · rename_i row hg
      split
      · exact hwf
      · split
        · exact hwf
        · apply synx_on_fence_signaled_wf
          exact wf_set_same hwf rfl hg rfl rfl rfl
  · exact hwf

theorem synx_dispatch_one_wf {qmax : Nat} {d : synx_device} (hwf : d.wf) :
    (synx_dispatch_one qmax d).wf := by
  unfold synx_dispatch_one
  split
  · exact hwf
  · exact wf_of_same_table hwf rfl rfl rfl
  · split
    · exact wf_of_same_table hwf rfl rfl rfl
    · exact wf_of_same_table hwf rfl rfl rfl

theorem synx_step_wf {qmax : Nat} {d : synx_device} (hwf : d.wf) (op : synx_op) :
    (synx_step qmax d op).wf := by
  cases op with
  | register_type tag ops =>
    simp only [synx_step, synx_register_type]
    split
    · exact wf_of_same_table hwf rfl rfl rfl
    · exact hwf
  | create_session pid => exact wf_of_same_table hwf rfl rfl rfl
  | create name fence key => exact synx_create_wf hwf name fence key
  | release h => exact synx_release_wf hwf h
  | bind h t e => exact synx_bind_wf hwf h t e
  | enqueue_kernel_callback h f c s => exact synx_enqueue_kernel_callback_wf hwf h f c s
  | register_user_payload s h p => exact synx_register_user_payload_wf hwf s h p
  | on_fence_signaled h s => exact synx_on_fence_signaled_wf hwf h s
  | signal_external t e s data => exact synx_signal_external_wf hwf t e s data
  | dispatch_one => exact synx_dispatch_one_wf hwf
  | poll s =>
    simp only [synx_step, synx_poll]
    split
    · exact hwf
    · exact wf_of_same_table hwf rfl rfl rfl

theorem synx_run_wf {qmax : Nat} (ops : List synx_op) {d : synx_device} (hwf : d.wf) :
    (synx_run qmax d ops).wf := by
  induction ops generalizing d with
  | nil => exact hwf
  | cons op ops ih => exact ih (synx_step_wf hwf op)

theorem synx_reachable_wf {qmax ntypes : Nat} {d : synx_device}
    (hr : synx_reachable qmax ntypes d) : d.wf := by
  obtain ⟨ops, rfl⟩ := hr
  exact synx_run_wf ops (synx_init_wf ntypes)

/-! ## Allocation from the bitmap -/

/-- The bitmap bit of a row tells whether the row holds a fence. -/
theorem bitmap_bit_eq {d : synx_device}
    (h4 : d.bitmap = d.synx_table.map (fun r => r.fence.isSome)) {i : Nat}
    {row : synx_table_row} (hg : d.synx_table[i]? = some row) :
    d.bitmap[i]? = some row.fence.isSome := by
  have h := congrArg (fun l => l[i]?) h4
  simp only [List.getElem?_map, hg] at h
  exact h

/-- In a well-formed device the first clear bit, when there is one, is the index of
a free row. -/
theorem first_zero_bit_free {d : synx_device} (hwf : d.wf)
    (hlt : find_first_zero_bit d.bitmap < SYNX_MAX_OBJS) :
    synx_row_free d (find_first_zero_bit d.bitmap) := by
  obtain ⟨h1, _, h3, h4⟩ := hwf
  have hlen : find_first_zero_bit d.bitmap < d.bitmap.length := by rw [h3]; exact hlt
  have hbit : (!d.bitmap[find_first_zero_bit d.bitmap]) = true :=
    @List.findIdx_getElem Bool (fun b => !b) d.bitmap hlen
  have hlt1 : find_first_zero_bit d.bitmap < d.synx_table.length := by rw [h1]; exact hlt
  refine ⟨d.synx_table[find_first_zero_bit d.bitmap], List.getElem?_eq_getElem hlt1, ?_⟩
  have hm := bitmap_bit_eq h4 (List.getElem?_eq_getElem hlt1)
  rw [List.getElem?_eq_getElem hlen] at hm
  have hb : d.bitmap[find_first_zero_bit d.bitmap] = false := by
    simpa using hbit
  rw [hb] at hm
  have hs : d.synx_table[find_first_zero_bit d.bitmap].fence.isSome = false := by
    injection hm with hm
    exact hm.symm
  cases hfe : d.synx_table[find_first_zero_bit d.bitmap].fence with
  | none => rfl
  | some f => rw [hfe] at hs; cases hs

/-- In a well-formed device a free row exists exactly when the bitmap has a clear
bit below the capacity. -/
theorem exists_free_iff {d : synx_device} (hwf : d.wf) :
    (∃ i, i < SYNX_MAX_OBJS ∧ synx_row_free d i) ↔
      find_first_zero_bit d.bitmap < SYNX_MAX_OBJS := by
  constructor
  · rintro ⟨i, _, row, hg, hf⟩
    obtain ⟨_, _, h3, h4⟩ := hwf
    have hmem : false ∈ d.bitmap := by
      rw [List.mem_iff_getElem?]
      refine ⟨i, ?_⟩
      rw [h4, List.getElem?_map, hg]
      simp [hf]
    have hfi : List.findIdx (fun b => !b) d.bitmap < d.bitmap.length :=
      List.findIdx_lt_length_of_exists ⟨false, hmem, rfl⟩
    rw [h3] at hfi
    exact hfi
  · intro hlt
    exact ⟨_, hlt, first_zero_bit_free hwf hlt⟩

/-- C5: in every reachable state the object table, the lock array and the bitmap
have the same capacity `SYNX_MAX_OBJS = 1024`; `create` fails with `TableFull`
exactly when none of the 1024 rows is free, and otherwise returns an id below 1024
that is the index of a row that was free and now holds the new object. -/
theorem synx_create_table_full_iff (qmax ntypes : Nat) (d : synx_device)
    (name : List Nat) (fence : dma_fence) (key : Nat)
    (hr : synx_reachable qmax ntypes d) :
    (SYNX_MAX_OBJS = 1024 ∧ d.synx_table.length = SYNX_MAX_OBJS ∧
      d.row_spinlocks.length = SYNX_MAX_OBJS ∧ d.bitmap.length = SYNX_MAX_OBJS) ∧
    ((synx_create d name fence key).1 = .error .TableFull ↔
      ¬ ∃ i, i < SYNX_MAX_OBJS ∧ synx_row_free d i) ∧
    ((∃ i, i < SYNX_MAX_OBJS ∧ synx_row_free d i) →
      ∃ idx : Nat, (synx_create d name fence key).1 = .ok (idx : Int) ∧
        idx < SYNX_MAX_OBJS ∧ synx_row_free d idx ∧
        ∃ row, synx_from_handle (synx_create d name fence key).2 idx = some row ∧
          row.fence = some fence ∧ row.synx_obj = idx ∧ row.index = idx) := by
  have hwf := synx_reachable_wf hr
  have hfree := exists_free_iff hwf
  refine ⟨⟨rfl, hwf.1, hwf.2.1, hwf.2.2.1⟩, ?_, ?_⟩
  · rw [hfree]
    unfold synx_create
    dsimp only
    split
    · rename_i hlt
      simp [hlt]
    · rename_i hlt
      simp [hlt]
  · intro hex
    have hlt := hfree.mp hex
    refine ⟨find_first_zero_bit d.bitmap, ?_, hlt, first_zero_bit_free hwf hlt, ?_⟩
    · unfold synx_create
      dsimp only
      rw [if_pos hlt]
    · have hlt1 : find_first_zero_bit d.bitmap < d.synx_table.length := by
        rw [hwf.1]; exact hlt
      have hrun : (synx_create d name fence key).2.synx_table =
          d.synx_table.set (find_first_zero_bit d.bitmap)
            (synx_new_row (find_first_zero_bit d.bitmap) name fence key) := by
        unfold synx_create
        dsimp only
        rw [if_pos hlt]
      refine ⟨synx_new_row (find_first_zero_bit d.bitmap) name fence key, ?_, rfl, rfl, rfl⟩
      rw [synx_from_handle_of_get (Int.natCast_nonneg _) (by exact_mod_cast hlt)
        (by rw [hrun, Int.toNat_natCast, List.getElem?_set_self hlt1])]
      rfl

/-- C5, at a concrete input: the sample device is reachable, its row 1 is free, and
`create` returns id 1. -/
theorem synx_create_table_full_iff_witness :
    synx_reachable 4 2 sample_device ∧
    (∃ i, i < SYNX_MAX_OBJS ∧ synx_row_free sample_device i) ∧
    ∃ idx : Nat, (synx_create sample_device [] ⟨.ACTIVE⟩ 7).1 = .ok (idx : Int) ∧
      idx < SYNX_MAX_OBJS ∧ synx_row_free sample_device idx ∧
      ∃ row, synx_from_handle (synx_create sample_device [] ⟨.ACTIVE⟩ 7).2 idx = some row ∧
        row.fence = some ⟨.ACTIVE⟩ ∧ row.synx_obj = idx ∧ row.index = idx :=
  ⟨⟨_, rfl⟩, ⟨1, by decide, _, rfl, rfl⟩,
   (synx_create_table_full_iff 4 2 sample_device [] ⟨.ACTIVE⟩ 7 ⟨_, rfl⟩).2.2
     ⟨1, by decide, _, rfl, rfl⟩⟩

/-- The dispatch worker, run for as many steps as there are work items, invokes the
kernel callbacks of the queue in queue order, empties the queue and leaves the
table alone. -/
theorem synx_worker_drain (qmax : Nat) (q : List synx_work) :
    ∀ d : synx_device, d.work_queue = q →
      (synx_worker qmax q.length d).dispatched =
          d.dispatched ++ q.filterMap synx_work.kernel_info ∧
      (synx_worker qmax q.length d).work_queue = [] ∧
      (synx_worker qmax q.length d).synx_table = d.synx_table := by
  induction q with
  | nil =>
    intro d hq
    simp [synx_worker, hq]
  | cons w rest ih =>
    intro d hq
    have hstep : (synx_dispatch_one qmax d).work_queue = rest ∧
        (synx_dispatch_one qmax d).synx_table = d.synx_table ∧
        (synx_dispatch_one qmax d).dispatched =
          d.dispatched ++ (synx_work.kernel_info w).toList := by
      unfold synx_dispatch_one
      rw [hq]
      cases w with
      | kernel_cb info => exact ⟨rfl, rfl, rfl⟩
      | user_cb node =>
        dsimp only
        split
        · exact ⟨rfl, rfl, by simp [synx_work.kernel_info]⟩
        · exact ⟨rfl, rfl, by simp [synx_work.kernel_info]⟩
    obtain ⟨h1, h2, h3⟩ := hstep
    obtain ⟨i1, i2, i3⟩ := ih (synx_dispatch_one qmax d) h1
    simp only [List.length_cons, synx_worker]
    refine ⟨?_, i2, by rw [i3, h2]⟩
    rw [i1, h3]
    cases hw : synx_work.kernel_info w <;> simp [List.filterMap_cons, hw]

/-- Registering a kernel callback on a live ACTIVE row succeeds and appends the
registration to the callback list of the row; nothing else changes. -/
theorem synx_enqueue_active {d : synx_device} {h : Int} {row : synx_table_row}
    (hr : synx_from_handle d h = some row) (hact : row.fence = some ⟨.ACTIVE⟩)
    (f c : Nat) (s : Status) :
    synx_enqueue_kernel_callback d h f c s =
      (.ok (), d.set_row h.toNat
                 { row with callback_list := row.callback_list ++ [⟨f, c, s, h⟩] }) := by
  unfold synx_enqueue_kernel_callback
  rw [hr]
  dsimp only
  rw [hact]
  rfl

/-- The row of `h` right after a registration on it. -/
theorem synx_enqueue_active_row {d : synx_device} {h : Int} {row : synx_table_row}
    (hr : synx_from_handle d h = some row) (hact : row.fence = some ⟨.ACTIVE⟩)
    (f c : Nat) (s : Status) :
    synx_from_handle (synx_enqueue_kernel_callback d h f c s).2 h =
      some { row with callback_list := row.callback_list ++ [⟨f, c, s, h⟩] } := by
  apply synx_from_handle_set hr
  · rw [synx_enqueue_active hr hact]
    rfl
  · rw [hact]; rfl

/-! ## Requests on other objects leave the callbacks of an object alone -/

theorem synx_from_handle_congr {d d1 : synx_device} {h : Int}
    (ht : d1.synx_table[h.toNat]? = d.synx_table[h.toNat]?) :
    synx_from_handle d1 h = synx_from_handle d h := by
  unfold synx_from_handle
  rw [ht]

theorem synx_row_kept_refl (d : synx_device) (h : Int) : synx_row_kept d d h :=
  fun row hr => ⟨row, hr, rfl, rfl⟩

theorem synx_row_kept_trans {d d1 d2 : synx_device} {h : Int}
    (h1 : synx_row_kept d d1 h) (h2 : synx_row_kept d1 d2 h) : synx_row_kept d d2 h := by
  intro row hr
  obtain ⟨r1, hr1, c1, f1⟩ := h1 row hr
  obtain ⟨r2, hr2, c2, f2⟩ := h2 r1 hr1
  exact ⟨r2, hr2, c2.trans c1, f2.trans f1⟩

theorem synx_row_kept_of_table {d d1 : synx_device} {h : Int}
    (ht : d1.synx_table = d.synx_table) : synx_row_kept d d1 h := by
  intro row hr
  refine ⟨row, ?_, rfl, rfl⟩
  rw [@synx_from_handle_congr d d1 h (by rw [ht]), hr]

/-- Overwriting the slot of another object keeps the row of `h`. -/
theorem synx_row_kept_of_set_index {d d1 : synx_device} {h : Int} {i : Nat}
    {r : synx_table_row} (hi : i ≠ h.toNat) (ht : d1.synx_table = d.synx_table.set i r) :
    synx_row_kept d d1 h := by
  intro row hr
  refine ⟨row, ?_, rfl, rfl⟩
  rw [@synx_from_handle_congr d d1 h (by rw [ht, List.getElem?_set_ne hi]), hr]

theorem synx_row_kept_of_set_ne {d d1 : synx_device} {h h1 : Int} {r1 r : synx_table_row}
    (hne : h1 ≠ h) (hr1 : synx_from_handle d h1 = some r1)
    (ht : d1.synx_table = d.synx_table.set h1.toNat r) : synx_row_kept d d1 h := by
  intro row hr
  obtain ⟨a0, _, _, _⟩ := synx_from_handle_some hr1
  obtain ⟨b0, _, _, _⟩ := synx_from_handle_some hr
  have hi : h1.toNat ≠ h.toNat := by omega
  exact synx_row_kept_of_set_index hi ht row hr

/-- Overwriting the slot of any object by a row with the same callback list and
fence keeps the row of `h`. -/
theorem synx_row_kept_of_set_same {d d1 : synx_device} {h h1 : Int}
    {r1 r : synx_table_row} (hr1 : synx_from_handle d h1 = some r1)
    (ht : d1.synx_table = d.synx_table.set h1.toNat r)
    (hc : r.callback_list = r1.callback_list) (hf : r.fence = r1.fence) :
    synx_row_kept d d1 h := by
  by_cases hne : h1 = h
  · subst hne
    intro row hr
    rw [hr1] at hr
    injection hr with hr
    subst hr
    refine ⟨r, synx_from_handle_set hr1 ht ?_, hc, hf⟩
    rw [hf]
    exact (synx_from_handle_some hr1).2.2.2
  · exact synx_row_kept_of_set_ne hne hr1 ht

theorem synx_create_kept {d : synx_device} (hwf : d.wf) (h : Int) (name : List Nat)
    (fence : dma_fence) (key : Nat) :
    synx_row_kept d (synx_create d name fence key).2 h := by
  unfold synx_create
  dsimp only
  split
  · rename_i hlt
    intro row hr
    obtain ⟨_, _, hg, hf⟩ := synx_from_handle_some hr
    obtain ⟨frow, hfg, hff⟩ := first_zero_bit_free hwf hlt
    have hi : find_first_zero_bit d.bitmap ≠ h.toNat := by
      intro he
      rw [he, hg] at hfg
      injection hfg with hfg
      rw [hfg, hff] at hf
      cases hf
    exact synx_row_kept_of_set_index hi rfl row hr
  · exact synx_row_kept_refl d h

theorem synx_release_kept {d : synx_device} {h h1 : Int} (hne : h1 ≠ h) :
    synx_row_kept d (synx_release d h1).2 h := by
  unfold synx_release
  split
  · exact synx_row_kept_refl d h
  · rename_i r1 hr1
    exact synx_row_kept_of_set_ne hne hr1 rfl

theorem synx_bind_kept (d : synx_device) (h h1 : Int) (t : Nat) (e : Int) :
    synx_row_kept d (synx_bind d h1 t e).2 h := by
  unfold synx_bind
  split
  · exact synx_row_kept_refl d h
  · rename_i r1 hr1
    split
    · exact synx_row_kept_refl d h
    · dsimp only
      split
      · exact synx_row_kept_refl d h
      · split
        · exact synx_row_kept_refl d h
        · split
          · exact synx_row_kept_refl d h
          · exact synx_row_kept_of_set_same hr1 rfl rfl rfl

theorem synx_register_user_payload_kept (d : synx_device) (h : Int) (s : Nat) (h1 : Int)
    (p : List Nat) : synx_row_kept d (synx_register_user_payload d s h1 p).2 h := by
  unfold synx_register_user_payload
  split
  · exact synx_row_kept_refl d h
  · rename_i r1 hr1
    dsimp only
    split
    · exact synx_row_kept_of_table rfl
    · exact synx_row_kept_of_set_same hr1 rfl rfl rfl

theorem synx_enqueue_kept {d : synx_device} {h h1 : Int} (hne : h1 ≠ h) (f c : Nat)
    (s : Status) : synx_row_kept d (synx_enqueue_kernel_callback d h1 f c s).2 h := by
  unfold synx_enqueue_kernel_callback
  split
  · exact synx_row_kept_refl d h
  · rename_i r1 hr1
    dsimp only
    split
    · exact synx_row_kept_of_table rfl
    · exact synx_row_kept_of_set_ne hne hr1 rfl

theorem synx_on_fence_signaled_kept {d : synx_device} {h h1 : Int} (hne : h1 ≠ h)
    (s : Status) : synx_row_kept d (synx_on_fence_signaled d h1 s).2 h := by
  unfold synx_on_fence_signaled
  split
  · exact synx_row_kept_refl d h
  · rename_i r1 hr1
    split
    · exact synx_row_kept_of_set_ne hne hr1 rfl
    · exact synx_row_kept_refl d h

theorem synx_signal_external_kept {d : synx_device} {h : Int} (t : Nat) (e : Int)
    (s : Status) {data : synx_external_data} (hne : data.synx_obj ≠ h) :
    synx_row_kept d (synx_signal_external d t e s data).2 h := by
  unfold synx_signal_external
  split
  · rename_i hb
    split
    · exact synx_row_kept_refl d h
    · rename_i r1 hg1
      split
      · exact synx_row_kept_refl d h
      · split
        · exact synx_row_kept_refl d h
        · apply synx_row_kept_trans _ (synx_on_fence_signaled_kept hne s)
          intro row hr
          obtain ⟨b0, _, _, _⟩ := synx_from_handle_some hr
          have hi : data.synx_obj.toNat ≠ h.toNat := by
            have := hb.1
            omega
          exact synx_row_kept_of_set_index hi rfl row hr
  · exact synx_row_kept_refl d h

theorem synx_dispatch_one_table (qmax : Nat) (d : synx_device) :
    (synx_dispatch_one qmax d).synx_table = d.synx_table := by
  unfold synx_dispatch_one
  repeat' split
  all_goals rfl

/-- One request that neither releases nor signals `h`, made while `h` is ACTIVE:
`h` stays ACTIVE and its callback list grows by the registration the request makes
on `h`, if it makes one. -/
theorem synx_step_callbacks (qmax : Nat) {d : synx_device} (hwf : d.wf) {h : Int}
    {row : synx_table_row} (hr : synx_from_handle d h = some row)
    (hact : row.fence = some ⟨.ACTIVE⟩) (op : synx_op)
    (hop : synx_op_keeps_active h op = true) :
    ∃ row1, synx_from_handle (synx_step qmax d op) h = some row1 ∧
      row1.fence = some ⟨.ACTIVE⟩ ∧
      row1.callback_list = row.callback_list ++
        (synx_registrations h [op]).map (fun r => ⟨r.1, r.2.1, r.2.2, h⟩) := by
  have hkept : ∀ d1 : synx_device, synx_row_kept d d1 h →
      (synx_registrations h [op]) = [] →
      ∃ row1, synx_from_handle d1 h = some row1 ∧ row1.fence = some ⟨.ACTIVE⟩ ∧
        row1.callback_list = row.callback_list ++
          (synx_registrations h [op]).map (fun r => ⟨r.1, r.2.1, r.2.2, h⟩) := by
    intro d1 hk hnil
    obtain ⟨row1, h1, c1, f1⟩ := hk row hr
    refine ⟨row1, h1, f1.trans hact, ?_⟩
    rw [hnil, c1]
    simp
  cases op with
  | register_type tag ops =>
    apply hkept _ _ rfl
    simp only [synx_step, synx_register_type]
    split
    · exact synx_row_kept_of_table rfl
    · exact synx_row_kept_refl d h
  | create_session pid => exact hkept _ (synx_row_kept_of_table rfl) rfl
  | create name fence key => exact hkept _ (synx_create_kept hwf h name fence key) rfl
  | release h1 =>
    have hne : h1 ≠ h := by simpa [synx_op_keeps_active] using hop
    exact hkept _ (synx_release_kept hne) rfl
  | bind h1 t e => exact hkept _ (synx_bind_kept d h h1 t e) rfl
  | enqueue_kernel_callback h1 f c s =>
    by_cases hne : h1 = h
    · subst hne
      refine ⟨_, synx_enqueue_active_row hr hact f c s, hact, ?_⟩
      simp [synx_registrations]
    · apply hkept _ (synx_enqueue_kept hne f c s)
      simp [synx_registrations, hne]
  | register_user_payload s h1 p =>
    exact hkept _ (synx_register_user_payload_kept d h s h1 p) rfl
  | on_fence_signaled h1 s =>
    have hne : h1 ≠ h := by simpa [synx_op_keeps_active] using hop
    exact hkept _ (synx_on_fence_signaled_kept hne s) rfl
  | signal_external t e s data =>
    have hne : data.synx_obj ≠ h := by simpa [synx_op_keeps_active] using hop
    exact hkept _ (synx_signal_external_kept t e s hne) rfl
  | dispatch_one =>
    exact hkept _ (synx_row_kept_of_table (synx_dispatch_one_table qmax d)) rfl
  | poll s =>
    apply hkept _ _ rfl
    simp only [synx_step, synx_poll]
    split
    · exact synx_row_kept_refl d h
    · exact synx_row_kept_of_table rfl

/-- Any sequence of requests that neither release nor signal `h`, made while `h` is
ACTIVE: `h` stays ACTIVE and its callback list grows by the registrations made on
`h`, in the order they were made. -/
theorem synx_run_callbacks (qmax : Nat) (h : Int) (ops : List synx_op) :
    ∀ (d : synx_device) (row : synx_table_row), d.wf →
      synx_from_handle d h = some row → row.fence = some ⟨.ACTIVE⟩ →
      ops.all (synx_op_keeps_active h) = true →
      ∃ row1, synx_from_handle (synx_run qmax d ops) h = some row1 ∧
        row1.fence = some ⟨.ACTIVE⟩ ∧
        row1.callback_list = row.callback_list ++
          (synx_registrations h ops).map (fun r => ⟨r.1, r.2.1, r.2.2, h⟩) := by
  induction ops with
  | nil =>
    intro d row _ hr hact _
    exact ⟨row, hr, hact, by simp [synx_registrations]⟩
  | cons op rest ih =>
    intro d row hwf hr hact hall
    rw [List.all_cons, Bool.and_eq_true] at hall
    obtain ⟨r1, hr1, ha1, hc1⟩ := synx_step_callbacks qmax hwf hr hact op hall.1
    obtain ⟨r2, hr2, ha2, hc2⟩ := ih _ r1 (synx_step_wf hwf op) hr1 ha1 hall.2
    refine ⟨r2, hr2, ha2, ?_⟩
    rw [hc2, hc1]
    have hsplit : synx_registrations h (op :: rest) =
        synx_registrations h [op] ++ synx_registrations h rest := by
      unfold synx_registrations
      rw [← List.filterMap_append]
      rfl
    rw [hsplit, List.map_append, List.append_assoc]

/-! ## The secure key of a live object changes only when the object is released -/

theorem kernel_info_kernel_work (row : synx_table_row) (st : Status) :
    (synx_kernel_work row st).filterMap synx_work.kernel_info =
      row.callback_list.map (fun c => { c with status := st }) := by
  unfold synx_kernel_work
  induction row.callback_list with
  | nil => rfl
  | cons c cs ih => simp [List.filterMap_cons, synx_work.kernel_info, ih]

theorem kernel_info_user_work (row : synx_table_row) (st : Status) :
    (synx_user_work row st).filterMap synx_work.kernel_info = [] := by
  unfold synx_user_work
  induction row.user_payload_list with
  | nil => rfl
  | cons c cs ih => simp [List.filterMap_cons, synx_work.kernel_info, ih]

/-- The signal of a live ACTIVE row: the row becomes SIGNALED with empty lists and
its pending registrations are appended to the work queue. -/
theorem synx_on_fence_signaled_active {d : synx_device} {h : Int} {row : synx_table_row}
    (hr : synx_from_handle d h = some row) (hact : row.fence = some ⟨.ACTIVE⟩)
    (st : Status) :
    (synx_on_fence_signaled d h st).1 = .ok () ∧
    (synx_on_fence_signaled d h st).2.synx_table = d.synx_table.set h.toNat
      { row with fence := some ⟨.SIGNALED st⟩, callback_list := [],
                 user_payload_list := [] } ∧
    (synx_on_fence_signaled d h st).2.work_queue =
      d.work_queue ++ synx_kernel_work row st ++ synx_user_work row st ∧
    (synx_on_fence_signaled d h st).2.dispatched = d.dispatched := by
  unfold synx_on_fence_signaled
  rw [hr]
  dsimp only
  rw [if_pos hact]
  exact ⟨rfl, rfl, rfl, rfl⟩

/-- C3: take any reachable state in which the object `h` is ACTIVE with an empty
callback list, and any sequence `ops` of requests that neither release nor signal
`h` (registrations on `h` interleaved with anything else); then signal `h` once
with status `st` and let the worker run through the work queue.  Every registration
on `h` succeeded; after the work that was already queued, the worker has invoked
exactly the callbacks registered on `h`, each once, in registration order, each
with the id `h`, its registered context and the status `st`; the work queue and the
callback list of `h` are empty; and a further signal of `h` changes nothing. -/
theorem synx_signal_dispatches_fifo (qmax ntypes : Nat) (d : synx_device) (h : Int)
    (row : synx_table_row) (ops : List synx_op) (st st2 : Status)
    (hreach : synx_reachable qmax ntypes d)
    (hr : synx_from_handle d h = some row) (hact : row.fence = some ⟨.ACTIVE⟩)
    (hempty : row.callback_list = [])
    (hops : ops.all (synx_op_keeps_active h) = true) :
    let d1 := synx_run qmax d ops
    let d2 := (synx_on_fence_signaled d1 h st).2
    let d3 := synx_worker qmax d2.work_queue.length d2
    (∀ k f c s, ops[k]? = some (.enqueue_kernel_callback h f c s) →
      (synx_enqueue_kernel_callback (synx_run qmax d (ops.take k)) h f c s).1 = .ok ()) ∧
    (synx_on_fence_signaled d1 h st).1 = .ok () ∧
    d3.dispatched = d1.dispatched ++ d1.work_queue.filterMap synx_work.kernel_info ++
      (synx_registrations h ops).map (fun r => ⟨r.1, r.2.1, st, h⟩) ∧
    d3.work_queue = [] ∧
    (∃ row3, synx_from_handle d3 h = some row3 ∧ row3.callback_list = [] ∧
      row3.fence = some ⟨.SIGNALED st⟩) ∧
    synx_on_fence_signaled d2 h st2 = (.ok (), d2) := by
  intro d1 d2 d3
  have hwf := synx_reachable_wf hreach
  obtain ⟨row1, r1, a1, c1⟩ := synx_run_callbacks qmax h ops d row hwf hr hact hops
  obtain ⟨s1, s2, s3, s4⟩ := synx_on_fence_signaled_active r1 a1 st
  obtain ⟨w1, w2, w3⟩ := synx_worker_drain qmax d2.work_queue d2 rfl
  have hrow2 : synx_from_handle d2 h = some
      { row1 with fence := some ⟨.SIGNALED st⟩, callback_list := [],
                  user_payload_list := [] } :=
    synx_from_handle_set r1 s2 rfl
  refine ⟨?_, s1, ?_, w2, ?_, ?_⟩
  · intro k f c s hk
    have hall : (ops.take k).all (synx_op_keeps_active h) = true := by
      rw [List.all_eq_true] at hops ⊢
      intro x hx
      exact hops x (List.mem_of_mem_take hx)
    obtain ⟨rk, hrk, hak, _⟩ :=
      synx_run_callbacks qmax h (ops.take k) d row hwf hr hact hall
    rw [synx_enqueue_active hrk hak]
  · show d3.dispatched = _
    rw [w1, s3, s4]
    simp only [List.filterMap_append, kernel_info_kernel_work, kernel_info_user_work,
      List.append_nil, c1, hempty, List.nil_append, List.map_map, List.append_assoc]
    rfl
  · have hrow3 : synx_from_handle d3 h = synx_from_handle d2 h := by
      unfold synx_from_handle
      rw [w3]
    rw [hrow3, hrow2]
    exact ⟨_, rfl, rfl, rfl⟩
  · unfold synx_on_fence_signaled
    rw [hrow2]
    rfl

/-- C3, at a concrete input: on object 0 of the sample device three callbacks are
registered, interleaved with a bind, a new session, the creation of object 1 and a
registration on object 1; one signal of object 0 with status `Error` follows.  The
worker invokes the three callbacks of object 0, in registration order, with id 0,
their contexts and `Error`. -/
theorem synx_signal_dispatches_fifo_witness :
    synx_reachable 4 2 sample_device ∧
    synx_from_handle sample_device 0 =
      some (sample_device.synx_table.getD 0 synx_table_row.empty) ∧
    (sample_device.synx_table.getD 0 synx_table_row.empty).fence = some ⟨.ACTIVE⟩ ∧
    (sample_device.synx_table.getD 0 synx_table_row.empty).callback_list = [] ∧
    (synx_worker 4 3 (synx_on_fence_signaled (synx_run 4 sample_device sample_requests)
        0 .Error).2).dispatched =
      [⟨7, 100, .Error, 0⟩, ⟨8, 200, .Error, 0⟩, ⟨7, 300, .Error, 0⟩] :=
  ⟨⟨_, rfl⟩, rfl, rfl, rfl,
   (synx_signal_dispatches_fifo 4 2 sample_device 0 _ sample_requests .Error .Success
      ⟨_, rfl⟩ rfl rfl rfl rfl).2.2.1⟩

/-! ## A released id stays invalid until `create` hands it out again -/

theorem synx_from_handle_set_index {d d1 : synx_device} {h : Int} {i : Nat}
    {r : synx_table_row} (hi : i ≠ h.toNat) (ht : d1.synx_table = d.synx_table.set i r) :
    synx_from_handle d1 h = synx_from_handle d h :=
  synx_from_handle_congr (by rw [ht, List.getElem?_set_ne hi])

theorem synx_free_of_table {d d1 : synx_device} {h : Int}
    (hn : synx_from_handle d h = none) (ht : d1.synx_table = d.synx_table) :
    synx_from_handle d1 h = none := by
  rw [@synx_from_handle_congr d d1 h (by rw [ht]), hn]

/-- A request that resolved the handle `h1` and overwrote its slot leaves the
unresolved handle `h` unresolved. -/
theorem synx_free_of_set {d d1 : synx_device} {h h1 : Int} {r1 r : synx_table_row}
    (hn : synx_from_handle d h = none) (hr1 : synx_from_handle d h1 = some r1)
    (ht : d1.synx_table = d.synx_table.set h1.toNat r) :
    synx_from_handle d1 h = none := by
  by_cases hb : 0 ≤ h ∧ h < SYNX_MAX_OBJS
  · obtain ⟨a0, _, _, _⟩ := synx_from_handle_some hr1
    have hne : h1 ≠ h := by
      rintro rfl
      rw [hn] at hr1
      cases hr1
    have hi : h1.toNat ≠ h.toNat := by omega
    rw [synx_from_handle_set_index hi ht, hn]
  · unfold synx_from_handle
    rw [if_neg hb]

theorem synx_create_free {d : synx_device} {h : Int} (name : List Nat) (fence : dma_fence)
    (key : Nat) (hn : synx_from_handle d h = none)
    (hop : synx_op_returns_id d h (.create name fence key) = false) :
    synx_from_handle (synx_create d name fence key).2 h = none := by
  unfold synx_op_returns_id at hop
  unfold synx_create at hop ⊢
  dsimp only at hop ⊢
  split
  · rename_i hlt
    rw [if_pos hlt] at hop
    have hne : (find_first_zero_bit d.bitmap : Int) ≠ h := by simpa using hop
    by_cases hb : 0 ≤ h ∧ h < SYNX_MAX_OBJS
    · have hi : find_first_zero_bit d.bitmap ≠ h.toNat := by omega
      rw [synx_from_handle_set_index hi rfl, hn]
    · unfold synx_from_handle
      rw [if_neg hb]
  · exact hn

theorem synx_release_free {d : synx_device} {h : Int} (h1 : Int)
    (hn : synx_from_handle d h = none) :
    synx_from_handle (synx_release d h1).2 h = none := by
  unfold synx_release
  split
  · exact hn
  · rename_i r1 hr1
    exact synx_free_of_set hn hr1 rfl

theorem synx_bind_free {d : synx_device} {h : Int} (h1 : Int) (t : Nat) (e : Int)
    (hn : synx_from_handle d h = none) :
    synx_from_handle (synx_bind d h1 t e).2 h = none := by
  unfold synx_bind
  split
  · exact hn
  · rename_i r1 hr1
    split
    · exact hn
    · dsimp only
      split
      · exact hn
      · split
        · exact hn
        · split
          · exact hn
          · exact synx_free_of_set hn hr1 rfl

theorem synx_enqueue_free {d : synx_device} {h : Int} (h1 : Int) (f c : Nat) (s : Status)
    (hn : synx_from_handle d h = none) :
    synx_from_handle (synx_enqueue_kernel_callback d h1 f c s).2 h = none := by
  unfold synx_enqueue_kernel_callback
  split
  · exact hn
  · rename_i r1 hr1
    dsimp only
    split
    · exact synx_free_of_table hn rfl
    · exact synx_free_of_set hn hr1 rfl

theorem synx_register_user_payload_free {d : synx_device} {h : Int} (s : Nat) (h1 : Int)
    (p : List Nat) (hn : synx_from_handle d h = none) :
    synx_from_handle (synx_register_user_payload d s h1 p).2 h = none := by
  unfold synx_register_user_payload
  split
  · exact hn
  · rename_i r1 hr1
    dsimp only
    split
    · exact synx_free_of_table hn rfl
    · exact synx_free_of_set hn hr1 rfl

theorem synx_on_fence_signaled_free {d : synx_device} {h : Int} (h1 : Int) (s : Status)
    (hn : synx_from_handle d h = none) :
    synx_from_handle (synx_on_fence_signaled d h1 s).2 h = none := by
  unfold synx_on_fence_signaled
  split
  · exact hn
  · rename_i r1 hr1
    split
    · exact synx_free_of_set hn hr1 rfl
    · exact hn

theorem synx_signal_external_free {d : synx_device} {h : Int} (t : Nat) (e : Int)
    (s : Status) (data : synx_external_data) (hn : synx_from_handle d h = none) :
    synx_from_handle (synx_signal_external d t e s data).2 h = none := by
  unfold synx_signal_external
  split
  · rename_i hb
    split
    · exact hn
    · rename_i r1 hg1
      split
      · exact hn
      · split
        · exact hn
        · rename_i hfs
          have hf : r1.fence.isSome = true := by
            cases hfe : r1.fence.isSome
            · exact absurd hfe hfs
            · rfl
          have hr1 : synx_from_handle d data.synx_obj = some r1 := by
            rw [synx_from_handle_of_get hb.1 hb.2 hg1, if_pos hf]
          apply synx_on_fence_signaled_free
          exact synx_free_of_set hn hr1 rfl
  · exact hn

/-- One request that is not a `create` returning `h` leaves the unresolved handle
`h` unresolved. -/
theorem synx_step_free {qmax : Nat} {d : synx_device} {h : Int} (op : synx_op)
    (hn : synx_from_handle d h = none) (hop : synx_op_returns_id d h op = false) :
    synx_from_handle (synx_step qmax d op) h = none := by
  cases op with
  | register_type tag ops =>
    simp only [synx_step, synx_register_type]
    split
    · exact synx_free_of_table hn rfl
    · exact hn
  | create_session pid => exact synx_free_of_table hn rfl
  | create name fence key => exact synx_create_free name fence key hn hop
  | release h1 => exact synx_release_free h1 hn
  | bind h1 t e => exact synx_bind_free h1 t e hn
  | enqueue_kernel_callback h1 f c s => exact synx_enqueue_free h1 f c s hn
  | register_user_payload s h1 p => exact synx_register_user_payload_free s h1 p hn
  | on_fence_signaled h1 s => exact synx_on_fence_signaled_free h1 s hn
  | signal_external t e s data => exact synx_signal_external_free t e s data hn
  | dispatch_one => exact synx_free_of_table hn (synx_dispatch_one_table qmax d)
  | poll s =>
    simp only [synx_step, synx_poll]
    split
    · exact hn
    · exact synx_free_of_table hn rfl

/-- Any sequence of requests during which `h` is not handed out leaves the
unresolved handle `h` unresolved. -/
theorem synx_run_free (qmax : Nat) (h : Int) (ops : List synx_op) :
    ∀ d : synx_device, synx_from_handle d h = none →
      synx_id_not_reused qmax h d ops = true →
      synx_from_handle (synx_run qmax d ops) h = none := by
  induction ops with
  | nil =>
    intro d hn _
    exact hn
  | cons op ops ih =>
    intro d hn hno
    unfold synx_id_not_reused at hno
    rw [Bool.and_eq_true] at hno
    have hop : synx_op_returns_id d h op = false := by
      cases hv : synx_op_returns_id d h op
      · rfl
      · rw [hv] at hno
        exact absurd hno.1 (by decide)
    exact ih (synx_step qmax d op) (synx_step_free op hn hop) hno.2

/-- C2 fails on the model once the id is reused.  Object 0 of the sample device is
released; the next `create` hands the id 0 out again; on the handle 0 `get` then
returns the new row, `bind` and a callback registration succeed, and a second
`release(0)` succeeds and frees the slot of the new object. -/
theorem synx_release_then_reuse_resolves :
    synx_release sample_device 0 = (.ok (), sample_device_released) ∧
    synx_create sample_device_released [] ⟨.ACTIVE⟩ 0x0BADF00D =
      (.ok 0, sample_device_recreated) ∧
    synx_get sample_device_recreated 0 = .ok (synx_new_row 0 [] ⟨.ACTIVE⟩ 0x0BADF00D) ∧
    (synx_bind sample_device_recreated 0 1 10).1 = .ok ⟨⟨1, 10⟩, ⟨0, 0x0BADF00D⟩⟩ ∧
    (synx_enqueue_kernel_callback sample_device_recreated 0 7 100 .Success).1 = .ok () ∧
    (synx_release sample_device_recreated 0).1 = .ok () ∧
    (synx_release sample_device_recreated 0).2.synx_table ≠
      sample_device_recreated.synx_table := by
  refine ⟨rfl, rfl, rfl, rfl, rfl, rfl, by decide⟩

/-- C2, amended: after `release(h)` has succeeded, and after any further requests
during which no `create` hands the id `h` out again, `get`, `bind`, kernel-callback
registration and user-payload registration on `h` (with any other arguments) each
return `InvalidHandle`, and so does a second `release(h)`; none of them changes the
device, so the table is not freed twice. -/
theorem synx_release_then_invalid_handle (qmax : Nat) (d d1 : synx_device) (h : Int)
    (ops : List synx_op)
    (hrel : synx_release d h = (.ok (), d1))
    (hno : synx_id_not_reused qmax h d1 ops = true) :
    synx_get (synx_run qmax d1 ops) h = .error .InvalidHandle ∧
    (∀ t e, synx_bind (synx_run qmax d1 ops) h t e =
      (.error .InvalidHandle, synx_run qmax d1 ops)) ∧
    (∀ f c s, synx_enqueue_kernel_callback (synx_run qmax d1 ops) h f c s =
      (.error .InvalidHandle, synx_run qmax d1 ops)) ∧
    (∀ s p, synx_register_user_payload (synx_run qmax d1 ops) s h p =
      (.error .InvalidHandle, synx_run qmax d1 ops)) ∧
    synx_release (synx_run qmax d1 ops) h =
      (.error .InvalidHandle, synx_run qmax d1 ops) := by
  have hn := synx_run_free qmax h ops d1 (synx_from_handle_released hrel) hno
  refine ⟨?_, ?_, ?_, ?_, ?_⟩
  · simp [synx_get, hn]
  · intro t e
    simp [synx_bind, hn]
  · intro f c s
    simp [synx_enqueue_kernel_callback, hn]
  · intro s p
    simp [synx_register_user_payload, hn]
  · simp [synx_release, hn]

/-- C2 amended, at a concrete input: object 0 of the sample device is released; a
session is opened and requests are made on the stale handle 0, none of which hands
the id out again; `get`, `bind` and a second `release` on 0 then return
`InvalidHandle`. -/
theorem synx_release_then_invalid_handle_witness :
    synx_release sample_device 0 = (.ok (), sample_device_released) ∧
    synx_id_not_reused 4 0 sample_device_released sample_requests_stale = true ∧
    synx_get (synx_run 4 sample_device_released sample_requests_stale) 0 =
      .error .InvalidHandle ∧
    synx_bind (synx_run 4 sample_device_released sample_requests_stale) 0 1 10 =
      (.error .InvalidHandle, synx_run 4 sample_device_released sample_requests_stale) ∧
    synx_release (synx_run 4 sample_device_released sample_requests_stale) 0 =
      (.error .InvalidHandle, synx_run 4 sample_device_released sample_requests_stale) :=
  ⟨rfl, by decide,
   (synx_release_then_invalid_handle 4 sample_device sample_device_released 0
      sample_requests_stale rfl (by decide)).1,
   (synx_release_then_invalid_handle 4 sample_device sample_device_released 0
      sample_requests_stale rfl (by decide)).2.1 1 10,
   (synx_release_then_invalid_handle 4 sample_device sample_device_released 0
      sample_requests_stale rfl (by decide)).2.2.2.2⟩

end Synx

namespace Camif

/-! # Part II: the CAMIF driver -/

theorem validate_pix_pattern_eq (K : cam_defs) (pattern : Nat) :
    cam_vfe_camif_ver3_validate_pix_pattern K pattern =
      if supported_pix_pattern K pattern then 0 else -K.EINVAL := by
  unfold cam_vfe_camif_ver3_validate_pix_pattern supported_pix_pattern
  rfl

/-- C10: `cam_vfe_camif_ver3_acquire_resource` returns `-EINVAL` exactly when the
input port's `test_pattern` is not one of the eight supported pixel patterns, and
then the resource node (hence every member of the CAMIF data) is unchanged;
otherwise it returns 0, stores the seven acquire arguments and leaves
`enable_sof_irq_debug`, `irq_debug_cnt`, `camif_debug` and every other member
unchanged. -/
theorem acquire_resource_spec (K : cam_defs) (camif_res : cam_isp_resource_node)
    (acq : cam_vfe_acquire_args) (hE : K.EINVAL ≠ 0) :
    ((cam_vfe_camif_ver3_acquire_resource K camif_res acq).1 = -K.EINVAL ↔
        ¬ supported_pix_pattern K acq.vfe_in.in_port.test_pattern) ∧
    (¬ supported_pix_pattern K acq.vfe_in.in_port.test_pattern →
        (cam_vfe_camif_ver3_acquire_resource K camif_res acq).2 = camif_res) ∧
    (supported_pix_pattern K acq.vfe_in.in_port.test_pattern →
        cam_vfe_camif_ver3_acquire_resource K camif_res acq =
          (0, { camif_res with res_priv :=
                 { camif_res.res_priv with
                   sync_mode := acq.vfe_in.sync_mode,
                   pix_pattern := acq.vfe_in.in_port.test_pattern,
                   dsp_mode := acq.vfe_in.in_port.dsp_mode,
                   first_pixel := acq.vfe_in.in_port.left_start,
                   last_pixel := acq.vfe_in.in_port.left_stop,
                   first_line := acq.vfe_in.in_port.line_start,
                   last_line := acq.vfe_in.in_port.line_stop } })) := by
  have hneg : -K.EINVAL ≠ 0 := by omega
  by_cases hs : supported_pix_pattern K acq.vfe_in.in_port.test_pattern
  · have hv : cam_vfe_camif_ver3_validate_pix_pattern K
        acq.vfe_in.in_port.test_pattern = 0 := by
      rw [validate_pix_pattern_eq, if_pos hs]
    have hrun : cam_vfe_camif_ver3_acquire_resource K camif_res acq =
          (0, { camif_res with res_priv :=
                 { camif_res.res_priv with
                   sync_mode := acq.vfe_in.sync_mode,
                   pix_pattern := acq.vfe_in.in_port.test_pattern,
                   dsp_mode := acq.vfe_in.in_port.dsp_mode,
                   first_pixel := acq.vfe_in.in_port.left_start,
                   last_pixel := acq.vfe_in.in_port.left_stop,
                   first_line := acq.vfe_in.in_port.line_start,
                   last_line := acq.vfe_in.in_port.line_stop } }) := by
      simp [cam_vfe_camif_ver3_acquire_resource, hv]
    refine ⟨?_, fun hn => absurd hs hn, fun _ => hrun⟩
    rw [hrun]
    constructor
    · intro h0
      exact absurd h0.symm hneg
    · intro hn
      exact absurd hs hn
  · have hv : cam_vfe_camif_ver3_validate_pix_pattern K
        acq.vfe_in.in_port.test_pattern = -K.EINVAL := by
      rw [validate_pix_pattern_eq, if_neg hs]
    have hrun : cam_vfe_camif_ver3_acquire_resource K camif_res acq =
        (-K.EINVAL, camif_res) := by
      simp [cam_vfe_camif_ver3_acquire_resource, hv, hE]
    refine ⟨?_, fun _ => by rw [hrun], fun h => absurd h hs⟩
    rw [hrun]
    exact ⟨fun _ => hs, fun _ => rfl⟩

/-- C10, at a concrete input: with `EINVAL = 22` and the `BAYER_GRGRGR` 4000x3000
acquire request the call returns 0 and stores the seven arguments. -/
theorem acquire_resource_spec_witness :
    cam_defs.sample.EINVAL ≠ 0 ∧
    supported_pix_pattern cam_defs.sample sample_acquire.vfe_in.in_port.test_pattern ∧
    cam_vfe_camif_ver3_acquire_resource cam_defs.sample sample_node sample_acquire =
      (0, { sample_node with res_priv :=
             { sample_priv with
               sync_mode := 0, pix_pattern := 1, dsp_mode := 0, first_pixel := 0,
               last_pixel := 3999, first_line := 0, last_line := 2999 } }) :=
  ⟨by decide, by decide,
   (acquire_resource_spec cam_defs.sample sample_node sample_acquire (by decide)).2.2
     (by decide)⟩

/-- C9: `cam_vfe_camif_ver3_resource_start` returns 0 exactly when the node is
non-null, `res_state` is RESERVED, `soc_private` is non-null and `cpas_version` is
`CAM_CPAS_TITAN_480_V100`.  On success `res_state` becomes STREAMING,
`enable_sof_irq_debug` is false and `irq_debug_cnt` is 0.  On every failure the
node is returned unchanged (so `res_state`, `enable_sof_irq_debug` and
`irq_debug_cnt` are), with `-EINVAL` for a null node, a wrong state or an
unsupported version and `-ENODEV` for a null `soc_private`. -/
theorem resource_start_spec (K : cam_defs) (rd : Nat → Nat)
    (camif_res : Option cam_isp_resource_node)
    (hE : K.EINVAL ≠ 0) (hN : K.ENODEV ≠ 0) :
    ((cam_vfe_camif_ver3_resource_start K rd camif_res).1 = 0 ↔
        ∃ node sp, camif_res = some node ∧
          node.res_state = K.CAM_ISP_RESOURCE_STATE_RESERVED ∧
          node.res_priv.soc_info.soc_private = some sp ∧
          sp.cpas_version = K.CAM_CPAS_TITAN_480_V100) ∧
    ((cam_vfe_camif_ver3_resource_start K rd camif_res).1 = 0 →
        ∃ node1, (cam_vfe_camif_ver3_resource_start K rd camif_res).2.1 = some node1 ∧
          node1.res_state = K.CAM_ISP_RESOURCE_STATE_STREAMING ∧
          node1.res_priv.enable_sof_irq_debug = false ∧
          node1.res_priv.irq_debug_cnt = 0) ∧
    ((cam_vfe_camif_ver3_resource_start K rd camif_res).1 ≠ 0 →
        (cam_vfe_camif_ver3_resource_start K rd camif_res).2.1 = camif_res) ∧
    (camif_res = none →
        (cam_vfe_camif_ver3_resource_start K rd camif_res).1 = -K.EINVAL) ∧
    (∀ node, camif_res = some node →
        node.res_state ≠ K.CAM_ISP_RESOURCE_STATE_RESERVED →
        (cam_vfe_camif_ver3_resource_start K rd camif_res).1 = -K.EINVAL) ∧
    (∀ node, camif_res = some node →
        node.res_state = K.CAM_ISP_RESOURCE_STATE_RESERVED →
        node.res_priv.soc_info.soc_private = none →
        (cam_vfe_camif_ver3_resource_start K rd camif_res).1 = -K.ENODEV) ∧
    (∀ node sp, camif_res = some node →
        node.res_state = K.CAM_ISP_RESOURCE_STATE_RESERVED →
        node.res_priv.soc_info.soc_private = some sp →
        sp.cpas_version ≠ K.CAM_CPAS_TITAN_480_V100 →
        (cam_vfe_camif_ver3_resource_start K rd camif_res).1 = -K.EINVAL) := by
  have hnE : -K.EINVAL ≠ 0 := by omega
  have hnN : -K.ENODEV ≠ 0 := by omega
  cases camif_res with
  | none =>
    simp [cam_vfe_camif_ver3_resource_start, hE]
  | some node =>
    by_cases hst : node.res_state = K.CAM_ISP_RESOURCE_STATE_RESERVED
    · cases hsp : node.res_priv.soc_info.soc_private with
      | none =>
        simp [cam_vfe_camif_ver3_resource_start, hst, hsp, hN]
        intro n sp hn _ hp _
        subst hn
        rw [hsp] at hp
        cases hp
      | some sp =>
        by_cases hv : sp.cpas_version = K.CAM_CPAS_TITAN_480_V100
        · simp [cam_vfe_camif_ver3_resource_start, hst, hsp, hv]
          intro n sp1 hn _ hp hv1
          subst hn
          rw [hsp] at hp
          cases hp
          exact absurd hv hv1
        · simp [cam_vfe_camif_ver3_resource_start, hst, hsp, hv, hE]
    · simp [cam_vfe_camif_ver3_resource_start, hst, hE]

/-- C9, at a concrete input: the sample node (RESERVED, TITAN 480 v100) starts
with return code 0 and ends STREAMING with SOF debug disabled. -/
theorem resource_start_spec_witness :
    cam_defs.sample.EINVAL ≠ 0 ∧ cam_defs.sample.ENODEV ≠ 0 ∧
    (cam_vfe_camif_ver3_resource_start cam_defs.sample (fun _ => 0) (some sample_node)).1 = 0 ∧
    ∃ node1,
      (cam_vfe_camif_ver3_resource_start cam_defs.sample (fun _ => 0)
        (some sample_node)).2.1 = some node1 ∧
      node1.res_state = cam_defs.sample.CAM_ISP_RESOURCE_STATE_STREAMING ∧
      node1.res_priv.enable_sof_irq_debug = false ∧
      node1.res_priv.irq_debug_cnt = 0 :=
  ⟨by decide, by decide, by decide,
   (resource_start_spec cam_defs.sample (fun _ => 0) (some sample_node)
      (by decide) (by decide)).2.1 (by decide)⟩

/-- The return value of the bottom half for a non-null handler and payload, read
off the `switch` at source lines 574-626. -/
theorem bottom_half_ret (K : cam_defs) (node : cam_isp_resource_node)
    (payload : cam_vfe_top_irq_evt_payload) (irq_status2 : Nat) :
    (cam_vfe_camif_ver3_handle_irq_bottom_half K (some node) (some payload)
        irq_status2).1 =
      if payload.evt_id = K.CAM_ISP_HW_EVENT_SOF then
        (if payload.irq_reg_val.getD K.CAM_IFE_IRQ_CAMIF_REG_STATUS1 0 &&&
            node.res_priv.reg_data.sof_irq_mask ≠ 0
         then K.CAM_VFE_IRQ_STATUS_SUCCESS else K.CAM_VFE_IRQ_STATUS_ERR)
      else if payload.evt_id = K.CAM_ISP_HW_EVENT_EPOCH then
        (if payload.irq_reg_val.getD K.CAM_IFE_IRQ_CAMIF_REG_STATUS1 0 &&&
            node.res_priv.reg_data.epoch0_irq_mask ≠ 0
         then K.CAM_VFE_IRQ_STATUS_SUCCESS else K.CAM_VFE_IRQ_STATUS_ERR)
      else if payload.evt_id = K.CAM_ISP_HW_EVENT_EOF then
        (if payload.irq_reg_val.getD K.CAM_IFE_IRQ_CAMIF_REG_STATUS1 0 &&&
            node.res_priv.reg_data.eof_irq_mask ≠ 0
         then K.CAM_VFE_IRQ_STATUS_SUCCESS else K.CAM_VFE_IRQ_STATUS_ERR)
      else if payload.evt_id = K.CAM_ISP_HW_EVENT_ERROR then
        (if irq_status2 &&& node.res_priv.reg_data.error_irq_mask2 ≠ 0
         then K.CAM_ISP_HW_ERROR_OVERFLOW else K.CAM_ISP_HW_ERROR_NONE)
      else K.CAM_VFE_IRQ_STATUS_ERR := by
  unfold cam_vfe_camif_ver3_handle_irq_bottom_half
  dsimp only
  repeat' split
  all_goals rfl

/-- An `if` with two different branches equals the first exactly under its
condition. -/
theorem ite_eq_left_iff_of_ne {c : Prop} [Decidable c] {a b : Int} (hab : a ≠ b) :
    (if c then a else b) = a ↔ c := by
  by_cases hc : c
  · simp [hc]
  · simp [hc, Ne.symm hab]

/-- C8: for a non-null handler and payload, the bottom half returns
`CAM_VFE_IRQ_STATUS_SUCCESS` for an SOF, EPOCH or EOF event when the status-1
register of the payload has a bit in common with `sof_irq_mask`, `epoch0_irq_mask`
or `eof_irq_mask` respectively and `CAM_VFE_IRQ_STATUS_ERR` otherwise (the two
codes being different, SUCCESS is returned exactly in that case); an event id that
is none of SOF, EPOCH, EOF, ERROR returns `CAM_VFE_IRQ_STATUS_ERR`, and so does a
null handler or a null payload. -/
theorem bottom_half_status1_classification (K : cam_defs)
    (node : cam_isp_resource_node) (payload : cam_vfe_top_irq_evt_payload)
    (irq_status2 : Nat) (hd : K.event_labels_distinct)
    (hne : K.CAM_VFE_IRQ_STATUS_SUCCESS ≠ K.CAM_VFE_IRQ_STATUS_ERR) :
    (payload.evt_id = K.CAM_ISP_HW_EVENT_SOF →
      ((cam_vfe_camif_ver3_handle_irq_bottom_half K (some node) (some payload)
          irq_status2).1 =
        if payload.irq_reg_val.getD K.CAM_IFE_IRQ_CAMIF_REG_STATUS1 0 &&&
            node.res_priv.reg_data.sof_irq_mask ≠ 0
        then K.CAM_VFE_IRQ_STATUS_SUCCESS else K.CAM_VFE_IRQ_STATUS_ERR) ∧
      ((cam_vfe_camif_ver3_handle_irq_bottom_half K (some node) (some payload)
          irq_status2).1 = K.CAM_VFE_IRQ_STATUS_SUCCESS ↔
        payload.irq_reg_val.getD K.CAM_IFE_IRQ_CAMIF_REG_STATUS1 0 &&&
            node.res_priv.reg_data.sof_irq_mask ≠ 0)) ∧
    (payload.evt_id = K.CAM_ISP_HW_EVENT_EPOCH →
      ((cam_vfe_camif_ver3_handle_irq_bottom_half K (some node) (some payload)
          irq_status2).1 =
        if payload.irq_reg_val.getD K.CAM_IFE_IRQ_CAMIF_REG_STATUS1 0 &&&
            node.res_priv.reg_data.epoch0_irq_mask ≠ 0
        then K.CAM_VFE_IRQ_STATUS_SUCCESS else K.CAM_VFE_IRQ_STATUS_ERR) ∧
      ((cam_vfe_camif_ver3_handle_irq_bottom_half K (some node) (some payload)
          irq_status2).1 = K.CAM_VFE_IRQ_STATUS_SUCCESS ↔
        payload.irq_reg_val.getD K.CAM_IFE_IRQ_CAMIF_REG_STATUS1 0 &&&
            node.res_priv.reg_data.epoch0_irq_mask ≠ 0)) ∧
    (payload.evt_id = K.CAM_ISP_HW_EVENT_EOF →
      ((cam_vfe_camif_ver3_handle_irq_bottom_half K (some node) (some payload)
          irq_status2).1 =
        if payload.irq_reg_val.getD K.CAM_IFE_IRQ_CAMIF_REG_STATUS1 0 &&&
            node.res_priv.reg_data.eof_irq_mask ≠ 0
        then K.CAM_VFE_IRQ_STATUS_SUCCESS else K.CAM_VFE_IRQ_STATUS_ERR) ∧
      ((cam_vfe_camif_ver3_handle_irq_bottom_half K (some node) (some payload)
          irq_status2).1 = K.CAM_VFE_IRQ_STATUS_SUCCESS ↔
        payload.irq_reg_val.getD K.CAM_IFE_IRQ_CAMIF_REG_STATUS1 0 &&&
            node.res_priv.reg_data.eof_irq_mask ≠ 0)) ∧
    (payload.evt_id ≠ K.CAM_ISP_HW_EVENT_SOF →
      payload.evt_id ≠ K.CAM_ISP_HW_EVENT_EPOCH →
      payload.evt_id ≠ K.CAM_ISP_HW_EVENT_EOF →
      payload.evt_id ≠ K.CAM_ISP_HW_EVENT_ERROR →
      (cam_vfe_camif_ver3_handle_irq_bottom_half K (some node) (some payload)
          irq_status2).1 = K.CAM_VFE_IRQ_STATUS_ERR) ∧
    (∀ p : Option cam_vfe_top_irq_evt_payload,
      (cam_vfe_camif_ver3_handle_irq_bottom_half K none p irq_status2).1 =
        K.CAM_VFE_IRQ_STATUS_ERR) ∧
    (∀ hp : Option cam_isp_resource_node,
      (cam_vfe_camif_ver3_handle_irq_bottom_half K hp none irq_status2).1 =
        K.CAM_VFE_IRQ_STATUS_ERR) := by
  obtain ⟨h1, h2, _, h4, _, _⟩ := hd
  refine ⟨?_, ?_, ?_, ?_, ?_, ?_⟩
  · intro he
    rw [bottom_half_ret, if_pos he]
    exact ⟨rfl, ite_eq_left_iff_of_ne hne⟩
  · intro he
    have he1 : payload.evt_id ≠ K.CAM_ISP_HW_EVENT_SOF := by
      rw [he]; exact Ne.symm h1
    rw [bottom_half_ret, if_neg he1, if_pos he]
    exact ⟨rfl, ite_eq_left_iff_of_ne hne⟩
  · intro he
    have he1 : payload.evt_id ≠ K.CAM_ISP_HW_EVENT_SOF := by
      rw [he]; exact Ne.symm h2
    have he2 : payload.evt_id ≠ K.CAM_ISP_HW_EVENT_EPOCH := by
      rw [he]; exact Ne.symm h4
    rw [bottom_half_ret, if_neg he1, if_neg he2, if_pos he]
    exact ⟨rfl, ite_eq_left_iff_of_ne hne⟩
  · intro n1 n2 n3 n4
    rw [bottom_half_ret, if_neg n1, if_neg n2, if_neg n3, if_neg n4]
  · intro p
    simp [cam_vfe_camif_ver3_handle_irq_bottom_half]
  · intro hp
    cases hp <;> simp [cam_vfe_camif_ver3_handle_irq_bottom_half]

/-- C8, at a concrete input: an SOF event whose status-1 register has the SOF bit
set is classified as `CAM_VFE_IRQ_STATUS_SUCCESS`. -/
theorem bottom_half_status1_classification_witness :
    cam_defs.sample.event_labels_distinct ∧
    cam_defs.sample.CAM_VFE_IRQ_STATUS_SUCCESS ≠ cam_defs.sample.CAM_VFE_IRQ_STATUS_ERR ∧
    (cam_vfe_camif_ver3_handle_irq_bottom_half cam_defs.sample (some sample_node)
        (some ⟨1, [0, 1, 0]⟩) 0).1 = cam_defs.sample.CAM_VFE_IRQ_STATUS_SUCCESS :=
  ⟨by decide, by decide,
   ((bottom_half_status1_classification cam_defs.sample sample_node ⟨1, [0, 1, 0]⟩ 0
      (by decide) (by decide)).1 rfl).2.2 (by decide)⟩

/-- For an ERROR event the return value is decided by the unassigned local
`irq_status2` alone: no member of the payload other than `evt_id` is read. -/
theorem bottom_half_error_ret (K : cam_defs) (node : cam_isp_resource_node)
    (payload : cam_vfe_top_irq_evt_payload) (irq_status2 : Nat)
    (hd : K.event_labels_distinct) (he : payload.evt_id = K.CAM_ISP_HW_EVENT_ERROR) :
    (cam_vfe_camif_ver3_handle_irq_bottom_half K (some node) (some payload)
        irq_status2).1 =
      if irq_status2 &&& node.res_priv.reg_data.error_irq_mask2 ≠ 0
      then K.CAM_ISP_HW_ERROR_OVERFLOW else K.CAM_ISP_HW_ERROR_NONE := by
  obtain ⟨_, _, h3, _, h5, h6⟩ := hd
  have n1 : payload.evt_id ≠ K.CAM_ISP_HW_EVENT_SOF := by rw [he]; exact Ne.symm h3
  have n2 : payload.evt_id ≠ K.CAM_ISP_HW_EVENT_EPOCH := by rw [he]; exact Ne.symm h5
  have n3 : payload.evt_id ≠ K.CAM_ISP_HW_EVENT_EOF := by rw [he]; exact Ne.symm h6
  rw [bottom_half_ret, if_neg n1, if_neg n2, if_neg n3, if_pos he]

/-- C7 fails on the code.  For an ERROR event (id 0 in the sample constants) with
`error_irq_mask2 = 0xEFFF7E80`:
* the payload's status-2 register is `0x80`, which has a bit in common with the
  mask, and the call returns `CAM_ISP_HW_ERROR_NONE` when the unassigned local holds
  0;
* the payload's status-2 register is 0 and the call returns
  `CAM_ISP_HW_ERROR_OVERFLOW` when the unassigned local holds `0x80`;
* two calls with the same payload and the same masks return different values. -/
theorem bottom_half_error_event_does_not_read_status2 :
    (0x80 &&& sample_node.res_priv.reg_data.error_irq_mask2 ≠ 0) ∧
    (cam_vfe_camif_ver3_handle_irq_bottom_half cam_defs.sample (some sample_node)
        (some ⟨cam_defs.sample.CAM_ISP_HW_EVENT_ERROR, [0, 0, 0x80]⟩) 0).1 =
      cam_defs.sample.CAM_ISP_HW_ERROR_NONE ∧
    (cam_vfe_camif_ver3_handle_irq_bottom_half cam_defs.sample (some sample_node)
        (some ⟨cam_defs.sample.CAM_ISP_HW_EVENT_ERROR, [0, 0, 0]⟩) 0x80).1 =
      cam_defs.sample.CAM_ISP_HW_ERROR_OVERFLOW ∧
    (cam_vfe_camif_ver3_handle_irq_bottom_half cam_defs.sample (some sample_node)
        (some ⟨cam_defs.sample.CAM_ISP_HW_EVENT_ERROR, [0, 0, 0x80]⟩) 0).1 ≠
    (cam_vfe_camif_ver3_handle_irq_bottom_half cam_defs.sample (some sample_node)
        (some ⟨cam_defs.sample.CAM_ISP_HW_EVENT_ERROR, [0, 0, 0x80]⟩) 0x80).1 := by
  refine ⟨by decide, by decide, by decide, by decide⟩

/-! ## The command path -/

/-- Every return of `get_reg_update` other than 0 leaves the arguments as they were
and writes nothing to the command buffer. -/
theorem get_reg_update_failure_frame (K : cam_defs) (C : cam_cmd_defs)
    (camif_res : cam_isp_resource_node) (cmd_args : Option cam_isp_hw_get_cmd_update)
    (arg_size : Nat)
    (hne : (cam_vfe_camif_ver3_get_reg_update K C camif_res cmd_args arg_size).1 ≠ 0) :
    (cam_vfe_camif_ver3_get_reg_update K C camif_res cmd_args arg_size).2.1 = cmd_args ∧
    (cam_vfe_camif_ver3_get_reg_update K C camif_res cmd_args arg_size).2.2 = [] := by
  unfold cam_vfe_camif_ver3_get_reg_update at hne ⊢
  split
  · exact ⟨rfl, rfl⟩
  · rename_i hsz
    rw [if_neg hsz] at hne
    split
    · exact ⟨rfl, rfl⟩
    · split
      · exact ⟨rfl, rfl⟩
      · split
        · exact ⟨rfl, rfl⟩
        · dsimp only
          split
          · exact ⟨rfl, rfl⟩
          · rename_i cdm_args _ res hres _ ops hops hle
            exfalso
            apply hne
            simp only [hres, hops]
            rw [if_neg hle]

/-- C11 fails on the code.  The CDM reports `0x40000000` dwords for one register
pair, that is `2 ^ 32` bytes, and the command buffer has 8 bytes.  The product
`size * 4` wraps to 0 in `uint32_t`, so the request is not rejected: the call
returns 0, writes the register pair and sets `used_bytes` to 0, which is not the
byte count required. -/
theorem get_reg_update_accepts_short_buffer :
    wrapping_cmd_update.cmd.size < 4 * 0x40000000 ∧
    (cam_vfe_camif_ver3_get_reg_update cam_defs.sample cam_cmd_defs.sample sample_node
        (some wrapping_cmd_update) 32).1 = 0 ∧
    (cam_vfe_camif_ver3_get_reg_update cam_defs.sample cam_cmd_defs.sample sample_node
        (some wrapping_cmd_update) 32).1 ≠ -cam_defs.sample.EINVAL ∧
    (cam_vfe_camif_ver3_get_reg_update cam_defs.sample cam_cmd_defs.sample sample_node
        (some wrapping_cmd_update) 32).2.2 =
      [hw_call.cdm_write_regrandom 0x1000 1 [0x34, 1]] ∧
    (cam_vfe_camif_ver3_get_reg_update cam_defs.sample cam_cmd_defs.sample sample_node
        (some wrapping_cmd_update) 32).2.1.map (fun u => u.cmd.used_bytes) = some 0 := by
  refine ⟨by decide, by decide, by decide, by decide, by decide⟩

/-- C11, amended: when the dword count `size` returned by
`cdm_required_size_reg_random(1)` is below `2 ^ 30`, so that `4 * size` fits in 32
bits, `get_reg_update` returns `-EINVAL`, leaves the arguments (hence
`cmd.used_bytes`) unchanged and writes nothing for every request whose `cmd.size` is
smaller than `4 * size`; and when it returns 0 it has written exactly the pair
(`camif_reg->reg_update_cmd`, `reg_data->reg_update_cmd_data`), `cmd.used_bytes`
equals `4 * size`, which does not exceed `cmd.size`, and nothing else in the
arguments has changed. -/
theorem get_reg_update_spec (K : cam_defs) (C : cam_cmd_defs)
    (camif_res : cam_isp_resource_node) (cdm_args : cam_isp_hw_get_cmd_update)
    (res : cam_isp_cdm_res) (ops : cam_cdm_utils_ops) (arg_size : Nat)
    (hE : K.EINVAL ≠ 0)
    (hres : cdm_args.res = some res) (hops : res.cdm_ops = some ops)
    (hsmall : u32 (ops.cdm_required_size_reg_random 1) < 2 ^ 30) :
    (cdm_args.cmd.size < 4 * u32 (ops.cdm_required_size_reg_random 1) →
      cam_vfe_camif_ver3_get_reg_update K C camif_res (some cdm_args) arg_size =
        (-K.EINVAL, some cdm_args, [])) ∧
    ((cam_vfe_camif_ver3_get_reg_update K C camif_res (some cdm_args) arg_size).1 = 0 →
      (cam_vfe_camif_ver3_get_reg_update K C camif_res (some cdm_args) arg_size).2.2 =
        [hw_call.cdm_write_regrandom cdm_args.cmd.cmd_buf_addr 1
          [camif_res.res_priv.camif_reg.reg_update_cmd,
           camif_res.res_priv.reg_data.reg_update_cmd_data]] ∧
      4 * u32 (ops.cdm_required_size_reg_random 1) ≤ cdm_args.cmd.size ∧
      ∃ u, (cam_vfe_camif_ver3_get_reg_update K C camif_res (some cdm_args)
              arg_size).2.1 = some u ∧
        u.cmd.used_bytes = 4 * u32 (ops.cdm_required_size_reg_random 1) ∧
        u.cmd.size = cdm_args.cmd.size ∧ u.cmd.cmd_buf_addr = cdm_args.cmd.cmd_buf_addr ∧
        u.res = cdm_args.res) := by
  have hnE : -K.EINVAL ≠ 0 := by omega
  have hmul : u32 (u32 (ops.cdm_required_size_reg_random 1) * 4) =
      4 * u32 (ops.cdm_required_size_reg_random 1) := by
    have h32 : (2 : Nat) ^ 32 = 4294967296 := by norm_num
    have h30 : (2 : Nat) ^ 30 = 1073741824 := by norm_num
    rw [h30] at hsmall
    show (u32 (ops.cdm_required_size_reg_random 1) * 4) % 2 ^ 32 = _
    rw [h32]
    omega
  by_cases hsz : arg_size = C.sizeof_cam_isp_hw_get_cmd_update
  · by_cases hle : cdm_args.cmd.size < 4 * u32 (ops.cdm_required_size_reg_random 1)
    · have hrun : cam_vfe_camif_ver3_get_reg_update K C camif_res (some cdm_args) arg_size =
          (-K.EINVAL, some cdm_args, []) := by
        unfold cam_vfe_camif_ver3_get_reg_update
        rw [if_neg (by simpa using hsz)]
        simp only [hres, hops]
        rw [hmul, if_pos hle]
      refine ⟨fun _ => hrun, ?_⟩
      rw [hrun]
      intro h0
      exact absurd h0 hnE
    · refine ⟨fun h => absurd h hle, ?_⟩
      intro _
      have hrun : cam_vfe_camif_ver3_get_reg_update K C camif_res (some cdm_args) arg_size =
          (0, some { cdm_args with cmd := { cdm_args.cmd with
                       used_bytes := 4 * u32 (ops.cdm_required_size_reg_random 1) } },
           [hw_call.cdm_write_regrandom cdm_args.cmd.cmd_buf_addr 1
             [camif_res.res_priv.camif_reg.reg_update_cmd,
              camif_res.res_priv.reg_data.reg_update_cmd_data]]) := by
        unfold cam_vfe_camif_ver3_get_reg_update
        rw [if_neg (by simpa using hsz)]
        simp only [hres, hops]
        rw [hmul, if_neg hle]
      rw [hrun]
      exact ⟨rfl, Nat.le_of_not_lt hle, _, rfl, rfl, rfl, rfl, rfl⟩
  · have hrun : cam_vfe_camif_ver3_get_reg_update K C camif_res (some cdm_args) arg_size =
        (-K.EINVAL, some cdm_args, []) := by
      unfold cam_vfe_camif_ver3_get_reg_update
      rw [if_pos hsz]
    refine ⟨fun _ => hrun, ?_⟩
    rw [hrun]
    intro h0
    exact absurd h0 hnE

/-- C11 amended, at a concrete input: a CDM that needs 3 dwords and a 64-byte
buffer; the call returns 0, writes one pair and uses 12 bytes. -/
theorem get_reg_update_spec_witness :
    cam_defs.sample.EINVAL ≠ 0 ∧
    u32 ((fun n => 1 + 2 * n) 1) < 2 ^ 30 ∧
    (cam_vfe_camif_ver3_get_reg_update cam_defs.sample cam_cmd_defs.sample sample_node
        (some sample_cmd_update) 32).1 = 0 ∧
    (cam_vfe_camif_ver3_get_reg_update cam_defs.sample cam_cmd_defs.sample sample_node
        (some sample_cmd_update) 32).2.2 =
      [hw_call.cdm_write_regrandom 0x1000 1 [0x34, 1]] ∧
    4 * u32 ((fun n => 1 + 2 * n) 1) ≤ 64 :=
  ⟨by decide, by decide, by decide,
   ((get_reg_update_spec cam_defs.sample cam_cmd_defs.sample sample_node sample_cmd_update
      ⟨some ⟨fun n => 1 + 2 * n⟩⟩ ⟨fun n => 1 + 2 * n⟩ 32 (by decide) rfl rfl
      (by decide)).2 (by decide)).1,
   ((get_reg_update_spec cam_defs.sample cam_cmd_defs.sample sample_node sample_cmd_update
      ⟨some ⟨fun n => 1 + 2 * n⟩⟩ ⟨fun n => 1 + 2 * n⟩ 32 (by decide) rfl rfl
      (by decide)).2 (by decide)).2.1⟩

/-- What `process_cmd` does for the two debug commands, for an unhandled command
type and for `NULL` arguments, as the code stands: `SOF_IRQ_DEBUG` returns 0 and
updates `enable_sof_irq_debug` only; `SET_CAMIF_DEBUG` updates `camif_debug` only and
returns the initial `-EINVAL`; a command type outside the four handled ones changes
nothing and returns `-EINVAL`; a `NULL` node or argument returns `-EINVAL`. -/
theorem process_cmd_debug_commands (K : cam_defs) (C : cam_cmd_defs)
    (node : cam_isp_resource_node) (args : cam_cmd_args) (cmd_type arg_size : Nat)
    (hd : C.cmd_labels_distinct) :
    (cmd_type = C.CAM_ISP_HW_CMD_SOF_IRQ_DEBUG →
      ∃ r, cam_vfe_camif_ver3_process_cmd K C (some node) cmd_type (some args) arg_size =
          some r ∧ r.rc = 0 ∧ r.calls = [] ∧
        r.rsrc_node = some { node with res_priv :=
          { node.res_priv with enable_sof_irq_debug := decide (args.as_u32 = 1) } }) ∧
    (cmd_type = C.CAM_ISP_HW_CMD_SET_CAMIF_DEBUG →
      ∃ r, cam_vfe_camif_ver3_process_cmd K C (some node) cmd_type (some args) arg_size =
          some r ∧ r.rc = -K.EINVAL ∧ r.calls = [] ∧
        r.rsrc_node = some { node with res_priv :=
          { node.res_priv with camif_debug := args.as_u32 } }) ∧
    (cmd_type ≠ C.CAM_ISP_HW_CMD_GET_REG_UPDATE →
      cmd_type ≠ C.CAM_ISP_HW_CMD_GET_REG_DUMP →
      cmd_type ≠ C.CAM_ISP_HW_CMD_SOF_IRQ_DEBUG →
      cmd_type ≠ C.CAM_ISP_HW_CMD_SET_CAMIF_DEBUG →
      ∃ r, cam_vfe_camif_ver3_process_cmd K C (some node) cmd_type (some args) arg_size =
          some r ∧ r.rc = -K.EINVAL ∧ r.calls = [] ∧ r.rsrc_node = some node) ∧
    (∀ a, ∃ r, cam_vfe_camif_ver3_process_cmd K C none cmd_type a arg_size = some r ∧
      r.rc = -K.EINVAL ∧ r.calls = [] ∧ r.rsrc_node = none) ∧
    (∀ n, ∃ r, cam_vfe_camif_ver3_process_cmd K C n cmd_type none arg_size = some r ∧
      r.rc = -K.EINVAL ∧ r.calls = [] ∧ r.rsrc_node = n) := by
  obtain ⟨_, h2, h3, h4, h5, h6⟩ := hd
  refine ⟨?_, ?_, ?_, ?_, ?_⟩
  · intro hc
    have n1 : cmd_type ≠ C.CAM_ISP_HW_CMD_GET_REG_UPDATE := by rw [hc]; exact Ne.symm h2
    have n2 : cmd_type ≠ C.CAM_ISP_HW_CMD_GET_REG_DUMP := by rw [hc]; exact Ne.symm h4
    unfold cam_vfe_camif_ver3_process_cmd
    dsimp only
    rw [if_neg n1, if_neg n2, if_pos hc]
    refine ⟨_, rfl, rfl, rfl, ?_⟩
    unfold cam_vfe_camif_ver3_sof_irq_debug
    by_cases ha : args.as_u32 = 1 <;> simp [ha]
  · intro hc
    have n1 : cmd_type ≠ C.CAM_ISP_HW_CMD_GET_REG_UPDATE := by rw [hc]; exact Ne.symm h3
    have n2 : cmd_type ≠ C.CAM_ISP_HW_CMD_GET_REG_DUMP := by rw [hc]; exact Ne.symm h5
    have n3 : cmd_type ≠ C.CAM_ISP_HW_CMD_SOF_IRQ_DEBUG := by rw [hc]; exact Ne.symm h6
    unfold cam_vfe_camif_ver3_process_cmd
    dsimp only
    rw [if_neg n1, if_neg n2, if_neg n3, if_pos hc]
    exact ⟨_, rfl, rfl, rfl, rfl⟩
  · intro n1 n2 n3 n4
    unfold cam_vfe_camif_ver3_process_cmd
    dsimp only
    rw [if_neg n1, if_neg n2, if_neg n3, if_neg n4]
    exact ⟨_, rfl, rfl, rfl, rfl⟩
  · intro a
    unfold cam_vfe_camif_ver3_process_cmd
    exact ⟨_, rfl, rfl, rfl, rfl⟩
  · intro n
    cases n with
    | none =>
      unfold cam_vfe_camif_ver3_process_cmd
      exact ⟨_, rfl, rfl, rfl, rfl⟩
    | some nd =>
      unfold cam_vfe_camif_ver3_process_cmd
      exact ⟨_, rfl, rfl, rfl, rfl⟩

/-- C12 fails on the code for `CAM_ISP_HW_CMD_SET_CAMIF_DEBUG` (14 in the sample
constants): with a non-null node and an argument holding 1 the call stores 1 in
`camif_debug` and returns `-EINVAL` (`-22`), not 0, while the sibling command
`CAM_ISP_HW_CMD_SOF_IRQ_DEBUG` (13) returns 0 on the same arguments. -/
theorem process_cmd_set_camif_debug_returns_einval :
    (cam_vfe_camif_ver3_process_cmd cam_defs.sample cam_cmd_defs.sample (some sample_node)
        cam_cmd_defs.sample.CAM_ISP_HW_CMD_SET_CAMIF_DEBUG (some ⟨1, sample_cmd_update⟩)
        4).map (fun r => (r.rc, r.rsrc_node.map (fun n => n.res_priv.camif_debug))) =
      some (-22, some 1) ∧
    sample_node.res_priv.camif_debug = 0 ∧
    (cam_vfe_camif_ver3_process_cmd cam_defs.sample cam_cmd_defs.sample (some sample_node)
        cam_cmd_defs.sample.CAM_ISP_HW_CMD_SOF_IRQ_DEBUG (some ⟨1, sample_cmd_update⟩)
        4).map (fun r => (r.rc, r.rsrc_node.map (fun n => n.res_priv.enable_sof_irq_debug))) =
      some (0, some true) := by
  refine ⟨by decide, by decide, by decide⟩

/-! ## The SOF debug counter -/

/-- The bottom half on an SOF interrupt with the SOF bit set, taken in debug mode:
the counter is incremented and, when it reaches the maximum, cleared together with
the flag. -/
theorem bottom_half_sof_debug (K : cam_defs) (node : cam_isp_resource_node)
    (payload : cam_vfe_top_irq_evt_payload) (irq_status2 : Nat)
    (he : payload.evt_id = K.CAM_ISP_HW_EVENT_SOF)
    (hm : payload.irq_reg_val.getD K.CAM_IFE_IRQ_CAMIF_REG_STATUS1 0 &&&
      node.res_priv.reg_data.sof_irq_mask ≠ 0)
    (hdbg : sof_debug_mode node.res_priv) :
    cam_vfe_camif_ver3_handle_irq_bottom_half K (some node) (some payload) irq_status2 =
      (K.CAM_VFE_IRQ_STATUS_SUCCESS,
       some { node with res_priv := sof_debug_advance node.res_priv }, []) := by
  have hd : node.res_priv.enable_sof_irq_debug = true ∧
      node.res_priv.irq_debug_cnt ≤ CAM_VFE_CAMIF_IRQ_SOF_DEBUG_CNT_MAX := hdbg
  unfold cam_vfe_camif_ver3_handle_irq_bottom_half sof_debug_advance
  dsimp only
  rw [if_pos he, if_pos hm, if_pos hd]

/-- The bottom half outside debug mode leaves the resource node as it is. -/
theorem bottom_half_no_debug (K : cam_defs) (node : cam_isp_resource_node)
    (p : Option cam_vfe_top_irq_evt_payload) (irq_status2 : Nat)
    (hdbg : ¬ sof_debug_mode node.res_priv) :
    (cam_vfe_camif_ver3_handle_irq_bottom_half K (some node) p irq_status2).2.1 =
      some node := by
  have hd : ¬ (node.res_priv.enable_sof_irq_debug = true ∧
      node.res_priv.irq_debug_cnt ≤ CAM_VFE_CAMIF_IRQ_SOF_DEBUG_CNT_MAX) := hdbg
  unfold cam_vfe_camif_ver3_handle_irq_bottom_half
  cases p with
  | none => rfl
  | some payload =>
    dsimp only
    rw [if_neg hd]
    repeat' split
    all_goals rfl

/-- The bottom half keeps the counter in `{0, 1}`. -/
theorem bottom_half_cnt (K : cam_defs) (node node1 : cam_isp_resource_node)
    (p : Option cam_vfe_top_irq_evt_payload) (irq_status2 : Nat)
    (hc : node.res_priv.irq_debug_cnt = 0 ∨ node.res_priv.irq_debug_cnt = 1)
    (h1 : (cam_vfe_camif_ver3_handle_irq_bottom_half K (some node) p irq_status2).2.1 =
      some node1) :
    node1.res_priv.irq_debug_cnt = 0 ∨ node1.res_priv.irq_debug_cnt = 1 := by
  by_cases hdbg : sof_debug_mode node.res_priv
  · cases p with
    | none =>
      have : node1 = node := by
        unfold cam_vfe_camif_ver3_handle_irq_bottom_half at h1
        injection h1 with h1
        exact h1.symm
      rw [this]
      exact hc
    | some payload =>
      by_cases he : payload.evt_id = K.CAM_ISP_HW_EVENT_SOF
      · by_cases hm : payload.irq_reg_val.getD K.CAM_IFE_IRQ_CAMIF_REG_STATUS1 0 &&&
            node.res_priv.reg_data.sof_irq_mask ≠ 0
        · rw [bottom_half_sof_debug K node payload irq_status2 he hm hdbg] at h1
          injection h1 with h1
          rw [← h1]
          unfold sof_debug_advance
          rcases hc with h0 | h0
          · right
            rw [h0]
            rfl
          · left
            rw [h0]
            rfl
        · have : node1 = node := by
            unfold cam_vfe_camif_ver3_handle_irq_bottom_half at h1
            dsimp only at h1
            rw [if_pos he, if_neg hm] at h1
            injection h1 with h1
            exact h1.symm
          rw [this]
          exact hc
      · have : node1 = node := by
          unfold cam_vfe_camif_ver3_handle_irq_bottom_half at h1
          dsimp only at h1
          rw [if_neg he] at h1
          repeat' split at h1
          all_goals (injection h1 with h1; exact h1.symm)
        rw [this]
        exact hc
  · rw [bottom_half_no_debug K node p irq_status2 hdbg] at h1
    injection h1 with h1
    rw [← h1]
    exact hc

/-- `resource_start` leaves the counter alone or clears it. -/
theorem resource_start_cnt (K : cam_defs) (rd : Nat → Nat)
    (node node1 : cam_isp_resource_node)
    (h1 : (cam_vfe_camif_ver3_resource_start K rd (some node)).2.1 = some node1) :
    node1.res_priv.irq_debug_cnt = node.res_priv.irq_debug_cnt ∨
      node1.res_priv.irq_debug_cnt = 0 := by
  unfold cam_vfe_camif_ver3_resource_start at h1
  dsimp only at h1
  repeat' split at h1
  all_goals (injection h1 with h1; rw [← h1])
  all_goals first | exact Or.inl rfl | exact Or.inr rfl

/-- `process_cmd` never changes the counter. -/
theorem process_cmd_cnt (K : cam_defs) (C : cam_cmd_defs) (node node1 : cam_isp_resource_node)
    (cmd_type : Nat) (a : Option cam_cmd_args) (arg_size : Nat) (r : process_cmd_result)
    (hr : cam_vfe_camif_ver3_process_cmd K C (some node) cmd_type a arg_size = some r)
    (h1 : r.rsrc_node = some node1) :
    node1.res_priv.irq_debug_cnt = node.res_priv.irq_debug_cnt := by
  unfold cam_vfe_camif_ver3_process_cmd at hr
  dsimp only at hr
  cases a with
  | none =>
    injection hr with hr
    rw [← hr] at h1
    injection h1 with h1
    rw [← h1]
  | some args =>
    dsimp only at hr
    split at hr
    · injection hr with hr
      rw [← hr] at h1
      injection h1 with h1
      rw [← h1]
    · split at hr
      · split at hr
        · cases hr
        · injection hr with hr
          rw [← hr] at h1
          injection h1 with h1
          rw [← h1]
      · split at hr
        · injection hr with hr
          rw [← hr] at h1
          injection h1 with h1
          rw [← h1]
          unfold cam_vfe_camif_ver3_sof_irq_debug
          dsimp only
          split <;> rfl
        · split at hr
          · injection hr with hr
            rw [← hr] at h1
            injection h1 with h1
            rw [← h1]
          · injection hr with hr
            rw [← hr] at h1
            injection h1 with h1
            rw [← h1]

/-- One call keeps the counter in `{0, 1}`. -/
theorem camif_step_cnt (K : cam_defs) (C : cam_cmd_defs) (node node1 : cam_isp_resource_node)
    (c : camif_call)
    (hc : node.res_priv.irq_debug_cnt = 0 ∨ node.res_priv.irq_debug_cnt = 1)
    (h1 : camif_step K C node c = some node1) :
    node1.res_priv.irq_debug_cnt = 0 ∨ node1.res_priv.irq_debug_cnt = 1 := by
  cases c with
  | acquire a =>
    have : node1.res_priv.irq_debug_cnt = node.res_priv.irq_debug_cnt := by
      simp only [camif_step, Option.some.injEq] at h1
      rw [← h1]
      unfold cam_vfe_camif_ver3_acquire_resource
      dsimp only
      split <;> rfl
    rw [this]
    exact hc
  | start rd =>
    rcases resource_start_cnt K rd node node1 h1 with h | h
    · rw [h]
      exact hc
    · exact Or.inl h
  | process_cmd t a n =>
    simp only [camif_step] at h1
    split at h1
    · cases h1
    · rename_i r hr
      rw [process_cmd_cnt K C node node1 t a n r hr h1]
      exact hc
  | bottom_half p s => exact bottom_half_cnt K node node1 p s hc h1

/-- Any sequence of calls keeps the counter in `{0, 1}`. -/
theorem camif_run_cnt (K : cam_defs) (C : cam_cmd_defs) (calls : List camif_call) :
    ∀ node node1 : cam_isp_resource_node,
      (node.res_priv.irq_debug_cnt = 0 ∨ node.res_priv.irq_debug_cnt = 1) →
      camif_run K C node calls = some node1 →
      node1.res_priv.irq_debug_cnt = 0 ∨ node1.res_priv.irq_debug_cnt = 1 := by
  induction calls with
  | nil =>
    intro node node1 hc h1
    simp only [camif_run, Option.some.injEq] at h1
    rw [← h1]
    exact hc
  | cons c cs ih =>
    intro node node1 hc h1
    simp only [camif_run] at h1
    split at h1
    · cases h1
    · rename_i n2 hn2
      exact ih n2 node1 (camif_step_cnt K C node n2 c hc hn2) h1

/-- C13: (1) starting from `irq_debug_cnt = 0` with SOF debug enabled, the first
two SOF interrupts whose status 1 has the SOF mask bit set are handled in debug
mode: the first leaves the flag set and the counter at 1, the second clears
`enable_sof_irq_debug` and resets `irq_debug_cnt` to 0, and from then on no interrupt
is handled in debug mode and the bottom half leaves the node alone (exactly
`CAM_VFE_CAMIF_IRQ_SOF_DEBUG_CNT_MAX = 2` were).  (2) From a node with
`irq_debug_cnt = 0`, in every state reached by any sequence of `acquire`,
`resource_start`, `process_cmd` (the `SOF_IRQ_DEBUG` command included) and bottom
half calls, `irq_debug_cnt` is 0 or 1.  (3) `init` leaves `irq_debug_cnt = 0`. -/
theorem sof_irq_debug_counter (K : cam_defs) (C : cam_cmd_defs) :
    CAM_VFE_CAMIF_IRQ_SOF_DEBUG_CNT_MAX = 2 ∧
    (∀ (node : cam_isp_resource_node) (p1 p2 : cam_vfe_top_irq_evt_payload) (s1 s2 : Nat),
      node.res_priv.enable_sof_irq_debug = true → node.res_priv.irq_debug_cnt = 0 →
      p1.evt_id = K.CAM_ISP_HW_EVENT_SOF →
      p1.irq_reg_val.getD K.CAM_IFE_IRQ_CAMIF_REG_STATUS1 0 &&&
        node.res_priv.reg_data.sof_irq_mask ≠ 0 →
      p2.evt_id = K.CAM_ISP_HW_EVENT_SOF →
      p2.irq_reg_val.getD K.CAM_IFE_IRQ_CAMIF_REG_STATUS1 0 &&&
        node.res_priv.reg_data.sof_irq_mask ≠ 0 →
      ∃ n1 n2 : cam_isp_resource_node,
        sof_debug_mode node.res_priv ∧
        cam_vfe_camif_ver3_handle_irq_bottom_half K (some node) (some p1) s1 =
          (K.CAM_VFE_IRQ_STATUS_SUCCESS, some n1, []) ∧
        n1.res_priv.enable_sof_irq_debug = true ∧ n1.res_priv.irq_debug_cnt = 1 ∧
        sof_debug_mode n1.res_priv ∧
        cam_vfe_camif_ver3_handle_irq_bottom_half K (some n1) (some p2) s2 =
          (K.CAM_VFE_IRQ_STATUS_SUCCESS, some n2, []) ∧
        n2.res_priv.enable_sof_irq_debug = false ∧ n2.res_priv.irq_debug_cnt = 0 ∧
        ¬ sof_debug_mode n2.res_priv ∧
        ∀ p3 s3, (cam_vfe_camif_ver3_handle_irq_bottom_half K (some n2) p3 s3).2.1 =
          some n2) ∧
    (∀ (node0 node : cam_isp_resource_node) (calls : List camif_call),
      node0.res_priv.irq_debug_cnt = 0 → camif_run K C node0 calls = some node →
      node.res_priv.irq_debug_cnt = 0 ∨ node.res_priv.irq_debug_cnt = 1) ∧
    (∀ hw_intf soc_info mem_base info node,
      (cam_vfe_camif_ver3_init K true hw_intf soc_info mem_base info
        node).2.res_priv.irq_debug_cnt = 0) := by
  refine ⟨rfl, ?_, ?_, ?_⟩
  · intro node p1 p2 s1 s2 hf hc he1 hm1 he2 hm2
    have hd0 : sof_debug_mode node.res_priv := ⟨hf, by rw [hc]; decide⟩
    have hadv1 : sof_debug_advance node.res_priv =
        { node.res_priv with irq_debug_cnt := 1 } := by
      unfold sof_debug_advance
      rw [hc]
      rfl
    have hd1 : sof_debug_mode (sof_debug_advance node.res_priv) := by
      rw [hadv1]
      exact ⟨hf, (show (1 : Nat) ≤ 2 from by decide)⟩
    have hadv2 : sof_debug_advance (sof_debug_advance node.res_priv) =
        { node.res_priv with enable_sof_irq_debug := false, irq_debug_cnt := 0 } := by
      rw [hadv1]
      rfl
    have hm2a : p2.irq_reg_val.getD K.CAM_IFE_IRQ_CAMIF_REG_STATUS1 0 &&&
        (sof_debug_advance node.res_priv).reg_data.sof_irq_mask ≠ 0 := by
      rw [hadv1]
      exact hm2
    have hnd2 : ¬ sof_debug_mode (sof_debug_advance (sof_debug_advance node.res_priv)) := by
      rw [hadv2]
      intro h
      cases h.1
    refine ⟨cam_isp_resource_node.mk node.res_state (sof_debug_advance node.res_priv)
        node.hw_intf,
      cam_isp_resource_node.mk node.res_state
        (sof_debug_advance (sof_debug_advance node.res_priv)) node.hw_intf,
      hd0, bottom_half_sof_debug K node p1 s1 he1 hm1 hd0, ?_, ?_, hd1,
      bottom_half_sof_debug K _ p2 s2 he2 hm2a hd1, ?_, ?_, hnd2,
      fun p3 s3 => bottom_half_no_debug K _ p3 s3 hnd2⟩
    · show (sof_debug_advance node.res_priv).enable_sof_irq_debug = true
      rw [hadv1]
      exact hf
    · show (sof_debug_advance node.res_priv).irq_debug_cnt = 1
      rw [hadv1]
    · show (sof_debug_advance (sof_debug_advance node.res_priv)).enable_sof_irq_debug = false
      rw [hadv2]
    · show (sof_debug_advance (sof_debug_advance node.res_priv)).irq_debug_cnt = 0
      rw [hadv2]
  · intro node0 node calls h0 hrun
    exact camif_run_cnt K C calls node0 node (Or.inl h0) hrun
  · intro hw_intf soc_info mem_base info node
    rfl

/-- C13, at a concrete input: on the sample node with SOF debug enabled two SOF
interrupts are handled in debug mode, the second ending it; and after the
`SOF_IRQ_DEBUG` command and one SOF interrupt on the sample node the counter is 1. -/
theorem sof_irq_debug_counter_witness :
    (∃ n1 n2 : cam_isp_resource_node,
      sof_debug_mode sample_node_debug.res_priv ∧
      cam_vfe_camif_ver3_handle_irq_bottom_half cam_defs.sample (some sample_node_debug)
          (some sample_sof_payload) 0 =
        (cam_defs.sample.CAM_VFE_IRQ_STATUS_SUCCESS, some n1, []) ∧
      n1.res_priv.enable_sof_irq_debug = true ∧ n1.res_priv.irq_debug_cnt = 1 ∧
      sof_debug_mode n1.res_priv ∧
      cam_vfe_camif_ver3_handle_irq_bottom_half cam_defs.sample (some n1)
          (some sample_sof_payload) 0 =
        (cam_defs.sample.CAM_VFE_IRQ_STATUS_SUCCESS, some n2, []) ∧
      n2.res_priv.enable_sof_irq_debug = false ∧ n2.res_priv.irq_debug_cnt = 0 ∧
      ¬ sof_debug_mode n2.res_priv ∧
      ∀ p3 s3, (cam_vfe_camif_ver3_handle_irq_bottom_half cam_defs.sample (some n2)
        p3 s3).2.1 = some n2) ∧
    camif_run cam_defs.sample cam_cmd_defs.sample sample_node sample_calls =
      some sample_node_debug1 ∧
    (sample_node_debug1.res_priv.irq_debug_cnt = 0 ∨
      sample_node_debug1.res_priv.irq_debug_cnt = 1) :=
  ⟨(sof_irq_debug_counter cam_defs.sample cam_cmd_defs.sample).2.1 sample_node_debug
      sample_sof_payload sample_sof_payload 0 0 rfl rfl rfl (by decide) rfl (by decide),
   rfl,
   (sof_irq_debug_counter cam_defs.sample cam_cmd_defs.sample).2.2.1 sample_node
      sample_node_debug1 sample_calls rfl rfl⟩

/-! ## The epoch configuration -/

/-- Two 16-bit fields packed as in source line 292: the low half-word is `b`, the
high half-word is `a`. -/
theorem pack_halfwords (a b : Nat) (ha : a < 65536) (hb : b < 65536) :
    u32_shl a 16 ||| b = a * 65536 + b ∧ (u32_shl a 16 ||| b) % 65536 = b ∧
      (u32_shl a 16 ||| b) / 65536 = a ∧ u32_shl a 16 ||| b < 4294967296 := by
  have hs : u32_shl a 16 = 2 ^ 16 * a := by
    unfold u32_shl
    rw [Nat.shiftLeft_eq]
    have h32 : (2 : Nat) ^ 32 = 4294967296 := by norm_num
    have h16 : (2 : Nat) ^ 16 = 65536 := by norm_num
    rw [h32, h16]
    omega
  have hor : u32_shl a 16 ||| b = 2 ^ 16 * a + b := by
    rw [hs]
    exact (Nat.mul_add_lt_is_or (by norm_num; exact hb) a).symm
  have h16 : (2 : Nat) ^ 16 = 65536 := by norm_num
  rw [hor, h16]
  refine ⟨by omega, by omega, by omega, by omega⟩

/-- C14: on a successful `resource_start` (state RESERVED, `soc_private` present,
cpas version `CAM_CPAS_TITAN_480_V100`) the third hardware access is the write to
`mem_base + epoch_irq_cfg` of the `uint32_t` value
`((epoch_line_cfg & 0xFFFF) << 16) | (first_line + (last_line - first_line) / 4)`.
When `first_line <= last_line < 2 ^ 16`, the low 16 bits of that value are the
epoch-0 line `first_line + (last_line - first_line) / 4`, which lies between
`first_line` and `last_line` inclusive, and the high 16 bits are exactly the low 16
bits of `epoch_line_cfg`. -/
theorem resource_start_epoch_irq_cfg (K : cam_defs) (rd : Nat → Nat)
    (node : cam_isp_resource_node) (sp : cam_vfe_soc_private)
    (hst : node.res_state = K.CAM_ISP_RESOURCE_STATE_RESERVED)
    (hsp : node.res_priv.soc_info.soc_private = some sp)
    (hv : sp.cpas_version = K.CAM_CPAS_TITAN_480_V100) :
    (cam_vfe_camif_ver3_resource_start K rd (some node)).1 = 0 ∧
    (cam_vfe_camif_ver3_resource_start K rd (some node)).2.2[2]? =
      some (reg_access.w (epoch_irq_cfg_value node.res_priv)
        (node.res_priv.mem_base + node.res_priv.camif_reg.epoch_irq_cfg)) ∧
    epoch_irq_cfg_value node.res_priv =
      ((((node.res_priv.reg_data.epoch_line_cfg &&& 0xFFFF) <<< 16) % 2 ^ 32) |||
        ((((node.res_priv.last_line + 2 ^ 32 - node.res_priv.first_line % 2 ^ 32) % 2 ^ 32) / 4
          + node.res_priv.first_line) % 2 ^ 32)) ∧
    (node.res_priv.first_line ≤ node.res_priv.last_line →
      node.res_priv.last_line < 2 ^ 16 →
      epoch_irq_cfg_value node.res_priv < 2 ^ 32 ∧
      epoch_irq_cfg_value node.res_priv =
        (node.res_priv.reg_data.epoch_line_cfg % 2 ^ 16) * 2 ^ 16 +
          (node.res_priv.first_line +
            (node.res_priv.last_line - node.res_priv.first_line) / 4) ∧
      epoch_irq_cfg_value node.res_priv % 2 ^ 16 =
        node.res_priv.first_line +
          (node.res_priv.last_line - node.res_priv.first_line) / 4 ∧
      node.res_priv.first_line ≤ epoch_irq_cfg_value node.res_priv % 2 ^ 16 ∧
      epoch_irq_cfg_value node.res_priv % 2 ^ 16 ≤ node.res_priv.last_line ∧
      epoch_irq_cfg_value node.res_priv / 2 ^ 16 =
        node.res_priv.reg_data.epoch_line_cfg % 2 ^ 16) := by
  refine ⟨?_, ?_, rfl, ?_⟩
  · simp [cam_vfe_camif_ver3_resource_start, hst, hsp, hv]
  · simp [cam_vfe_camif_ver3_resource_start, hst, hsp, hv, epoch_irq_cfg_value]
  · intro hle hlt
    have h16 : (2 : Nat) ^ 16 = 65536 := by norm_num
    have h32 : (2 : Nat) ^ 32 = 4294967296 := by norm_num
    rw [h16] at hlt
    have ha : node.res_priv.reg_data.epoch_line_cfg &&& 0xFFFF =
        node.res_priv.reg_data.epoch_line_cfg % 65536 := by
      have := Nat.and_pow_two_sub_one_eq_mod node.res_priv.reg_data.epoch_line_cfg 16
      rw [h16] at this
      exact this
    have hb : u32 (u32_sub node.res_priv.last_line node.res_priv.first_line / 4 +
        node.res_priv.first_line) =
        node.res_priv.first_line +
          (node.res_priv.last_line - node.res_priv.first_line) / 4 := by
      unfold u32 u32_sub
      rw [h32]
      omega
    have hblt : node.res_priv.first_line +
        (node.res_priv.last_line - node.res_priv.first_line) / 4 < 65536 := by omega
    have halt : node.res_priv.reg_data.epoch_line_cfg % 65536 < 65536 :=
      Nat.mod_lt _ (by norm_num)
    obtain ⟨p1, p2, p3, p4⟩ := pack_halfwords _ _ halt hblt
    have hval : epoch_irq_cfg_value node.res_priv =
        u32_shl (node.res_priv.reg_data.epoch_line_cfg % 65536) 16 |||
          (node.res_priv.first_line +
            (node.res_priv.last_line - node.res_priv.first_line) / 4) := by
      unfold epoch_irq_cfg_value
      rw [ha, hb]
    rw [hval, h16, h32]
    refine ⟨p4, p1, p2, ?_, ?_, p3⟩
    · rw [p2]
      omega
    · rw [p2]
      omega

/-- C14, at a concrete input: the sample node (lines 0..1079, `epoch_line_cfg = 0x14`)
starts with the value `0x0014010D` written to the epoch register: epoch 1 at line
20, epoch 0 at line 269. -/
theorem resource_start_epoch_irq_cfg_witness :
    sample_node.res_priv.first_line ≤ sample_node.res_priv.last_line ∧
    sample_node.res_priv.last_line < 2 ^ 16 ∧
    (cam_vfe_camif_ver3_resource_start cam_defs.sample (fun _ => 0)
        (some sample_node)).2.2[2]? = some (reg_access.w 0x0014010D 0x2670) ∧
    epoch_irq_cfg_value sample_node.res_priv % 2 ^ 16 = 269 ∧
    epoch_irq_cfg_value sample_node.res_priv / 2 ^ 16 = 20 :=
  ⟨by decide, by decide,
   (resource_start_epoch_irq_cfg cam_defs.sample (fun _ => 0) sample_node
      ⟨cam_defs.sample.CAM_CPAS_TITAN_480_V100⟩ rfl rfl rfl).2.1,
   ((resource_start_epoch_irq_cfg cam_defs.sample (fun _ => 0) sample_node
      ⟨cam_defs.sample.CAM_CPAS_TITAN_480_V100⟩ rfl rfl rfl).2.2.2
      (by decide) (by decide)).2.2.1,
   ((resource_start_epoch_irq_cfg cam_defs.sample (fun _ => 0) sample_node
      ⟨cam_defs.sample.CAM_CPAS_TITAN_480_V100⟩ rfl rfl rfl).2.2.2
      (by decide) (by decide)).2.2.2.2.2⟩

end Camif

namespace GpuCC

/-! # Part III: the GPU clock controller -/

/-- C16: both root clock generators have a well-formed frequency table: the
frequencies strictly increase, every row's source is in the clock's parent map, the
parent map and the parent names have exactly `num_parents` entries (6 and 4), every
`rate_max` limit is a frequency of the table, and the highest limit equals the
highest table frequency, 500 MHz for `gpu_cc_gmu_clk_src` and 50 MHz for
`gpu_cc_rbcpr_clk_src`. -/
theorem rcg_tables_well_formed :
    rcg_well_formed gpu_cc_gmu_clk_src ∧
    highest (gpu_cc_gmu_clk_src.init.rate_max.map (fun r => r.2)) = 500000000 ∧
    highest (rcg_freqs gpu_cc_gmu_clk_src) = 500000000 ∧
    gpu_cc_gmu_clk_src.init.num_parents = 6 ∧
    rcg_well_formed gpu_cc_rbcpr_clk_src ∧
    highest (gpu_cc_rbcpr_clk_src.init.rate_max.map (fun r => r.2)) = 50000000 ∧
    highest (rcg_freqs gpu_cc_rbcpr_clk_src) = 50000000 ∧
    gpu_cc_rbcpr_clk_src.init.num_parents = 4 := by
  refine ⟨?_, ?_, ?_, ?_, ?_, ?_, ?_, ?_⟩
  · decide
  · decide
  · decide
  · rfl
  · decide
  · decide
  · decide
  · rfl

/-- The bits of the complement of the mask `0xFF0` in 32 bits. -/
theorem testBit_not_mask : ∀ i < 32,
    Nat.testBit (0xFFFFFFFF ^^^ 0xFF0) i = !(decide (4 ≤ i ∧ i ≤ 11)) := by
  decide

/-- The bits of the value `0xFF0` kept by the mask `0xFF0`. -/
theorem testBit_value_mask : ∀ i < 32,
    Nat.testBit (0xFF0 &&& 0xFF0) i = decide (4 ≤ i ∧ i ≤ 11) := by
  decide

/-- The bits of a 32-bit register after the update with mask and value `0xFF0`. -/
theorem regmap_update_bits_value_testBit (orig : Nat) (horig : orig < 2 ^ 32) (i : Nat) :
    (regmap_update_bits_value orig 0xFF0 0xFF0).testBit i =
      if 4 ≤ i ∧ i ≤ 11 then true else orig.testBit i := by
  unfold regmap_update_bits_value
  rw [Nat.testBit_or, Nat.testBit_and]
  by_cases hi : i < 32
  · rw [testBit_not_mask i hi, testBit_value_mask i hi]
    by_cases h : 4 ≤ i ∧ i ≤ 11
    · simp [h]
    · simp [h]
  · have hle : 2 ^ 32 ≤ 2 ^ i := Nat.pow_le_pow_right (by decide) (Nat.le_of_not_lt hi)
    have ho : orig.testBit i = false :=
      Nat.testBit_lt_two_pow (Nat.lt_of_lt_of_le horig hle)
    have hv : Nat.testBit (0xFF0 &&& 0xFF0) i = false :=
      Nat.testBit_lt_two_pow (Nat.lt_of_lt_of_le (by decide) hle)
    have hn : ¬ (4 ≤ i ∧ i ≤ 11) := fun h => hi (by omega)
    rw [ho, hv, if_neg hn]
    rfl

/-- C15: when the register map and both regulators are obtained,
`gpu_cc_lito_probe` updates the control register of `gpu_cc_cx_gmu_clk` (offset
`0x1098`) once, between the PLL configuration and the registration of the clocks,
with mask `0xFF0` and value `0xFF0`; the value has no bit outside the mask; and for
every previous 32-bit content of the register the update yields a 32-bit content
whose bits 4..11 (SLEEP bits 4..7, WAKE bits 8..11) are 1 and whose every other bit,
the enable bit (the only bit of `enable_mask`) included, is the previous one. -/
theorem probe_cx_gmu_wake_sleep_update (env : probe_env)
    (hmap : env.qcom_cc_map_err = none) (hcx : env.vdd_cx_err = none)
    (hmx : env.vdd_mx_err = none) :
    (gpu_cc_lito_probe env).2 =
      [probe_call.clk_lucid_pll_configure 0x100,
       probe_call.regmap_update_bits 0x1098 0xFF0 0xFF0,
       probe_call.qcom_cc_really_probe] ∧
    gpu_cc_cx_gmu_clk.enable_reg = 0x1098 ∧
    gpu_cc_cx_gmu_clk.enable_mask = 2 ^ 0 ∧
    0xFF0 &&& (0xFFFFFFFF ^^^ 0xFF0) = 0 ∧
    ∀ orig : Nat, orig < 2 ^ 32 →
      regmap_update_bits_value orig 0xFF0 0xFF0 < 2 ^ 32 ∧
      (∀ i : Nat, 4 ≤ i → i ≤ 11 →
        (regmap_update_bits_value orig 0xFF0 0xFF0).testBit i = true) ∧
      (∀ i : Nat, ¬ (4 ≤ i ∧ i ≤ 11) →
        (regmap_update_bits_value orig 0xFF0 0xFF0).testBit i = orig.testBit i) ∧
      (regmap_update_bits_value orig 0xFF0 0xFF0).testBit 0 = orig.testBit 0 := by
  refine ⟨?_, rfl, rfl, by decide, ?_⟩
  · unfold gpu_cc_lito_probe
    rw [hmap, hcx, hmx]
    by_cases hr : env.really_probe_ret ≠ 0
    · simp only [if_pos hr]
      rfl
    · simp only [if_neg hr]
      rfl
  · intro orig horig
    refine ⟨?_, ?_, ?_, ?_⟩
    · unfold regmap_update_bits_value
      exact Nat.or_lt_two_pow (Nat.lt_of_le_of_lt Nat.and_le_left horig) (by decide)
    · intro i h4 h11
      rw [regmap_update_bits_value_testBit orig horig i, if_pos ⟨h4, h11⟩]
    · intro i hn
      rw [regmap_update_bits_value_testBit orig horig i, if_neg hn]
    · rw [regmap_update_bits_value_testBit orig horig 0, if_neg (by decide)]

/-- Witness for C15: a probe in which every call succeeds, and the register content
`0x80000001` (enable bit set), which the update turns into `0x80000FF1`. -/
theorem probe_cx_gmu_wake_sleep_update_witness :
    sample_probe_env.qcom_cc_map_err = none ∧ sample_probe_env.vdd_cx_err = none ∧
    sample_probe_env.vdd_mx_err = none ∧
    (gpu_cc_lito_probe sample_probe_env).1 = 0 ∧
    (gpu_cc_lito_probe sample_probe_env).2 =
      [probe_call.clk_lucid_pll_configure 0x100,
       probe_call.regmap_update_bits 0x1098 0xFF0 0xFF0,
       probe_call.qcom_cc_really_probe] ∧
    regmap_update_bits_value 0x80000001 0xFF0 0xFF0 = 0x80000FF1 ∧
    (regmap_update_bits_value 0x80000001 0xFF0 0xFF0).testBit 0 =
      Nat.testBit 0x80000001 0 :=
  ⟨rfl, rfl, rfl, rfl,
   (probe_cx_gmu_wake_sleep_update sample_probe_env rfl rfl rfl).1, by decide,
   ((probe_cx_gmu_wake_sleep_update sample_probe_env rfl rfl rfl).2.2.2.2
      0x80000001 (by decide)).2.2.2⟩

end GpuCC
